import Mathlib

/-!
# GPU resource and frame-pacing core of the engine

A shallow embedding of the parts of `src/engine.cpp` that select device
memory, transition image layouts, generate mipmaps and pace frames, together
with the properties proved about them.

Conventions of the embedding:

* Vulkan flag words (`VkFlags`, `uint32_t`) are natural numbers; where the
  source relies on 32-bit arithmetic the reduction modulo `2 ^ 32` is written
  out.
* Driver calls are not executed.  What the driver answers is an explicit input
  record, and what the engine asks of the driver is logged as a list of calls.
* A C++ exception is a value of an error type; a function that can throw
  returns the calls it made up to that point together with the error.
-/

namespace Engine

/-! ## Error kinds -/

/-- The `runtime_error` / `invalid_argument` exceptions thrown by the modelled
functions, named after the error kinds of the design. -/
inductive EngineError where
  /-- Thrown by `findMemoryType`: "Couldn't determine the memory type." -/
  | NoSuitableMemoryType
  /-- Thrown by `createBuffer`: "failed to create buffer!" -/
  | BufferCreation
  /-- Thrown by `createImage`: "failed to create image!" -/
  | ImageCreation
  /-- Thrown by `createBuffer` / `createImage`: "failed to allocate ... memory!" -/
  | MemoryAllocation
  /-- Thrown by `transitionImageLayout`: "unsupported layout transition!" -/
  | UnsupportedLayoutTransition
  /-- Thrown by `generateMipmaps`: "texture image format does not support linear blitting!" -/
  | LinearBlitUnsupported
  deriving DecidableEq, Repr

/-! ## Memory-type selection (`Engine::findMemoryType`) -/

/-- The part of `VkPhysicalDeviceMemoryProperties` that `findMemoryType` reads:
`memoryTypeCount` and, for each index, `memoryTypes[i].propertyFlags`. -/
structure VkPhysicalDeviceMemoryProperties where
  memoryTypeCount : Nat
  /-- The value of `memoryTypes[i].propertyFlags`. -/
  propertyFlags : Nat → Nat

/-- The constant `VK_MAX_MEMORY_TYPES`: the length of the `memoryTypes` array,
hence the largest `memoryTypeCount` a device can report. -/
def VK_MAX_MEMORY_TYPES : Nat := 32

/-- The loop condition of `findMemoryType` at index `i`:
`(typeFilter & (1 << i)) && (memoryTypes[i].propertyFlags & properties) == properties`.
The shift is a 32-bit shift, so its result is reduced modulo `2 ^ 32`. -/
def memoryTypeMatches (memProperties : VkPhysicalDeviceMemoryProperties)
    (typeFilter properties i : Nat) : Bool :=
  (typeFilter &&& ((1 <<< i) % 2 ^ 32) != 0) &&
    (memProperties.propertyFlags i &&& properties == properties)

/-- The loop `for (uint32_t i = 0; i < memProperties.memoryTypeCount; i++)` of
`findMemoryType`, with `remaining` iterations still to run and the next one at
index `i`; falling out of the loop reaches the `throw`. -/
def findMemoryTypeFrom (memProperties : VkPhysicalDeviceMemoryProperties)
    (typeFilter properties : Nat) : (remaining : Nat) → (i : Nat) → Except EngineError Nat
  | 0, _ => .error .NoSuitableMemoryType
  | remaining + 1, i =>
    if memoryTypeMatches memProperties typeFilter properties i then
      .ok i
    else
      findMemoryTypeFrom memProperties typeFilter properties remaining (i + 1)

/-- Model of `Engine::findMemoryType(typeFilter, properties)`, with the table that
`vkGetPhysicalDeviceMemoryProperties` fills in passed as an argument. -/
def findMemoryType (memProperties : VkPhysicalDeviceMemoryProperties)
    (typeFilter properties : Nat) : Except EngineError Nat :=
  findMemoryTypeFrom memProperties typeFilter properties memProperties.memoryTypeCount 0

/-! ## Buffer and image factories (`Engine::createBuffer`, `Engine::createImage`) -/

/-- A `VkResult` code, kept as the integer the driver returns. -/
abbrev VkResult := Int

/-- The success code. -/
def VK_SUCCESS : VkResult := 0

/-- The code for a swapchain that still works but no longer matches the surface. -/
def VK_SUBOPTIMAL_KHR : VkResult := 1000001003

/-- The code for a swapchain that can no longer be presented to. -/
def VK_ERROR_OUT_OF_DATE_KHR : VkResult := -1000001004

/-- The fields of `VkMemoryRequirements` the factories read. -/
structure VkMemoryRequirements where
  size : Nat
  memoryTypeBits : Nat

/-- What the driver answers during one `createBuffer` or `createImage` call. -/
structure AllocationDriver where
  /-- The table returned by `vkGetPhysicalDeviceMemoryProperties`. -/
  memProperties : VkPhysicalDeviceMemoryProperties
  /-- The result of `vkCreateBuffer` / `vkCreateImage`. -/
  createResult : VkResult
  /-- The requirements of the object just created. -/
  memRequirements : VkMemoryRequirements
  /-- The result of `vkAllocateMemory`. -/
  allocateResult : VkResult

/-- The driver calls the two factories make, in the order they are made. -/
inductive AllocationCall where
  | vkCreateBuffer (size usage : Nat)
  | vkGetBufferMemoryRequirements
  | vkCreateImage (width height mipLevels numSamples format tiling usage : Nat)
  | vkGetImageMemoryRequirements
  | vkAllocateMemory (allocationSize memoryTypeIndex : Nat)
  | vkBindBufferMemory (memoryOffset : Nat)
  | vkBindImageMemory (memoryOffset : Nat)
  deriving DecidableEq, Repr

/-- Model of `Engine::createBuffer(size, usage, properties, buffer, bufferMemory)`: the
calls made and, when an exception is thrown, its kind. -/
def createBuffer (driver : AllocationDriver) (size usage properties : Nat) :
    List AllocationCall × Except EngineError Unit :=
  if driver.createResult ≠ VK_SUCCESS then
    ([.vkCreateBuffer size usage], .error .BufferCreation)
  else
    match findMemoryType driver.memProperties driver.memRequirements.memoryTypeBits properties with
    | .error e =>
      ([.vkCreateBuffer size usage, .vkGetBufferMemoryRequirements], .error e)
    | .ok memoryTypeIndex =>
      if driver.allocateResult ≠ VK_SUCCESS then
        ([.vkCreateBuffer size usage, .vkGetBufferMemoryRequirements,
          .vkAllocateMemory driver.memRequirements.size memoryTypeIndex],
         .error .MemoryAllocation)
      else
        ([.vkCreateBuffer size usage, .vkGetBufferMemoryRequirements,
          .vkAllocateMemory driver.memRequirements.size memoryTypeIndex,
          .vkBindBufferMemory 0],
         .ok ())

/-- Model of `Engine::createImage(width, height, mipLevels, numSamples, format, tiling,
usage, properties, image, imageMemory)`: the calls made and, when an exception
is thrown, its kind. -/
def createImage (driver : AllocationDriver)
    (width height mipLevels numSamples format tiling usage properties : Nat) :
    List AllocationCall × Except EngineError Unit :=
  if driver.createResult ≠ VK_SUCCESS then
    ([.vkCreateImage width height mipLevels numSamples format tiling usage],
     .error .ImageCreation)
  else
    match findMemoryType driver.memProperties driver.memRequirements.memoryTypeBits properties with
    | .error e =>
      ([.vkCreateImage width height mipLevels numSamples format tiling usage,
        .vkGetImageMemoryRequirements], .error e)
    | .ok memoryTypeIndex =>
      if driver.allocateResult ≠ VK_SUCCESS then
        ([.vkCreateImage width height mipLevels numSamples format tiling usage,
          .vkGetImageMemoryRequirements,
          .vkAllocateMemory driver.memRequirements.size memoryTypeIndex],
         .error .MemoryAllocation)
      else
        ([.vkCreateImage width height mipLevels numSamples format tiling usage,
          .vkGetImageMemoryRequirements,
          .vkAllocateMemory driver.memRequirements.size memoryTypeIndex,
          .vkBindImageMemory 0],
         .ok ())

/-- Whether a call is `vkAllocateMemory`. -/
def AllocationCall.isAllocate : AllocationCall → Bool
  | .vkAllocateMemory _ _ => true
  | _ => false

/-! ## Image layouts, stage and access masks -/

/-- A `VkImageLayout` enumerator, kept as its numeric value. -/
abbrev VkImageLayout := Nat

/-- Layout enumerator 0. -/
def VK_IMAGE_LAYOUT_UNDEFINED : VkImageLayout := 0
/-- Layout enumerator 5. -/
def VK_IMAGE_LAYOUT_SHADER_READ_ONLY_OPTIMAL : VkImageLayout := 5
/-- Layout enumerator 6. -/
def VK_IMAGE_LAYOUT_TRANSFER_SRC_OPTIMAL : VkImageLayout := 6
/-- Layout enumerator 7. -/
def VK_IMAGE_LAYOUT_TRANSFER_DST_OPTIMAL : VkImageLayout := 7
/-- Layout enumerator of the presentation extension. -/
def VK_IMAGE_LAYOUT_PRESENT_SRC_KHR : VkImageLayout := 1000001002

/-- Pipeline stage bit `0x00000001`. -/
def VK_PIPELINE_STAGE_TOP_OF_PIPE_BIT : Nat := 0x00000001
/-- Pipeline stage bit `0x00000080`. -/
def VK_PIPELINE_STAGE_FRAGMENT_SHADER_BIT : Nat := 0x00000080
/-- Pipeline stage bit `0x00001000`. -/
def VK_PIPELINE_STAGE_TRANSFER_BIT : Nat := 0x00001000
/-- Pipeline stage bit `0x00002000`. -/
def VK_PIPELINE_STAGE_BOTTOM_OF_PIPE_BIT : Nat := 0x00002000

/-- Access bit `0x00000020`. -/
def VK_ACCESS_SHADER_READ_BIT : Nat := 0x00000020
/-- Access bit `0x00000800`. -/
def VK_ACCESS_TRANSFER_READ_BIT : Nat := 0x00000800
/-- Access bit `0x00001000`. -/
def VK_ACCESS_TRANSFER_WRITE_BIT : Nat := 0x00001000

/-- Format feature bit `0x00001000`, tested by `generateMipmaps`. -/
def VK_FORMAT_FEATURE_SAMPLED_IMAGE_FILTER_LINEAR_BIT : Nat := 0x00001000

/-- The fields of `VkImageMemoryBarrier` that vary in the modelled code; the
queue-family indices are always `VK_QUEUE_FAMILY_IGNORED`, the aspect is always
colour, and the array layer range is always layer 0, count 1. -/
structure VkImageMemoryBarrier where
  srcAccessMask : Nat
  dstAccessMask : Nat
  oldLayout : VkImageLayout
  newLayout : VkImageLayout
  image : Nat
  baseMipLevel : Nat
  levelCount : Nat
  deriving DecidableEq, Repr

/-- The fields of `VkImageBlit` that vary in the modelled code: the two mip
levels and the `x`, `y` components of `srcOffsets[1]` and `dstOffsets[1]`
(`srcOffsets[0]` and `dstOffsets[0]` are the origin, the `z` extent is 1). -/
structure VkImageBlit where
  srcMipLevel : Nat
  srcWidth : Int
  srcHeight : Int
  dstMipLevel : Nat
  dstWidth : Int
  dstHeight : Int
  deriving DecidableEq, Repr

/-- What the layout transitioner and the mipmap generator do with their
single-use command buffer, in order. -/
inductive Command where
  /-- The call `beginSingleTimeCommands()`: allocate and begin the buffer. -/
  | beginSingleTimeCommands
  /-- One `vkCmdPipelineBarrier` carrying one image memory barrier. -/
  | vkCmdPipelineBarrier (srcStageMask dstStageMask : Nat) (barrier : VkImageMemoryBarrier)
  /-- One `vkCmdBlitImage` with one region and linear filtering. -/
  | vkCmdBlitImage (srcImage : Nat) (srcImageLayout : VkImageLayout)
      (dstImage : Nat) (dstImageLayout : VkImageLayout) (blit : VkImageBlit)
  /-- The call `endSingleTimeCommands(commandBuffer)`: end the buffer, submit it
  to the graphics queue, wait for the queue to idle, free the buffer. -/
  | endSingleTimeCommands
  deriving DecidableEq, Repr

/-- Whether a command is a pipeline barrier. -/
def Command.isBarrier : Command → Bool
  | .vkCmdPipelineBarrier _ _ _ => true
  | _ => false

/-- Whether a command is the submission of the single-use buffer. -/
def Command.isSubmit : Command → Bool
  | .endSingleTimeCommands => true
  | _ => false

/-! ## Layout transitioner (`Engine::transitionImageLayout`) -/

/-- Model of `Engine::transitionImageLayout(image, format, oldLayout, newLayout,
mipLevels)`: the commands issued and, when the `invalid_argument` is thrown, its
kind.  The barrier starts with both access masks 0, the given layouts and the
level range `0 .. mipLevels`; the `if` chain then fills in masks and stages. -/
def transitionImageLayout (image _format : Nat) (oldLayout newLayout : VkImageLayout)
    (mipLevels : Nat) : List Command × Except EngineError Unit :=
  let barrier : VkImageMemoryBarrier :=
    { srcAccessMask := 0, dstAccessMask := 0, oldLayout := oldLayout, newLayout := newLayout,
      image := image, baseMipLevel := 0, levelCount := mipLevels }
  if oldLayout = VK_IMAGE_LAYOUT_UNDEFINED ∧ newLayout = VK_IMAGE_LAYOUT_TRANSFER_DST_OPTIMAL then
    ([.beginSingleTimeCommands,
      .vkCmdPipelineBarrier VK_PIPELINE_STAGE_TOP_OF_PIPE_BIT VK_PIPELINE_STAGE_TRANSFER_BIT
        { barrier with srcAccessMask := 0, dstAccessMask := VK_ACCESS_TRANSFER_WRITE_BIT },
      .endSingleTimeCommands], .ok ())
  else if oldLayout = VK_IMAGE_LAYOUT_TRANSFER_DST_OPTIMAL ∧
      newLayout = VK_IMAGE_LAYOUT_SHADER_READ_ONLY_OPTIMAL then
    ([.beginSingleTimeCommands,
      .vkCmdPipelineBarrier VK_PIPELINE_STAGE_TRANSFER_BIT VK_PIPELINE_STAGE_FRAGMENT_SHADER_BIT
        { barrier with srcAccessMask := VK_ACCESS_TRANSFER_WRITE_BIT,
                       dstAccessMask := VK_ACCESS_SHADER_READ_BIT },
      .endSingleTimeCommands], .ok ())
  else if oldLayout = VK_IMAGE_LAYOUT_TRANSFER_SRC_OPTIMAL ∧
      newLayout = VK_IMAGE_LAYOUT_PRESENT_SRC_KHR then
    ([.beginSingleTimeCommands,
      .vkCmdPipelineBarrier VK_PIPELINE_STAGE_TRANSFER_BIT VK_PIPELINE_STAGE_BOTTOM_OF_PIPE_BIT
        { barrier with srcAccessMask := VK_ACCESS_TRANSFER_READ_BIT, dstAccessMask := 0 },
      .endSingleTimeCommands], .ok ())
  else if oldLayout = VK_IMAGE_LAYOUT_PRESENT_SRC_KHR ∧
      newLayout = VK_IMAGE_LAYOUT_TRANSFER_SRC_OPTIMAL then
    ([.beginSingleTimeCommands,
      .vkCmdPipelineBarrier VK_PIPELINE_STAGE_TOP_OF_PIPE_BIT VK_PIPELINE_STAGE_TRANSFER_BIT
        { barrier with srcAccessMask := 0, dstAccessMask := VK_ACCESS_TRANSFER_READ_BIT },
      .endSingleTimeCommands], .ok ())
  else
    ([.beginSingleTimeCommands], .error .UnsupportedLayoutTransition)

/-! ## Mipmap generator (`Engine::generateMipmaps`) -/

/-- The update `if (mip > 1) mip /= 2;` applied to `mipWidth` and `mipHeight` at
the end of each iteration.  The operand of the division is greater than 1, so
C++ truncation and floor division agree. -/
def halveMip (mip : Int) : Int :=
  if mip > 1 then mip / 2 else mip

/-- The destination extent `mip > 1 ? mip / 2 : 1` of a blit. -/
def blitDstExtent (mip : Int) : Int :=
  if mip > 1 then mip / 2 else 1

/-- The body of `for (uint32_t i = 1; i < mipLevels; i++)` in `generateMipmaps`,
with `remaining` iterations still to run, the next one at level `i`, and the
current values of `mipWidth` and `mipHeight`.  Each iteration records a barrier
on level `i - 1`, a blit from level `i - 1` to level `i`, and a second barrier
on level `i - 1`. -/
def generateMipmapsLoop (image : Nat) :
    (remaining : Nat) → (i : Nat) → (mipWidth mipHeight : Int) → List Command
  | 0, _, _, _ => []
  | remaining + 1, i, mipWidth, mipHeight =>
    .vkCmdPipelineBarrier VK_PIPELINE_STAGE_TRANSFER_BIT VK_PIPELINE_STAGE_TRANSFER_BIT
        { srcAccessMask := VK_ACCESS_TRANSFER_WRITE_BIT,
          dstAccessMask := VK_ACCESS_TRANSFER_READ_BIT,
          oldLayout := VK_IMAGE_LAYOUT_TRANSFER_DST_OPTIMAL,
          newLayout := VK_IMAGE_LAYOUT_TRANSFER_SRC_OPTIMAL,
          image := image, baseMipLevel := i - 1, levelCount := 1 }
    :: .vkCmdBlitImage image VK_IMAGE_LAYOUT_TRANSFER_SRC_OPTIMAL
        image VK_IMAGE_LAYOUT_TRANSFER_DST_OPTIMAL
        { srcMipLevel := i - 1, srcWidth := mipWidth, srcHeight := mipHeight,
          dstMipLevel := i,
          dstWidth := blitDstExtent mipWidth, dstHeight := blitDstExtent mipHeight }
    :: .vkCmdPipelineBarrier VK_PIPELINE_STAGE_TRANSFER_BIT VK_PIPELINE_STAGE_FRAGMENT_SHADER_BIT
        { srcAccessMask := VK_ACCESS_TRANSFER_READ_BIT,
          dstAccessMask := VK_ACCESS_SHADER_READ_BIT,
          oldLayout := VK_IMAGE_LAYOUT_TRANSFER_SRC_OPTIMAL,
          newLayout := VK_IMAGE_LAYOUT_SHADER_READ_ONLY_OPTIMAL,
          image := image, baseMipLevel := i - 1, levelCount := 1 }
    :: generateMipmapsLoop image remaining (i + 1) (halveMip mipWidth) (halveMip mipHeight)

/-- Model of `Engine::generateMipmaps(image, imageFormat, texWidth, texHeight,
mipLevels)`: the commands issued and, when the exception is thrown, its kind.
The argument `optimalTilingFeatures` is what
`vkGetPhysicalDeviceFormatProperties` reports for `imageFormat`.  The loop runs
for `i = 1, ..., mipLevels - 1`; the last barrier is on level `mipLevels - 1`
computed in `uint32_t`. -/
def generateMipmaps (optimalTilingFeatures : Nat) (image : Nat) (texWidth texHeight : Int)
    (mipLevels : Nat) : List Command × Except EngineError Unit :=
  if optimalTilingFeatures &&& VK_FORMAT_FEATURE_SAMPLED_IMAGE_FILTER_LINEAR_BIT = 0 then
    ([], .error .LinearBlitUnsupported)
  else
    (.beginSingleTimeCommands
      :: generateMipmapsLoop image (mipLevels - 1) 1 texWidth texHeight
      ++ [ .vkCmdPipelineBarrier VK_PIPELINE_STAGE_TRANSFER_BIT
             VK_PIPELINE_STAGE_FRAGMENT_SHADER_BIT
             { srcAccessMask := VK_ACCESS_TRANSFER_WRITE_BIT,
               dstAccessMask := VK_ACCESS_SHADER_READ_BIT,
               oldLayout := VK_IMAGE_LAYOUT_TRANSFER_DST_OPTIMAL,
               newLayout := VK_IMAGE_LAYOUT_SHADER_READ_ONLY_OPTIMAL,
               image := image, baseMipLevel := (mipLevels + 2 ^ 32 - 1) % 2 ^ 32,
               levelCount := 1 },
           .endSingleTimeCommands ],
     .ok ())

/-- The blit regions among a list of commands, in order. -/
def blitsOf : List Command → List VkImageBlit
  | [] => []
  | .vkCmdBlitImage _ _ _ _ blit :: rest => blit :: blitsOf rest
  | _ :: rest => blitsOf rest

/-- Model of the mip count computed in `Engine::createTextureImage`:
`static_cast<uint32_t>(std::floor(std::log2(std::max(texWidth, texHeight)))) + 1`.
The floating-point `floor (log2 x)` of a positive integer `x` is taken at its
exact value, the position of the highest set bit of `x`. -/
def computeMipLevels (texWidth texHeight : Int) : Nat :=
  Nat.log2 (max texWidth texHeight).toNat + 1

/-! ## Per-level layout tracking -/

/-- Apply a layout change to `count` consecutive levels starting at `level`:
each level must exist and currently be in `oldLayout`; it is then in
`newLayout`.  The answer is `none` when a level is missing or is in another
layout. -/
def transitionLevels (oldLayout newLayout : VkImageLayout) :
    (count : Nat) → (level : Nat) → List VkImageLayout → Option (List VkImageLayout)
  | 0, _, layouts => some layouts
  | count + 1, level, layouts =>
    if layouts[level]? = some oldLayout then
      transitionLevels oldLayout newLayout count (level + 1) (layouts.set level newLayout)
    else
      none

/-- Run a command sequence against an image described by one layout per mip
level.  A barrier must name as `oldLayout` the layout each level it covers is
in; a blit must name as source and destination layout the layouts its source
and destination level are in.  The answer is `none` at the first command that
names a layout the level does not have, otherwise the layouts at the end. -/
def trackLayouts : List Command → List VkImageLayout → Option (List VkImageLayout)
  | [], layouts => some layouts
  | .beginSingleTimeCommands :: rest, layouts => trackLayouts rest layouts
  | .endSingleTimeCommands :: rest, layouts => trackLayouts rest layouts
  | .vkCmdPipelineBarrier _ _ barrier :: rest, layouts =>
    match transitionLevels barrier.oldLayout barrier.newLayout barrier.levelCount
        barrier.baseMipLevel layouts with
    | some layouts' => trackLayouts rest layouts'
    | none => none
  | .vkCmdBlitImage _ srcImageLayout _ dstImageLayout blit :: rest, layouts =>
    if layouts[blit.srcMipLevel]? = some srcImageLayout ∧
        layouts[blit.dstMipLevel]? = some dstImageLayout then
      trackLayouts rest layouts
    else
      none

/-! ## Frame scheduler (`Engine::drawFrame`, `Engine::mainLoop`) -/

/-- The exceptions that can leave `drawFrame`, and the one undefined access the
model tracks. -/
inductive FrameError where
  /-- Thrown by `drawFrame`: "failed to acquire swap chain image!" -/
  | AcquireFailed
  /-- Thrown by `recordCommandBuffers`: "failed to begin recording command buffer!" -/
  | BeginRecordingFailed
  /-- Thrown by `recordCommandBuffers`: "Invalid descriptor set handle!" -/
  | InvalidDescriptorSet
  /-- Thrown by `recordCommandBuffers`: "failed to record command buffer!" -/
  | EndRecordingFailed
  /-- Thrown by `drawFrame`: "failed to submit draw command buffer!" -/
  | SubmitFailed
  /-- Thrown by `drawFrame`: "failed to present swap chain image!" -/
  | PresentFailed
  /-- Any exception thrown by a creation step inside `recreateSwapChain`. -/
  | SwapChainRecreationFailed
  /-- An element access `v[k]` with `k` not below `v.size()`; C++ leaves the
  behaviour undefined, the model stops the frame here. -/
  | IndexOutOfRange
  deriving DecidableEq, Repr

/-- The fields of `Engine` the frame scheduler reads or writes.  A vector of
handles whose contents do not matter is kept as its size.  The framebuffer
list and the mapped uniform-buffer list are not tracked: the image index comes
from the driver, and the uniform buffers are rebuilt to
`MAX_FRAMES_IN_FLIGHT * m_Models.size()` entries by every recreation. -/
structure EngineState where
  /-- The current slot, `m_CurrentFrameIdx`. -/
  m_CurrentFrameIdx : Nat
  /-- Modelled from the spec: the declaration of `m_FrameCounter` is in
  `engine/engine.h`, which is not among the sources, so its width is unknown; the
  design describes a monotonically increasing frame counter, and the counter is
  an unbounded natural number here. -/
  m_FrameCounter : Nat
  /-- The flag set by `framebufferResizeCallback`. -/
  m_FramebufferResized : Bool
  /-- The value of `m_Models.size()`. -/
  m_Models : Nat
  /-- The value of `m_CommandBuffers.size()`. -/
  m_CommandBuffers : Nat
  /-- The descriptor set handles; 0 is `VK_NULL_HANDLE`. -/
  m_DescriptorSets : List Nat
  deriving DecidableEq, Repr

/-- What the window system and the driver answer during one iteration of the
main loop. -/
structure FrameDriver where
  /-- Whether `glfwPollEvents` invokes `framebufferResizeCallback`. -/
  resizeEvent : Bool
  /-- The result of `vkAcquireNextImageKHR`. -/
  acquireResult : VkResult
  /-- The image index written by `vkAcquireNextImageKHR`. -/
  imageIndex : Nat
  /-- The result of `vkBeginCommandBuffer` in `recordCommandBuffers`. -/
  beginCommandBufferResult : VkResult
  /-- The result of `vkEndCommandBuffer` in `recordCommandBuffers`. -/
  endCommandBufferResult : VkResult
  /-- The result of `vkQueueSubmit`. -/
  submitResult : VkResult
  /-- The result of `vkQueuePresentKHR`. -/
  presentResult : VkResult
  /-- Whether `recreateSwapChain` finds a zero-sized framebuffer and
  `glfwWaitEvents`, called in its wait loop, runs `framebufferResizeCallback`
  before a non-zero size is reported. -/
  resizeWhileWaiting : Bool
  /-- Whether every creation step of `recreateSwapChain` returns without throwing. -/
  recreateSucceeds : Bool
  /-- The handle `vkAllocateDescriptorSets` writes at each index during
  `recreateSwapChain`. -/
  allocatedDescriptorSet : Nat → Nat

/-- The calls one `drawFrame` makes, in order.  Fences, semaphores and command
buffers are named by their index in the per-frame ring. -/
inductive FrameCall where
  | vkWaitForFences (fence : Nat)
  | vkAcquireNextImageKHR (semaphore : Nat)
  | recreateSwapChain
  | vkResetFences (fence : Nat)
  | vkResetCommandBuffer (commandBuffer : Nat)
  | vkBeginCommandBuffer (commandBuffer : Nat)
  | vkCmdBeginRenderPass (framebuffer : Nat)
  | vkCmdBindPipeline
  | vkCmdSetViewport
  | vkCmdSetScissor
  | vkCmdPushConstants
  /-- The call `m_Models[model]->enqueueIntoCommandBuffer(commandBuffer, descriptorSet)`
  with `descriptorSet = m_DescriptorSets[descriptorSetIndex]`. -/
  | enqueueIntoCommandBuffer (model descriptorSetIndex descriptorSet : Nat)
  | vkCmdEndRenderPass
  | vkEndCommandBuffer (commandBuffer : Nat)
  /-- The `memcpy` of model `model`'s UBO into `m_UniformBuffersMapped[bufferIndex]`. -/
  | memcpyUniformBuffer (bufferIndex model : Nat)
  | vkQueueSubmit (waitSemaphore commandBuffer signalSemaphore fence : Nat)
  | vkQueuePresentKHR (waitSemaphore imageIndex : Nat)
  deriving DecidableEq, Repr

/-- How one `drawFrame` call ends. -/
inductive FrameOutcome where
  /-- The function ran to its last statement. -/
  | completed
  /-- The early `return` after an out-of-date acquisition. -/
  | returnedEarly
  /-- An exception left the function, or an undefined access was reached. -/
  | fatal (error : FrameError)
  deriving DecidableEq, Repr

/-- The engine after a `drawFrame` call, the calls it made and how it ended. -/
structure FrameResult where
  engine : EngineState
  calls : List FrameCall
  outcome : FrameOutcome

/-- Model of `Engine::framebufferResizeCallback`, run by `glfwPollEvents` when
the window system reports a new framebuffer size. -/
def framebufferResizeCallback (engine : EngineState) : EngineState :=
  { engine with m_FramebufferResized := true }

/-- Model of `Engine::cleanupSwapChain` on the modelled fields: it frees and
clears `m_CommandBuffers` and clears `m_DescriptorSets`. -/
def cleanupSwapChain (engine : EngineState) : EngineState :=
  { engine with m_CommandBuffers := 0, m_DescriptorSets := [] }

/-- Model of `Engine::recreateSwapChain` on the modelled fields, assuming the
wait for a non-zero framebuffer size returns.  While it waits, `glfwWaitEvents`
may run the resize callback.  Then come `cleanupSwapChain` and the creation
steps, the last of which (`createDescriptorSets`) resizes `m_DescriptorSets` to
`MAX_FRAMES_IN_FLIGHT * m_Models.size()` and has the driver fill it.  The
command buffers are not allocated again.  A creation step that throws leaves
the cleaned-up state. -/
def recreateSwapChain (MAX_FRAMES_IN_FLIGHT : Nat) (driver : FrameDriver)
    (engine : EngineState) : EngineState × Option FrameError :=
  let waited := if driver.resizeWhileWaiting then framebufferResizeCallback engine else engine
  let cleaned := cleanupSwapChain waited
  if driver.recreateSucceeds then
    ({ cleaned with
        m_DescriptorSets :=
          (List.range (MAX_FRAMES_IN_FLIGHT * engine.m_Models)).map
            driver.allocatedDescriptorSet },
     none)
  else
    (cleaned, some .SwapChainRecreationFailed)

/-- The loop `for (size_t j = 0; j < m_Models.size(); j++)` of
`recordCommandBuffers`, with `remaining` iterations still to run and the next
one at model `j`. -/
def recordModels (engine : EngineState) :
    (remaining : Nat) → (j : Nat) → List FrameCall × Option FrameError
  | 0, _ => ([], none)
  | remaining + 1, j =>
    let descriptorSetIndex := engine.m_CurrentFrameIdx * engine.m_Models + j
    match engine.m_DescriptorSets[descriptorSetIndex]? with
    | none => ([], some .IndexOutOfRange)
    | some descriptorSet =>
      if descriptorSet = 0 then
        ([], some .InvalidDescriptorSet)
      else
        let rest := recordModels engine remaining (j + 1)
        (.enqueueIntoCommandBuffer j descriptorSetIndex descriptorSet :: rest.1, rest.2)

/-- Model of `Engine::recordCommandBuffers(commandBuffer, imageIndex)`: the
calls made and the exception thrown, if any. -/
def recordCommandBuffers (driver : FrameDriver) (engine : EngineState)
    (commandBuffer imageIndex : Nat) : List FrameCall × Option FrameError :=
  if driver.beginCommandBufferResult ≠ VK_SUCCESS then
    ([.vkBeginCommandBuffer commandBuffer], some .BeginRecordingFailed)
  else
    let setup : List FrameCall :=
      [.vkBeginCommandBuffer commandBuffer, .vkCmdBeginRenderPass imageIndex,
       .vkCmdBindPipeline, .vkCmdSetViewport, .vkCmdSetScissor, .vkCmdPushConstants]
    let models := recordModels engine engine.m_Models 0
    match models.2 with
    | some error => (setup ++ models.1, some error)
    | none =>
      if driver.endCommandBufferResult ≠ VK_SUCCESS then
        (setup ++ models.1 ++ [.vkCmdEndRenderPass, .vkEndCommandBuffer commandBuffer],
         some .EndRecordingFailed)
      else
        (setup ++ models.1 ++ [.vkCmdEndRenderPass, .vkEndCommandBuffer commandBuffer], none)

/-- Modelled from the spec: the accessor `Engine::getCurrentFrameIdx()` is
defined in `engine/engine.h`, which is not among the sources.  The design has
slot `s` copy model `m` into the uniform buffer at index `s * M + m`, so the
accessor returns the current slot. -/
def getCurrentFrameIdx (engine : EngineState) : Nat :=
  engine.m_CurrentFrameIdx

/-- The loop `for (size_t i = 0; i < m_Models.size(); i++)` of `drawFrame` that
copies each model's UBO into `m_UniformBuffersMapped[bufferIndex]` with
`bufferIndex = getCurrentFrameIdx() * m_Models.size() + i`; `remaining`
iterations are still to run and the next one is at model `i`. -/
def writeUniformBuffers (engine : EngineState) : (remaining : Nat) → (i : Nat) → List FrameCall
  | 0, _ => []
  | remaining + 1, i =>
    .memcpyUniformBuffer (getCurrentFrameIdx engine * engine.m_Models + i) i
      :: writeUniformBuffers engine remaining (i + 1)

/-- The last two statements of `drawFrame`:
`m_CurrentFrameIdx = (m_CurrentFrameIdx + 1) % MAX_FRAMES_IN_FLIGHT; m_FrameCounter += 1;`. -/
def advanceFrame (MAX_FRAMES_IN_FLIGHT : Nat) (engine : EngineState) : EngineState :=
  { engine with
      m_CurrentFrameIdx := (engine.m_CurrentFrameIdx + 1) % MAX_FRAMES_IN_FLIGHT,
      m_FrameCounter := engine.m_FrameCounter + 1 }

/-- The end of `drawFrame`, from `vkQueuePresentKHR` to the last statement,
entered after a successful `vkQueueSubmit` with `submitted` the calls made so
far: present, then recreate the swapchain when the result is out-of-date or
suboptimal or the resize flag is set, throw on any other failure, and advance
the slot and the counter. -/
def presentFrame (MAX_FRAMES_IN_FLIGHT : Nat) (driver : FrameDriver) (engine : EngineState)
    (submitted : List FrameCall) : FrameResult :=
  let presented : List FrameCall :=
    submitted ++ [.vkQueuePresentKHR engine.m_CurrentFrameIdx driver.imageIndex]
  if driver.presentResult = VK_ERROR_OUT_OF_DATE_KHR ∨
      driver.presentResult = VK_SUBOPTIMAL_KHR ∨ engine.m_FramebufferResized = true then
    let recreated := recreateSwapChain MAX_FRAMES_IN_FLIGHT driver
      { engine with m_FramebufferResized := false }
    match recreated.2 with
    | some error =>
      { engine := recreated.1, calls := presented ++ [.recreateSwapChain],
        outcome := .fatal error }
    | none =>
      { engine := advanceFrame MAX_FRAMES_IN_FLIGHT recreated.1,
        calls := presented ++ [.recreateSwapChain], outcome := .completed }
  else if driver.presentResult ≠ VK_SUCCESS then
    { engine := engine, calls := presented, outcome := .fatal .PresentFailed }
  else
    { engine := advanceFrame MAX_FRAMES_IN_FLIGHT engine, calls := presented,
      outcome := .completed }

/-- Model of `Engine::drawFrame()`.  The parameter `MAX_FRAMES_IN_FLIGHT` is the
constant `Settings::MAX_FRAMES_IN_FLIGHT`. -/
def drawFrame (MAX_FRAMES_IN_FLIGHT : Nat) (driver : FrameDriver) (engine : EngineState) :
    FrameResult :=
  let slot := engine.m_CurrentFrameIdx
  let acquired : List FrameCall := [.vkWaitForFences slot, .vkAcquireNextImageKHR slot]
  if driver.acquireResult = VK_ERROR_OUT_OF_DATE_KHR then
    let recreated := recreateSwapChain MAX_FRAMES_IN_FLIGHT driver engine
    match recreated.2 with
    | some error =>
      { engine := recreated.1, calls := acquired ++ [.recreateSwapChain], outcome := .fatal error }
    | none =>
      { engine := recreated.1, calls := acquired ++ [.recreateSwapChain],
        outcome := .returnedEarly }
  else if driver.acquireResult ≠ VK_SUCCESS ∧ driver.acquireResult ≠ VK_SUBOPTIMAL_KHR then
    { engine := engine, calls := acquired, outcome := .fatal .AcquireFailed }
  else if ¬ slot < engine.m_CommandBuffers then
    { engine := engine, calls := acquired ++ [.vkResetFences slot],
      outcome := .fatal .IndexOutOfRange }
  else
    let recorded := recordCommandBuffers driver engine slot driver.imageIndex
    let prepared : List FrameCall :=
      acquired ++ [.vkResetFences slot, .vkResetCommandBuffer slot] ++ recorded.1
    match recorded.2 with
    | some error => { engine := engine, calls := prepared, outcome := .fatal error }
    | none =>
      let submitted : List FrameCall :=
        prepared ++ writeUniformBuffers engine engine.m_Models 0 ++
          [.vkQueueSubmit slot slot slot slot]
      if driver.submitResult ≠ VK_SUCCESS then
        { engine := engine, calls := submitted, outcome := .fatal .SubmitFailed }
      else
        presentFrame MAX_FRAMES_IN_FLIGHT driver engine submitted

/-- One iteration of `Engine::mainLoop`: `glfwPollEvents()`, which may run the
resize callback, then `drawFrame()`. -/
def mainLoopIteration (MAX_FRAMES_IN_FLIGHT : Nat) (driver : FrameDriver)
    (engine : EngineState) : FrameResult :=
  drawFrame MAX_FRAMES_IN_FLIGHT driver
    (if driver.resizeEvent then framebufferResizeCallback engine else engine)

/-- Model of `Engine::mainLoop()` over the iterations described by `drivers`:
the result of each `drawFrame`, in order.  An exception leaves the loop, so
nothing follows a fatal result. -/
def mainLoop (MAX_FRAMES_IN_FLIGHT : Nat) : List FrameDriver → EngineState → List FrameResult
  | [], _ => []
  | driver :: drivers, engine =>
    let result := mainLoopIteration MAX_FRAMES_IN_FLIGHT driver engine
    match result.outcome with
    | .fatal _ => [result]
    | _ => result :: mainLoop MAX_FRAMES_IN_FLIGHT drivers result.engine

/-- The engine after the main loop has produced `results` from `engine`: the
engine left by the last `drawFrame`, or `engine` itself when none ran. -/
def engineAfter (engine : EngineState) : List FrameResult → EngineState
  | [] => engine
  | result :: results => engineAfter result.engine results

/-- The buffer indices written by the uniform-buffer copies among `calls`, in order. -/
def uniformWrites : List FrameCall → List Nat
  | [] => []
  | .memcpyUniformBuffer bufferIndex _ :: rest => bufferIndex :: uniformWrites rest
  | _ :: rest => uniformWrites rest

/-- How many calls in `calls` satisfy `p`. -/
def countCalls (p : FrameCall → Bool) (calls : List FrameCall) : Nat :=
  (calls.filter p).length

/-- Whether a call is a swapchain recreation. -/
def FrameCall.isRecreate : FrameCall → Bool
  | .recreateSwapChain => true
  | _ => false

/-- Whether a call resets a fence. -/
def FrameCall.isFenceReset : FrameCall → Bool
  | .vkResetFences _ => true
  | _ => false

/-- Whether a call resets a command buffer or records into one. -/
def FrameCall.isRecording : FrameCall → Bool
  | .vkResetCommandBuffer _ => true
  | .vkBeginCommandBuffer _ => true
  | .vkCmdBeginRenderPass _ => true
  | .vkCmdBindPipeline => true
  | .vkCmdSetViewport => true
  | .vkCmdSetScissor => true
  | .vkCmdPushConstants => true
  | .enqueueIntoCommandBuffer _ _ _ => true
  | .vkCmdEndRenderPass => true
  | .vkEndCommandBuffer _ => true
  | _ => false

/-- Whether a call writes a uniform buffer. -/
def FrameCall.isUniformWrite : FrameCall → Bool
  | .memcpyUniformBuffer _ _ => true
  | _ => false

/-- Whether a call is a queue submission. -/
def FrameCall.isSubmit : FrameCall → Bool
  | .vkQueueSubmit _ _ _ _ => true
  | _ => false

/-- Whether a call is a presentation. -/
def FrameCall.isPresent : FrameCall → Bool
  | .vkQueuePresentKHR _ _ => true
  | _ => false

/-- The engine as `Engine::Engine()` and `initVulkan` leave it: slot 0, counter
0, flag clear, `createCommandBuffers` has sized the command-buffer ring to
`MAX_FRAMES_IN_FLIGHT`, and `createDescriptorSets` has stored the
`MAX_FRAMES_IN_FLIGHT * numModels` handles the driver allocated. -/
def initialEngine (MAX_FRAMES_IN_FLIGHT numModels : Nat) (allocatedDescriptorSet : Nat → Nat) :
    EngineState :=
  { m_CurrentFrameIdx := 0, m_FrameCounter := 0, m_FramebufferResized := false,
    m_Models := numModels, m_CommandBuffers := MAX_FRAMES_IN_FLIGHT,
    m_DescriptorSets :=
      (List.range (MAX_FRAMES_IN_FLIGHT * numModels)).map allocatedDescriptorSet }

/-! ## Device selection -/

/-- Sample count 1 of `VkSampleCountFlagBits`. -/
def VK_SAMPLE_COUNT_1_BIT : Nat := 0x1
/-- Sample count 2 of `VkSampleCountFlagBits`. -/
def VK_SAMPLE_COUNT_2_BIT : Nat := 0x2
/-- Sample count 4 of `VkSampleCountFlagBits`. -/
def VK_SAMPLE_COUNT_4_BIT : Nat := 0x4
/-- Sample count 8 of `VkSampleCountFlagBits`. -/
def VK_SAMPLE_COUNT_8_BIT : Nat := 0x8
/-- Sample count 16 of `VkSampleCountFlagBits`. -/
def VK_SAMPLE_COUNT_16_BIT : Nat := 0x10
/-- Sample count 32 of `VkSampleCountFlagBits`. -/
def VK_SAMPLE_COUNT_32_BIT : Nat := 0x20
/-- Sample count 64 of `VkSampleCountFlagBits`. -/
def VK_SAMPLE_COUNT_64_BIT : Nat := 0x40

/-- Model of `Engine::getMaxUsableSampleCount()`.  The two arguments are the
masks `limits.framebufferColorSampleCounts` and
`limits.framebufferDepthSampleCounts` that `vkGetPhysicalDeviceProperties`
reports for the selected device. -/
def getMaxUsableSampleCount (framebufferColorSampleCounts framebufferDepthSampleCounts : Nat) :
    Nat :=
  let counts := framebufferColorSampleCounts &&& framebufferDepthSampleCounts
  if counts &&& VK_SAMPLE_COUNT_64_BIT ≠ 0 then VK_SAMPLE_COUNT_64_BIT
  else if counts &&& VK_SAMPLE_COUNT_32_BIT ≠ 0 then VK_SAMPLE_COUNT_32_BIT
  else if counts &&& VK_SAMPLE_COUNT_16_BIT ≠ 0 then VK_SAMPLE_COUNT_16_BIT
  else if counts &&& VK_SAMPLE_COUNT_8_BIT ≠ 0 then VK_SAMPLE_COUNT_8_BIT
  else if counts &&& VK_SAMPLE_COUNT_4_BIT ≠ 0 then VK_SAMPLE_COUNT_4_BIT
  else if counts &&& VK_SAMPLE_COUNT_2_BIT ≠ 0 then VK_SAMPLE_COUNT_2_BIT
  else VK_SAMPLE_COUNT_1_BIT

/-- The exceptions thrown while the device is selected and the swapchain and
its dependants are built, one per `throw` site of the functions modelled
below.  `Allocation` carries the exception of `createBuffer` or `createImage`,
and `NoSurfaceFormats` stands for the undefined access `availableFormats[0]` of
`chooseSwapSurfaceFormat` on an empty list. -/
inductive SetupError
  | NoPhysicalDevice
  | NoSuitableDevice
  | QueueFamilyIncomplete
  | QueueFamilyIndicesNotComplete
  | NoSurfaceFormats
  | NoPresentModes
  | SwapChainCreation
  | ImageViewCreation
  | RenderPassCreation
  | PipelineCreation
  | NoSupportedFormat
  | FramebufferCreation
  | MemoryMap
  | DescriptorPoolCreation
  | DescriptorSetAllocation
  | CommandBufferAllocation
  | Allocation (error : EngineError)
  deriving DecidableEq, Repr

/-- The bit `VK_QUEUE_GRAPHICS_BIT` of `VkQueueFlagBits`. -/
def VK_QUEUE_GRAPHICS_BIT : Nat := 0x1

/-- What the driver reports for one queue family of a device: the `queueFlags`
of its `VkQueueFamilyProperties` and the answer of
`vkGetPhysicalDeviceSurfaceSupportKHR` for that family and the engine surface. -/
structure QueueFamily where
  queueFlags : Nat
  presentSupport : Bool
  deriving DecidableEq, Repr

/-- The record `QueueFamilyIndices`: two optional family indices. -/
structure QueueFamilyIndices where
  graphicsFamily : Option Nat
  presentationFamily : Option Nat
  deriving DecidableEq, Repr

/-- Modelled from the spec: `QueueFamilyIndices::isComplete()` is defined in
`engine/engine.h`, which is not among the sources.  Both the graphics and the
presentation family must be resolved. -/
def QueueFamilyIndices.isComplete (indices : QueueFamilyIndices) : Bool :=
  indices.graphicsFamily.isSome && indices.presentationFamily.isSome

/-- The loop of `findQueueFamilies` from family `i` on: a family with the
graphics bit becomes the graphics family, a family that can present becomes the
presentation family, and the loop breaks as soon as both are set. -/
def findQueueFamiliesFrom : List QueueFamily → (i : Nat) → QueueFamilyIndices → QueueFamilyIndices
  | [], _, indices => indices
  | queueFamily :: rest, i, indices =>
    let withGraphics : QueueFamilyIndices :=
      if queueFamily.queueFlags &&& VK_QUEUE_GRAPHICS_BIT ≠ 0 then
        { indices with graphicsFamily := some i }
      else indices
    let withPresent : QueueFamilyIndices :=
      if queueFamily.presentSupport then { withGraphics with presentationFamily := some i }
      else withGraphics
    if withPresent.isComplete then withPresent
    else findQueueFamiliesFrom rest (i + 1) withPresent

/-- Model of `Engine::findQueueFamilies(device)` over the queue families the
driver reports for the device: the indices found, or the exception thrown after
the loop when one of them is still missing. -/
def findQueueFamilies (queueFamilies : List QueueFamily) : Except SetupError QueueFamilyIndices :=
  let indices := findQueueFamiliesFrom queueFamilies 0
    { graphicsFamily := none, presentationFamily := none }
  if !indices.isComplete then .error .QueueFamilyIncomplete else .ok indices

/-- The value `VK_PHYSICAL_DEVICE_TYPE_DISCRETE_GPU` of `VkPhysicalDeviceType`. -/
def VK_PHYSICAL_DEVICE_TYPE_DISCRETE_GPU : Nat := 2

/-- The record `VkSurfaceFormatKHR`. -/
structure VkSurfaceFormatKHR where
  format : Nat
  colorSpace : Nat
  deriving DecidableEq, Repr

/-- The record `VkExtent2D`; both fields are `uint32_t`. -/
structure VkExtent2D where
  width : Nat
  height : Nat
  deriving DecidableEq, Repr

/-- The fields of `VkSurfaceCapabilitiesKHR` the engine reads. -/
structure VkSurfaceCapabilitiesKHR where
  minImageCount : Nat
  maxImageCount : Nat
  currentExtent : VkExtent2D
  minImageExtent : VkExtent2D
  maxImageExtent : VkExtent2D
  deriving DecidableEq, Repr

/-- The record `SwapChainSupportDetails`; a present mode is its
`VkPresentModeKHR` value. -/
structure SwapChainSupportDetails where
  capabilities : VkSurfaceCapabilitiesKHR
  formats : List VkSurfaceFormatKHR
  presentModes : List Nat
  deriving DecidableEq, Repr

/-- What the driver reports for one physical device: type and features, queue
families, the names of its device extensions, the surface support and the
framebuffer sample-count limits. -/
structure PhysicalDevice where
  deviceType : Nat
  geometryShader : Bool
  samplerAnisotropy : Bool
  queueFamilies : List QueueFamily
  extensions : List String
  swapChainSupport : SwapChainSupportDetails
  framebufferColorSampleCounts : Nat
  framebufferDepthSampleCounts : Nat
  deriving DecidableEq, Repr

/-- The constant `deviceExtensions` of `engine.cpp`:
`VK_KHR_SWAPCHAIN_EXTENSION_NAME` and `VK_KHR_PORTABILITY_SUBSET_EXTENSION_NAME`. -/
def deviceExtensions : List String := ["VK_KHR_swapchain", "VK_KHR_portability_subset"]

/-- Model of `Engine::checkDeviceExtensionSupport(device)` over the extension
names the device offers: the required names form a set, every offered name is
erased from it, and the device passes when the set ends up empty. -/
def checkDeviceExtensionSupport (availableExtensions : List String) : Bool :=
  (availableExtensions.foldl (fun requiredExtensions extensionName =>
    requiredExtensions.erase extensionName) deviceExtensions.dedup).isEmpty

/-- Model of `Engine::querySwapChainSupport(device)`: the capabilities, formats
and present modes the driver reports for the device and the engine surface. -/
def querySwapChainSupport (device : PhysicalDevice) : SwapChainSupportDetails :=
  device.swapChainSupport

/-- Model of `Engine::isDeviceSuitable(device)`.  The two flags are the
constants `Settings::ALLOW_DEVICE_WITHOUT_INTEGRATED_GPU` and
`Settings::ALLOW_DEVICE_WITHOUT_GEOMETRY_SHADER`.  The branch on the device type
only prints a message, so it leaves no trace in the result; the call of
`findQueueFamilies` may throw. -/
def isDeviceSuitable (ALLOW_DEVICE_WITHOUT_INTEGRATED_GPU ALLOW_DEVICE_WITHOUT_GEOMETRY_SHADER : Bool)
    (device : PhysicalDevice) : Except SetupError Bool :=
  let _notDiscrete : Bool := !ALLOW_DEVICE_WITHOUT_INTEGRATED_GPU &&
    device.deviceType != VK_PHYSICAL_DEVICE_TYPE_DISCRETE_GPU
  if !ALLOW_DEVICE_WITHOUT_GEOMETRY_SHADER && !device.geometryShader then .ok false
  else
    match findQueueFamilies device.queueFamilies with
    | .error error => .error error
    | .ok indices =>
      if !indices.isComplete then .ok false
      else if !checkDeviceExtensionSupport device.extensions then .ok false
      else if (querySwapChainSupport device).formats.isEmpty ||
          (querySwapChainSupport device).presentModes.isEmpty then .ok false
      else if !device.samplerAnisotropy then .ok false
      else .ok true

/-- The search `std::ranges::find_if(devices, isDeviceSuitable)` of
`pickPhysicalDevice` from position `i` on: the position of the first device the
predicate accepts together with that device, `none` at the end of the list, or
the exception the predicate throws. -/
def findSuitableDevice
    (ALLOW_DEVICE_WITHOUT_INTEGRATED_GPU ALLOW_DEVICE_WITHOUT_GEOMETRY_SHADER : Bool) :
    List PhysicalDevice → (i : Nat) → Except SetupError (Option (Nat × PhysicalDevice))
  | [], _ => .ok none
  | device :: rest, i =>
    match isDeviceSuitable ALLOW_DEVICE_WITHOUT_INTEGRATED_GPU
        ALLOW_DEVICE_WITHOUT_GEOMETRY_SHADER device with
    | .error error => .error error
    | .ok true => .ok (some (i, device))
    | .ok false =>
      findSuitableDevice ALLOW_DEVICE_WITHOUT_INTEGRATED_GPU
        ALLOW_DEVICE_WITHOUT_GEOMETRY_SHADER rest (i + 1)

/-- What `pickPhysicalDevice` stores: the selected device, named by its position
in the enumeration, and the sample count chosen for it. -/
structure SelectedDevice where
  m_PhysicalDevice : Nat
  m_MSAASamples : Nat
  deriving DecidableEq, Repr

/-- Model of `Engine::pickPhysicalDevice()` over the devices the instance
enumerates. -/
def pickPhysicalDevice
    (ALLOW_DEVICE_WITHOUT_INTEGRATED_GPU ALLOW_DEVICE_WITHOUT_GEOMETRY_SHADER : Bool)
    (devices : List PhysicalDevice) : Except SetupError SelectedDevice :=
  if devices.length = 0 then .error .NoPhysicalDevice
  else
    match findSuitableDevice ALLOW_DEVICE_WITHOUT_INTEGRATED_GPU
        ALLOW_DEVICE_WITHOUT_GEOMETRY_SHADER devices 0 with
    | .error error => .error error
    | .ok none => .error .NoSuitableDevice
    | .ok (some (i, device)) =>
      .ok { m_PhysicalDevice := i,
            m_MSAASamples := getMaxUsableSampleCount device.framebufferColorSampleCounts
              device.framebufferDepthSampleCounts }

/-! ## Swapchain creation -/

/-- The value `VK_PRESENT_MODE_MAILBOX_KHR` of `VkPresentModeKHR`. -/
def VK_PRESENT_MODE_MAILBOX_KHR : Nat := 1

/-- The value `VK_SHARING_MODE_EXCLUSIVE` of `VkSharingMode`. -/
def VK_SHARING_MODE_EXCLUSIVE : Nat := 0

/-- The value `VK_SHARING_MODE_CONCURRENT` of `VkSharingMode`. -/
def VK_SHARING_MODE_CONCURRENT : Nat := 1

/-- The value `std::numeric_limits<uint32_t>::max()`. -/
def UINT32_MAX : Nat := 2 ^ 32 - 1

/-- Model of `Engine::chooseSwapSurfaceFormat(availableFormats)`: the first
format equal to `Settings::PREFERRED_SURFACE_FORMAT` in format and colour space,
else `availableFormats[0]`, which does not exist for an empty list. -/
def chooseSwapSurfaceFormat (PREFERRED_SURFACE_FORMAT : VkSurfaceFormatKHR)
    (availableFormats : List VkSurfaceFormatKHR) : Option VkSurfaceFormatKHR :=
  match availableFormats.find? (fun availableFormat =>
      availableFormat.format == PREFERRED_SURFACE_FORMAT.format &&
        availableFormat.colorSpace == PREFERRED_SURFACE_FORMAT.colorSpace) with
  | some found => some found
  | none => availableFormats[0]?

/-- Model of `Engine::chooseSwapPresentMode(availablePresentModes)`: an
exception for an empty list, else the first mode equal to
`VK_PRESENT_MODE_MAILBOX_KHR`, else `availablePresentModes[0]`. -/
def chooseSwapPresentMode (availablePresentModes : List Nat) : Except SetupError Nat :=
  match availablePresentModes with
  | [] => .error .NoPresentModes
  | first :: _ =>
    match availablePresentModes.find? (fun availablePresentMode =>
        availablePresentMode == VK_PRESENT_MODE_MAILBOX_KHR) with
    | some found => .ok found
    | none => .ok first

/-- The conversion `static_cast<uint32_t>(x)` of an `int`. -/
def toUint32 (x : Int) : Nat :=
  (x % 2 ^ 32).toNat

/-- The function `std::clamp(v, lo, hi)`: `(v < lo) ? lo : (hi < v) ? hi : v`. -/
def stdClamp (v lo hi : Nat) : Nat :=
  if v < lo then lo else if hi < v then hi else v

/-- Model of `Engine::chooseSwapExtent(capabilities)`; `width` and `height` are
the `int` values `glfwGetFramebufferSize` reports for the window. -/
def chooseSwapExtent (capabilities : VkSurfaceCapabilitiesKHR) (width height : Int) :
    VkExtent2D :=
  let isExtentUndefined : Bool := capabilities.currentExtent.width == UINT32_MAX
  if !isExtentUndefined then capabilities.currentExtent
  else
    { width := stdClamp (toUint32 width) capabilities.minImageExtent.width
        capabilities.maxImageExtent.width,
      height := stdClamp (toUint32 height) capabilities.minImageExtent.height
        capabilities.maxImageExtent.height }

/-- The image count `createSwapChain` requests: it starts from
`Settings::MAX_FRAMES_IN_FLIGHT`, is raised to `minImageCount` when below it,
and is lowered to `maxImageCount` when that is positive and exceeded. -/
def requestedImageCount (MAX_FRAMES_IN_FLIGHT : Nat) (capabilities : VkSurfaceCapabilitiesKHR) :
    Nat :=
  let imageCount := MAX_FRAMES_IN_FLIGHT
  let imageCount :=
    if imageCount < capabilities.minImageCount then capabilities.minImageCount else imageCount
  if capabilities.maxImageCount > 0 ∧ imageCount > capabilities.maxImageCount then
    capabilities.maxImageCount
  else imageCount

/-- The fields of `VkSwapchainCreateInfoKHR` that `createSwapChain` computes;
`pQueueFamilyIndices` is the index list, empty for `nullptr`. -/
structure VkSwapchainCreateInfoKHR where
  minImageCount : Nat
  imageFormat : Nat
  imageColorSpace : Nat
  imageExtent : VkExtent2D
  presentMode : Nat
  imageSharingMode : Nat
  queueFamilyIndexCount : Nat
  pQueueFamilyIndices : List Nat
  deriving DecidableEq, Repr

/-- What the window system and the driver answer while `createSwapChain` runs:
the framebuffer size of the window, the result of `vkCreateSwapchainKHR` and the
number of images `vkGetSwapchainImagesKHR` reports. -/
structure SwapChainDriver where
  framebufferWidth : Int
  framebufferHeight : Int
  createSwapchainResult : VkResult
  swapchainImageCount : Nat

/-- What `createSwapChain` leaves behind: the create-info it passed to
`vkCreateSwapchainKHR`, the size of `m_SwapChainImages`, and the members
`m_SwapChainImageFormat` and `m_SwapChainExtent`. -/
structure CreatedSwapChain where
  createInfo : VkSwapchainCreateInfoKHR
  m_SwapChainImages : Nat
  m_SwapChainImageFormat : Nat
  m_SwapChainExtent : VkExtent2D
  deriving DecidableEq, Repr

/-- Model of `Engine::createSwapChain()` for the selected `device`.  The
parameters `MAX_FRAMES_IN_FLIGHT` and `PREFERRED_SURFACE_FORMAT` are the
constants of `Settings`. -/
def createSwapChain (MAX_FRAMES_IN_FLIGHT : Nat) (PREFERRED_SURFACE_FORMAT : VkSurfaceFormatKHR)
    (device : PhysicalDevice) (driver : SwapChainDriver) : Except SetupError CreatedSwapChain :=
  let swapChainSupport := querySwapChainSupport device
  match chooseSwapSurfaceFormat PREFERRED_SURFACE_FORMAT swapChainSupport.formats with
  | none => .error .NoSurfaceFormats
  | some surfaceFormat =>
    match chooseSwapPresentMode swapChainSupport.presentModes with
    | .error error => .error error
    | .ok presentMode =>
      let extent := chooseSwapExtent swapChainSupport.capabilities driver.framebufferWidth
        driver.framebufferHeight
      let imageCount := requestedImageCount MAX_FRAMES_IN_FLIGHT swapChainSupport.capabilities
      match findQueueFamilies device.queueFamilies with
      | .error error => .error error
      | .ok queueIndices =>
        match queueIndices.graphicsFamily, queueIndices.presentationFamily with
        | some graphicsFamily, some presentationFamily =>
          let createInfo : VkSwapchainCreateInfoKHR :=
            if queueIndices.graphicsFamily ≠ queueIndices.presentationFamily then
              { minImageCount := imageCount, imageFormat := surfaceFormat.format,
                imageColorSpace := surfaceFormat.colorSpace, imageExtent := extent,
                presentMode := presentMode, imageSharingMode := VK_SHARING_MODE_CONCURRENT,
                queueFamilyIndexCount := 2,
                pQueueFamilyIndices := [graphicsFamily, presentationFamily] }
            else
              { minImageCount := imageCount, imageFormat := surfaceFormat.format,
                imageColorSpace := surfaceFormat.colorSpace, imageExtent := extent,
                presentMode := presentMode, imageSharingMode := VK_SHARING_MODE_EXCLUSIVE,
                queueFamilyIndexCount := 0, pQueueFamilyIndices := [] }
          if driver.createSwapchainResult ≠ VK_SUCCESS then .error .SwapChainCreation
          else
            .ok { createInfo := createInfo, m_SwapChainImages := driver.swapchainImageCount,
                  m_SwapChainImageFormat := surfaceFormat.format, m_SwapChainExtent := extent }
        | _, _ => .error .QueueFamilyIndicesNotComplete

/-! ## Swapchain dependants -/

/-- The constants of `Settings` (`Constants.h`, not among the sources) that the
swapchain and its dependants read, and the size `sizeof(UniformBufferObject)`
of the record declared in a header that is not among the sources either. -/
structure Settings where
  MAX_FRAMES_IN_FLIGHT : Nat
  PREFERRED_SURFACE_FORMAT : VkSurfaceFormatKHR
  sizeofUniformBufferObject : Nat

/-- The value `VK_DESCRIPTOR_TYPE_COMBINED_IMAGE_SAMPLER` of `VkDescriptorType`. -/
def VK_DESCRIPTOR_TYPE_COMBINED_IMAGE_SAMPLER : Nat := 1
/-- The value `VK_DESCRIPTOR_TYPE_UNIFORM_BUFFER` of `VkDescriptorType`. -/
def VK_DESCRIPTOR_TYPE_UNIFORM_BUFFER : Nat := 6
/-- The value `VK_IMAGE_TILING_OPTIMAL` of `VkImageTiling`. -/
def VK_IMAGE_TILING_OPTIMAL : Nat := 0
/-- The bit `VK_IMAGE_USAGE_COLOR_ATTACHMENT_BIT`. -/
def VK_IMAGE_USAGE_COLOR_ATTACHMENT_BIT : Nat := 0x10
/-- The bit `VK_IMAGE_USAGE_DEPTH_STENCIL_ATTACHMENT_BIT`. -/
def VK_IMAGE_USAGE_DEPTH_STENCIL_ATTACHMENT_BIT : Nat := 0x20
/-- The bit `VK_IMAGE_USAGE_TRANSIENT_ATTACHMENT_BIT`. -/
def VK_IMAGE_USAGE_TRANSIENT_ATTACHMENT_BIT : Nat := 0x40
/-- The bit `VK_MEMORY_PROPERTY_DEVICE_LOCAL_BIT`. -/
def VK_MEMORY_PROPERTY_DEVICE_LOCAL_BIT : Nat := 0x1
/-- The bit `VK_MEMORY_PROPERTY_HOST_VISIBLE_BIT`. -/
def VK_MEMORY_PROPERTY_HOST_VISIBLE_BIT : Nat := 0x2
/-- The bit `VK_MEMORY_PROPERTY_HOST_COHERENT_BIT`. -/
def VK_MEMORY_PROPERTY_HOST_COHERENT_BIT : Nat := 0x4
/-- The bit `VK_BUFFER_USAGE_UNIFORM_BUFFER_BIT`. -/
def VK_BUFFER_USAGE_UNIFORM_BUFFER_BIT : Nat := 0x10

/-- The record `VkDescriptorPoolSize`; `descriptorCount` is a `uint32_t`. -/
structure VkDescriptorPoolSize where
  type : Nat
  descriptorCount : Nat
  deriving DecidableEq, Repr

/-- The fields of `VkDescriptorPoolCreateInfo` that `createDescriptorPool`
sets; `maxSets` is a `uint32_t`. -/
structure VkDescriptorPoolCreateInfo where
  poolSizes : List VkDescriptorPoolSize
  maxSets : Nat
  deriving DecidableEq, Repr

/-- The fields of `VkFramebufferCreateInfo` that `createFramebuffers` sets; the
attachments are the colour view, the depth view and the swapchain image view at
position `swapChainImageView` of `m_SwapChainImageViews`. -/
structure VkFramebufferCreateInfo where
  attachmentCount : Nat
  swapChainImageView : Nat
  width : Nat
  height : Nat
  layers : Nat
  deriving DecidableEq, Repr

/-- What a descriptor set refers to: at binding 0 the uniform buffer at a
position of `m_UniformBuffers`, once written, and at binding 1 the texture
sampler, once written. -/
structure DescriptorSet where
  uniformBuffer : Option Nat
  imageSampler : Bool
  deriving DecidableEq, Repr

/-- The members of the engine that `cleanupSwapChain` and `recreateSwapChain`
tear down and rebuild.  A vector of handles whose contents do not matter is
kept as its size; a framebuffer is kept as the create-info it was created
with, the colour and depth images as the width and height they were created
with, the descriptor pool as its create-info, and a descriptor set as what it
refers to. -/
structure SwapChainBundle where
  m_Models : Nat
  m_MSAASamples : Nat
  m_SwapChainImages : Nat
  m_SwapChainImageFormat : Nat
  m_SwapChainExtent : VkExtent2D
  m_SwapChainImageViews : Nat
  m_ColorImage : Option VkExtent2D
  m_DepthImage : Option VkExtent2D
  m_SwapChainFramebuffers : List VkFramebufferCreateInfo
  m_CommandBuffers : Nat
  m_UniformBuffers : Nat
  m_UniformBuffersMemory : Nat
  m_UniformBuffersMapped : Nat
  m_DescriptorPool : Option VkDescriptorPoolCreateInfo
  m_DescriptorSets : List DescriptorSet
  deriving DecidableEq, Repr

/-- What the window system and the driver answer while the swapchain and its
dependants are built once.  Calls of the same kind get the same answer;
`pipelineResult` is the first failing result among the calls of
`createGraphicsPipeline`, and `depthFormat` is what `findDepthFormat` returns,
`none` when it throws. -/
structure BundleDriver where
  swapChain : SwapChainDriver
  createImageViewResult : VkResult
  createRenderPassResult : VkResult
  pipelineResult : VkResult
  imageAllocation : AllocationDriver
  depthFormat : Option Nat
  createFramebufferResult : VkResult
  bufferAllocation : AllocationDriver
  mapMemoryResult : VkResult
  createDescriptorPoolResult : VkResult
  allocateDescriptorSetsResult : VkResult
  allocateCommandBuffersResult : VkResult

/-- The effect of `Engine::createSwapChain()` on the members: the image vector
is resized to the count the driver reports, and format and extent are stored. -/
def SwapChainBundle.createSwapChain (settings : Settings) (device : PhysicalDevice)
    (driver : BundleDriver) (bundle : SwapChainBundle) : Except SetupError SwapChainBundle :=
  match Engine.createSwapChain settings.MAX_FRAMES_IN_FLIGHT settings.PREFERRED_SURFACE_FORMAT
      device driver.swapChain with
  | .error error => .error error
  | .ok created =>
    .ok { bundle with
            m_SwapChainImages := created.m_SwapChainImages,
            m_SwapChainImageFormat := created.m_SwapChainImageFormat,
            m_SwapChainExtent := created.m_SwapChainExtent }

/-- Model of `Engine::createImageViews()`: the view vector is resized to the
number of swapchain images and one view is created per image. -/
def createImageViews (driver : BundleDriver) (bundle : SwapChainBundle) :
    Except SetupError SwapChainBundle :=
  if bundle.m_SwapChainImages ≠ 0 ∧ driver.createImageViewResult ≠ VK_SUCCESS then
    .error .ImageViewCreation
  else .ok { bundle with m_SwapChainImageViews := bundle.m_SwapChainImages }

/-- Model of `Engine::createRenderPass()`, which touches none of the members
tracked here. -/
def createRenderPass (driver : BundleDriver) (bundle : SwapChainBundle) :
    Except SetupError SwapChainBundle :=
  if driver.createRenderPassResult ≠ VK_SUCCESS then .error .RenderPassCreation else .ok bundle

/-- Model of `Engine::createGraphicsPipeline()`, which touches none of the
members tracked here. -/
def createGraphicsPipeline (driver : BundleDriver) (bundle : SwapChainBundle) :
    Except SetupError SwapChainBundle :=
  if driver.pipelineResult ≠ VK_SUCCESS then .error .PipelineCreation else .ok bundle

/-- Model of `Engine::createColorResources()`: `createImage` with the width and
height of `m_SwapChainExtent`, one mip level, `m_MSAASamples` samples and the
swapchain image format, then `createImageView`. -/
def createColorResources (driver : BundleDriver) (bundle : SwapChainBundle) :
    Except SetupError SwapChainBundle :=
  match (createImage driver.imageAllocation bundle.m_SwapChainExtent.width
      bundle.m_SwapChainExtent.height 1 bundle.m_MSAASamples bundle.m_SwapChainImageFormat
      VK_IMAGE_TILING_OPTIMAL
      (VK_IMAGE_USAGE_TRANSIENT_ATTACHMENT_BIT ||| VK_IMAGE_USAGE_COLOR_ATTACHMENT_BIT)
      VK_MEMORY_PROPERTY_DEVICE_LOCAL_BIT).2 with
  | .error error => .error (.Allocation error)
  | .ok _ =>
    if driver.createImageViewResult ≠ VK_SUCCESS then .error .ImageViewCreation
    else
      .ok { bundle with
              m_ColorImage := some { width := bundle.m_SwapChainExtent.width,
                                     height := bundle.m_SwapChainExtent.height } }

/-- Model of `Engine::createDepthResources()`: `findDepthFormat`, then
`createImage` with the width and height of `m_SwapChainExtent`, one mip level
and `m_MSAASamples` samples, then `createImageView`. -/
def createDepthResources (driver : BundleDriver) (bundle : SwapChainBundle) :
    Except SetupError SwapChainBundle :=
  match driver.depthFormat with
  | none => .error .NoSupportedFormat
  | some depthFormat =>
    match (createImage driver.imageAllocation bundle.m_SwapChainExtent.width
        bundle.m_SwapChainExtent.height 1 bundle.m_MSAASamples depthFormat
        VK_IMAGE_TILING_OPTIMAL VK_IMAGE_USAGE_DEPTH_STENCIL_ATTACHMENT_BIT
        VK_MEMORY_PROPERTY_DEVICE_LOCAL_BIT).2 with
    | .error error => .error (.Allocation error)
    | .ok _ =>
      if driver.createImageViewResult ≠ VK_SUCCESS then .error .ImageViewCreation
      else
        .ok { bundle with
                m_DepthImage := some { width := bundle.m_SwapChainExtent.width,
                                       height := bundle.m_SwapChainExtent.height } }

/-- Model of `Engine::createFramebuffers()`: the framebuffer vector is resized
to the number of image views and framebuffer `i` is created over the colour
view, the depth view and image view `i`, with the width and height of
`m_SwapChainExtent`. -/
def createFramebuffers (driver : BundleDriver) (bundle : SwapChainBundle) :
    Except SetupError SwapChainBundle :=
  if bundle.m_SwapChainImageViews ≠ 0 ∧ driver.createFramebufferResult ≠ VK_SUCCESS then
    .error .FramebufferCreation
  else
    .ok { bundle with
            m_SwapChainFramebuffers :=
              (List.range bundle.m_SwapChainImageViews).map (fun i =>
                { attachmentCount := 3, swapChainImageView := i,
                  width := bundle.m_SwapChainExtent.width,
                  height := bundle.m_SwapChainExtent.height, layers := 1 }) }

/-- Model of `Engine::createUniformBuffers()`: the three vectors are resized to
`MAX_FRAMES_IN_FLIGHT * m_Models.size()` and the nested loops run `createBuffer`
and `vkMapMemory` once per frame and model.  Every iteration gets the same
answers, so the loops throw in their first iteration or not at all. -/
def createUniformBuffers (settings : Settings) (driver : BundleDriver)
    (bundle : SwapChainBundle) : Except SetupError SwapChainBundle :=
  let numModels := bundle.m_Models
  let totalBuffers := settings.MAX_FRAMES_IN_FLIGHT * numModels
  let resized : SwapChainBundle :=
    { bundle with m_UniformBuffers := totalBuffers, m_UniformBuffersMemory := totalBuffers,
                  m_UniformBuffersMapped := totalBuffers }
  if totalBuffers = 0 then .ok resized
  else
    match (createBuffer driver.bufferAllocation settings.sizeofUniformBufferObject
        VK_BUFFER_USAGE_UNIFORM_BUFFER_BIT
        (VK_MEMORY_PROPERTY_HOST_VISIBLE_BIT ||| VK_MEMORY_PROPERTY_HOST_COHERENT_BIT)).2 with
    | .error error => .error (.Allocation error)
    | .ok _ =>
      if driver.mapMemoryResult ≠ VK_SUCCESS then .error .MemoryMap else .ok resized

/-- Model of `Engine::createDescriptorPool()`; the casts
`static_cast<uint32_t>(totalSets)` reduce modulo `2^32`. -/
def createDescriptorPool (settings : Settings) (driver : BundleDriver)
    (bundle : SwapChainBundle) : Except SetupError SwapChainBundle :=
  let numModels := bundle.m_Models
  let totalSets := settings.MAX_FRAMES_IN_FLIGHT * numModels
  let poolInfo : VkDescriptorPoolCreateInfo :=
    { poolSizes :=
        [{ type := VK_DESCRIPTOR_TYPE_UNIFORM_BUFFER, descriptorCount := totalSets % 2 ^ 32 },
         { type := VK_DESCRIPTOR_TYPE_COMBINED_IMAGE_SAMPLER,
           descriptorCount := totalSets % 2 ^ 32 }],
      maxSets := totalSets % 2 ^ 32 }
  if driver.createDescriptorPoolResult ≠ VK_SUCCESS then .error .DescriptorPoolCreation
  else .ok { bundle with m_DescriptorPool := some poolInfo }

/-- The call `vkUpdateDescriptorSets` of `createDescriptorSets` for frame `i`
and model `j`: the set at `bufferIndex = i * numModels + j` gets the uniform
buffer at `bufferIndex` at binding 0 and the texture sampler at binding 1. -/
def updateDescriptorSets (numModels i : Nat) (sets : List DescriptorSet) (j : Nat) :
    List DescriptorSet :=
  let bufferIndex := i * numModels + j
  sets.set bufferIndex { uniformBuffer := some bufferIndex, imageSampler := true }

/-- Model of `Engine::createDescriptorSets()`: the set vector is resized to
`MAX_FRAMES_IN_FLIGHT * m_Models.size()` and filled by
`vkAllocateDescriptorSets` with fresh sets, then the nested loops over frames
`i` and models `j` write each set. -/
def createDescriptorSets (settings : Settings) (driver : BundleDriver)
    (bundle : SwapChainBundle) : Except SetupError SwapChainBundle :=
  let numModels := bundle.m_Models
  let totalSets := settings.MAX_FRAMES_IN_FLIGHT * numModels
  if driver.allocateDescriptorSetsResult ≠ VK_SUCCESS then .error .DescriptorSetAllocation
  else
    let allocated : List DescriptorSet :=
      List.replicate totalSets { uniformBuffer := none, imageSampler := false }
    .ok { bundle with
            m_DescriptorSets :=
              (List.range settings.MAX_FRAMES_IN_FLIGHT).foldl (fun sets i =>
                (List.range numModels).foldl (updateDescriptorSets numModels i) sets)
                allocated }

/-- Model of `Engine::createCommandBuffers()`: the ring is resized to
`MAX_FRAMES_IN_FLIGHT` and allocated. -/
def createCommandBuffers (settings : Settings) (driver : BundleDriver)
    (bundle : SwapChainBundle) : Except SetupError SwapChainBundle :=
  if driver.allocateCommandBuffersResult ≠ VK_SUCCESS then .error .CommandBufferAllocation
  else .ok { bundle with m_CommandBuffers := settings.MAX_FRAMES_IN_FLIGHT }

/-- Model of `Engine::cleanupSwapChain()` on the members tracked here: the
colour and depth images are destroyed and the vectors of framebuffers, command
buffers, image views, uniform buffers, their memories and mapped pointers and
descriptor sets are cleared, the descriptor pool is destroyed.  The vector
`m_SwapChainImages` is left as it is. -/
def SwapChainBundle.cleanupSwapChain (bundle : SwapChainBundle) : SwapChainBundle :=
  { bundle with
      m_ColorImage := none, m_DepthImage := none, m_SwapChainFramebuffers := [],
      m_CommandBuffers := 0, m_SwapChainImageViews := 0, m_UniformBuffers := 0,
      m_UniformBuffersMemory := 0, m_UniformBuffersMapped := 0, m_DescriptorPool := none,
      m_DescriptorSets := [] }

/-- Model of `Engine::recreateSwapChain()` on the members tracked here, after
its wait for a non-empty framebuffer: `cleanupSwapChain`, then the ten creation
steps in the order of the source; an exception of a step ends the sequence. -/
def SwapChainBundle.recreateSwapChain (settings : Settings) (device : PhysicalDevice)
    (driver : BundleDriver) (bundle : SwapChainBundle) : Except SetupError SwapChainBundle :=
  SwapChainBundle.createSwapChain settings device driver bundle.cleanupSwapChain
    >>= createImageViews driver
    >>= createRenderPass driver
    >>= createGraphicsPipeline driver
    >>= createColorResources driver
    >>= createDepthResources driver
    >>= createFramebuffers driver
    >>= createUniformBuffers settings driver
    >>= createDescriptorPool settings driver
    >>= createDescriptorSets settings driver

/-- The members tracked here as `Engine::Engine()` leaves them and
`pickPhysicalDevice` has chosen the sample count: every vector is empty. -/
def SwapChainBundle.constructed (m_MSAASamples : Nat) : SwapChainBundle :=
  { m_Models := 0, m_MSAASamples := m_MSAASamples, m_SwapChainImages := 0,
    m_SwapChainImageFormat := 0, m_SwapChainExtent := { width := 0, height := 0 },
    m_SwapChainImageViews := 0, m_ColorImage := none, m_DepthImage := none,
    m_SwapChainFramebuffers := [], m_CommandBuffers := 0, m_UniformBuffers := 0,
    m_UniformBuffersMemory := 0, m_UniformBuffersMapped := 0, m_DescriptorPool := none,
    m_DescriptorSets := [] }

/-- Model of the part of `Engine::initVulkan()` after `createLogicalDevice`, on
the members tracked here: the steps that touch them, in the order of the
source, with `numModels` models pushed to `m_Models` before
`createUniformBuffers` (two in the source).  The steps in between that touch
none of these members are taken to succeed. -/
def SwapChainBundle.initVulkan (settings : Settings) (device : PhysicalDevice)
    (driver : BundleDriver) (numModels : Nat) (bundle : SwapChainBundle) :
    Except SetupError SwapChainBundle :=
  SwapChainBundle.createSwapChain settings device driver bundle
    >>= createImageViews driver
    >>= createRenderPass driver
    >>= createGraphicsPipeline driver
    >>= createColorResources driver
    >>= createDepthResources driver
    >>= createFramebuffers driver
    >>= (fun built => createUniformBuffers settings driver { built with m_Models := numModels })
    >>= createDescriptorPool settings driver
    >>= createDescriptorSets settings driver
    >>= createCommandBuffers settings driver

/-! ## Descriptor sets and uniform buffers touched by a frame -/

/-- The pairs of model and descriptor-set index of the
`enqueueIntoCommandBuffer` calls among `calls`, in order. -/
def boundDescriptorSets : List FrameCall → List (Nat × Nat)
  | [] => []
  | .enqueueIntoCommandBuffer model descriptorSetIndex _ :: rest =>
    (model, descriptorSetIndex) :: boundDescriptorSets rest
  | _ :: rest => boundDescriptorSets rest

/-- The pairs of model and uniform-buffer index of the uniform-buffer copies
among `calls`, in order. -/
def uniformCopies : List FrameCall → List (Nat × Nat)
  | [] => []
  | .memcpyUniformBuffer bufferIndex model :: rest => (model, bufferIndex) :: uniformCopies rest
  | _ :: rest => uniformCopies rest

/-! ## In-flight fences -/

/-- The state of an in-flight fence: signaled; unsignaled with a pending
submission that names it and signals it on completion; or unsignaled with no
such submission, so that nothing will signal it. -/
inductive FenceState
  | signaled
  | pending
  | unsignaled
  deriving DecidableEq, Repr

/-- The fences `m_InFlightFences` as `Engine::createSyncObjects()` creates
them when no creation call fails: `MAX_FRAMES_IN_FLIGHT` fences, each created
with `VK_FENCE_CREATE_SIGNALED_BIT`. -/
def createSyncObjects (MAX_FRAMES_IN_FLIGHT : Nat) : List FenceState :=
  List.replicate MAX_FRAMES_IN_FLIGHT .signaled

/-- The effect of one call of a frame on the fences; `none` when the call
never returns or is invalid.  `vkWaitForFences` has no timeout: it returns at
once on a signaled fence, returns when the pending submission has completed
and signaled the fence, and never returns on a fence nothing will signal.
`vkResetFences` unsignals a fence that is not in use by a submission.  A
successful `vkQueueSubmit` needs its fence unsignaled and not in use, and
leaves it pending.  `recreateSwapChain` runs `vkDeviceWaitIdle`, which lets
every pending submission complete.  No other call touches a fence. -/
def fenceStep (driver : FrameDriver) (fences : List FenceState) :
    FrameCall → Option (List FenceState)
  | .vkWaitForFences fence =>
    match fences[fence]? with
    | some .signaled => some fences
    | some .pending => some (fences.set fence .signaled)
    | _ => none
  | .vkResetFences fence =>
    match fences[fence]? with
    | some .signaled => some (fences.set fence .unsignaled)
    | some .unsignaled => some fences
    | _ => none
  | .vkQueueSubmit _ _ _ fence =>
    if driver.submitResult ≠ VK_SUCCESS then some fences
    else
      match fences[fence]? with
      | some .unsignaled => some (fences.set fence .pending)
      | _ => none
  | .recreateSwapChain =>
    some (fences.map (fun fence => if fence = .pending then .signaled else fence))
  | _ => some fences

/-- The fences after the calls of one frame, in order. -/
def fencesAfterCalls (driver : FrameDriver) :
    List FrameCall → List FenceState → Option (List FenceState)
  | [], fences => some fences
  | call :: rest, fences =>
    match fenceStep driver fences call with
    | none => none
    | some next => fencesAfterCalls driver rest next

/-- The fences after the main loop has run over `drivers` from `engine`, frame
by frame as `mainLoop` does, stopping after a fatal frame. -/
def fencesAfterRun (MAX_FRAMES_IN_FLIGHT : Nat) :
    List FrameDriver → EngineState → List FenceState → Option (List FenceState)
  | [], _, fences => some fences
  | driver :: drivers, engine, fences =>
    let result := mainLoopIteration MAX_FRAMES_IN_FLIGHT driver engine
    match fencesAfterCalls driver result.calls fences with
    | none => none
    | some next =>
      match result.outcome with
      | .fatal _ => some next
      | _ => fencesAfterRun MAX_FRAMES_IN_FLIGHT drivers result.engine next

/-! ## Extension and format checks -/

/-- Model of `Engine::validateExtensions(supported_extensions,
required_extensions)`: `all_of` over the required names of `any_of` over the
supported extensions, compared by name.  As in `checkDeviceExtensionSupport`, a
supported extension is given by its `extensionName`. -/
def validateExtensions (supported_extensions required_extensions : List String) : Bool :=
  required_extensions.all (fun required_extension =>
    supported_extensions.any (fun supported_extension =>
      supported_extension == required_extension))

/-- The value `VK_IMAGE_TILING_LINEAR` of `VkImageTiling`. -/
def VK_IMAGE_TILING_LINEAR : Nat := 1
/-- The value `VK_FORMAT_D32_SFLOAT` of `VkFormat`. -/
def VK_FORMAT_D32_SFLOAT : Nat := 126
/-- The value `VK_FORMAT_D24_UNORM_S8_UINT` of `VkFormat`. -/
def VK_FORMAT_D24_UNORM_S8_UINT : Nat := 129
/-- The value `VK_FORMAT_D32_SFLOAT_S8_UINT` of `VkFormat`. -/
def VK_FORMAT_D32_SFLOAT_S8_UINT : Nat := 130
/-- The bit `VK_FORMAT_FEATURE_DEPTH_STENCIL_ATTACHMENT_BIT`. -/
def VK_FORMAT_FEATURE_DEPTH_STENCIL_ATTACHMENT_BIT : Nat := 0x200

/-- The fields of `VkFormatProperties` that `findSupportedFormat` reads. -/
structure VkFormatProperties where
  linearTilingFeatures : Nat
  optimalTilingFeatures : Nat
  deriving DecidableEq, Repr

/-- Model of `Engine::findSupportedFormat(candidates, tiling, features)`;
`formatProperties` is what `vkGetPhysicalDeviceFormatProperties` reports for
each format of the selected device.  The loop returns the first candidate that
passes the test of the requested tiling, and the exception is thrown after the
loop. -/
def findSupportedFormat (formatProperties : Nat → VkFormatProperties) :
    (candidates : List Nat) → (tiling features : Nat) → Except SetupError Nat
  | [], _, _ => .error .NoSupportedFormat
  | format :: rest, tiling, features =>
    let props := formatProperties format
    if tiling = VK_IMAGE_TILING_LINEAR then
      if props.linearTilingFeatures &&& features = features then .ok format
      else findSupportedFormat formatProperties rest tiling features
    else if tiling = VK_IMAGE_TILING_OPTIMAL then
      if props.optimalTilingFeatures &&& features = features then .ok format
      else findSupportedFormat formatProperties rest tiling features
    else findSupportedFormat formatProperties rest tiling features

/-- Model of `Engine::findDepthFormat()`. -/
def findDepthFormat (formatProperties : Nat → VkFormatProperties) : Except SetupError Nat :=
  findSupportedFormat formatProperties
    [VK_FORMAT_D32_SFLOAT, VK_FORMAT_D32_SFLOAT_S8_UINT, VK_FORMAT_D24_UNORM_S8_UINT]
    VK_IMAGE_TILING_OPTIMAL VK_FORMAT_FEATURE_DEPTH_STENCIL_ATTACHMENT_BIT

/-! ## Screenshot (`Engine::captureFramebuffer`) -/

/-- The bit `VK_BUFFER_USAGE_TRANSFER_DST_BIT`. -/
def VK_BUFFER_USAGE_TRANSFER_DST_BIT : Nat := 0x2

/-- The four bytes that `output.write(reinterpret_cast<const char *>(&value),
sizeof(value))` writes for a `uint32_t`: the object representation, which on
the little-endian hosts the engine is built for is the lowest byte first. -/
def uint32Bytes (value : Nat) : List Nat :=
  [value % 256, value / 256 % 256, value / 65536 % 256, value / 16777216 % 256]

/-- Model of `Engine::captureFramebuffer(imageIndex)`: the exception thrown, or
the bytes of the file written, `none` when the file could not be opened.
`image` is `m_SwapChainImages[imageIndex]`, `pixelData` gives the byte at each
offset of the mapped staging buffer after the copy, and `outputIsOpen` is the
answer of `output.is_open()`.  The size `width * height * 4` is computed in
`uint32_t`. -/
def captureFramebuffer (driver : AllocationDriver) (m_SwapChainExtent : VkExtent2D)
    (m_SwapChainImageFormat image : Nat) (pixelData : Nat → Nat) (outputIsOpen : Bool) :
    Except EngineError (Option (List Nat)) :=
  let width := m_SwapChainExtent.width
  let height := m_SwapChainExtent.height
  let imageSize := (width * height * 4) % 2 ^ 32
  match (createBuffer driver imageSize VK_BUFFER_USAGE_TRANSFER_DST_BIT
      (VK_MEMORY_PROPERTY_HOST_VISIBLE_BIT ||| VK_MEMORY_PROPERTY_HOST_COHERENT_BIT)).2 with
  | .error error => .error error
  | .ok _ =>
    match (transitionImageLayout image m_SwapChainImageFormat VK_IMAGE_LAYOUT_PRESENT_SRC_KHR
        VK_IMAGE_LAYOUT_TRANSFER_SRC_OPTIMAL 1).2 with
    | .error error => .error error
    | .ok _ =>
      match (transitionImageLayout image m_SwapChainImageFormat
          VK_IMAGE_LAYOUT_TRANSFER_SRC_OPTIMAL VK_IMAGE_LAYOUT_PRESENT_SRC_KHR 1).2 with
      | .error error => .error error
      | .ok _ =>
        if outputIsOpen then
          .ok (some (uint32Bytes width ++ uint32Bytes height ++
            (List.range imageSize).map pixelData))
        else .ok none

/-! ## Order of creation and destruction -/

/-- The steps of `Engine::initVulkan()`, named by the function that makes
them; `createModels` stands for the two `m_Models.push_back` statements. -/
inductive InitStep
  | createInstance
  | setupDebugMessenger
  | createSurface
  | pickPhysicalDevice
  | createLogicalDevice
  | createSwapChain
  | createImageViews
  | createRenderPass
  | createDescriptorSetLayout
  | createGraphicsPipeline
  | createCommandPool
  | createColorResources
  | createDepthResources
  | createFramebuffers
  | createTextureImage
  | createTextureImageView
  | createTextureSampler
  | createModels
  | createUniformBuffers
  | createDescriptorPool
  | createDescriptorSets
  | createCommandBuffers
  | createSyncObjects
  deriving DecidableEq, Repr

/-- The steps of `Engine::initVulkan()` that create something, in the order of
the source.  `pickPhysicalDevice` only selects a device, and
`setupDebugMessenger` creates the messenger only when `enableValidationLayers`
is set. -/
def initVulkanCreations (enableValidationLayers : Bool) : List InitStep :=
  [.createInstance] ++ (if enableValidationLayers then [.setupDebugMessenger] else []) ++
  [.createSurface, .createLogicalDevice, .createSwapChain, .createImageViews,
   .createRenderPass, .createDescriptorSetLayout, .createGraphicsPipeline, .createCommandPool,
   .createColorResources, .createDepthResources, .createFramebuffers, .createTextureImage,
   .createTextureImageView, .createTextureSampler, .createModels, .createUniformBuffers,
   .createDescriptorPool, .createDescriptorSets, .createCommandBuffers, .createSyncObjects]

/-- A call of `Engine::cleanup()`: the wait for the device, or the destruction
of what a step of `initVulkan` created. -/
inductive CleanupCall
  | vkDeviceWaitIdle
  | destroy (created : InitStep)
  deriving DecidableEq, Repr

/-- The destructions of `Engine::cleanupSwapChain()`, in the order of the
source: colour and depth resources, framebuffers, command buffers, the pipeline
with its layout, the render pass, the image views, the swapchain, the uniform
buffers, the descriptor pool, and the descriptor sets, which go with their pool
when `m_DescriptorSets` is cleared. -/
def cleanupSwapChainCalls : List CleanupCall :=
  [.destroy .createColorResources, .destroy .createDepthResources,
   .destroy .createFramebuffers, .destroy .createCommandBuffers,
   .destroy .createGraphicsPipeline, .destroy .createRenderPass, .destroy .createImageViews,
   .destroy .createSwapChain, .destroy .createUniformBuffers, .destroy .createDescriptorPool,
   .destroy .createDescriptorSets]

/-- The calls of `Engine::cleanup()` on Vulkan objects, with `cleanupSwapChain`
inlined, in the order of the source; the window is destroyed afterwards. -/
def cleanupCalls (enableValidationLayers : Bool) : List CleanupCall :=
  [.vkDeviceWaitIdle] ++ cleanupSwapChainCalls ++
  [.destroy .createSyncObjects, .destroy .createTextureSampler,
   .destroy .createTextureImageView, .destroy .createTextureImage,
   .destroy .createDescriptorSetLayout, .destroy .createModels, .destroy .createCommandPool] ++
  (if enableValidationLayers then [.destroy .setupDebugMessenger] else []) ++
  [.destroy .createLogicalDevice, .destroy .createSurface, .destroy .createInstance]

/-- Whether what a step creates belongs to the logical device: everything but
the instance, the debug messenger, the surface and the device itself. -/
def InitStep.deviceOwned : InitStep → Bool
  | .createInstance => false
  | .setupDebugMessenger => false
  | .createSurface => false
  | .pickPhysicalDevice => false
  | .createLogicalDevice => false
  | _ => true

/-! ## Camera (`Engine::lookAround`), over the reals -/

/-- A `glm::vec3` with real components. -/
@[ext]
structure Vec3 where
  x : ℝ
  y : ℝ
  z : ℝ

/-- Component-wise sum (`operator+` of `glm::vec3`). -/
def Vec3.add (a b : Vec3) : Vec3 := ⟨a.x + b.x, a.y + b.y, a.z + b.z⟩

/-- Component-wise difference (`operator-` of `glm::vec3`). -/
def Vec3.sub (a b : Vec3) : Vec3 := ⟨a.x - b.x, a.y - b.y, a.z - b.z⟩

/-- Product with a scalar (`operator*` of `glm::vec3` and a `float`). -/
def Vec3.scale (a : Vec3) (factor : ℝ) : Vec3 := ⟨a.x * factor, a.y * factor, a.z * factor⟩

/-- The `glm::dot` of two vectors. -/
def dot (a b : Vec3) : ℝ := a.x * b.x + a.y * b.y + a.z * b.z

/-- The `glm::cross` of two vectors. -/
def cross (a b : Vec3) : Vec3 :=
  ⟨a.y * b.z - b.y * a.z, a.z * b.x - b.z * a.x, a.x * b.y - b.x * a.y⟩

/-- The `glm::normalize` of a vector: `v * inversesqrt(dot(v, v))`. -/
noncomputable def normalize (v : Vec3) : Vec3 := v.scale (1 / Real.sqrt (dot v v))

/-- The `glm::radians` of an angle in degrees. -/
noncomputable def radians (degrees : ℝ) : ℝ := degrees * (Real.pi / 180)

/-- The upper-left three columns of a `glm::mat4`, each cut to its first three
rows; the rest of the matrix plays no role for a `vec4` whose `w` is 0. -/
structure Mat3 where
  col0 : Vec3
  col1 : Vec3
  col2 : Vec3

/-- The `glm::rotate(mat4(1.0f), angle, v)`: with `c = cos(angle)`,
`s = sin(angle)`, `axis = normalize(v)` and `temp = (1 - c) * axis`, the matrix
whose entries GLM writes as `Rotate[column][row]`. -/
noncomputable def rotate (angle : ℝ) (v : Vec3) : Mat3 :=
  let c := Real.cos angle
  let s := Real.sin angle
  let axis := normalize v
  let temp := axis.scale (1 - c)
  { col0 := ⟨c + temp.x * axis.x, temp.x * axis.y + s * axis.z, temp.x * axis.z - s * axis.y⟩
    col1 := ⟨temp.y * axis.x - s * axis.z, c + temp.y * axis.y, temp.y * axis.z + s * axis.x⟩
    col2 := ⟨temp.z * axis.x + s * axis.y, temp.z * axis.y - s * axis.x, c + temp.z * axis.z⟩ }

/-- The product `vec3(m * vec4(v, 0.0f))`: the columns of `m` weighted by the
components of `v`. -/
def Mat3.mulVec (m : Mat3) (v : Vec3) : Vec3 :=
  ⟨m.col0.x * v.x + m.col1.x * v.y + m.col2.x * v.z,
   m.col0.y * v.x + m.col1.y * v.y + m.col2.y * v.z,
   m.col0.z * v.x + m.col1.z * v.y + m.col2.z * v.z⟩

/-- The camera members of the engine. -/
structure Camera where
  m_CameraEye : Vec3
  m_CameraCenter : Vec3
  m_CameraUp : Vec3

/-- The `Engine::getCameraLookDirection`: `normalize(m_CameraCenter - m_CameraEye)`. -/
noncomputable def getCameraLookDirection (camera : Camera) : Vec3 :=
  normalize (camera.m_CameraCenter.sub camera.m_CameraEye)

/-- The `Engine::lookAround`: the look direction is turned by `yawOffset`
degrees about the up vector and by `pitchOffset` degrees about the right
vector; when the arcsine of its `y` lies outside `±CAMERA_MAX_PITCH`, only `y`
is replaced by the sine of the limit; the centre becomes the eye plus the
normalized result.  `CAMERA_MAX_PITCH` stands for `Settings::CAMERA_MAX_PITCH`. -/
noncomputable def lookAround (CAMERA_MAX_PITCH : ℝ) (camera : Camera)
    (yawOffset pitchOffset : ℝ) : Camera :=
  let lookDirection := getCameraLookDirection camera
  let rightDirection := normalize (cross lookDirection camera.m_CameraUp)
  let yawRotation := rotate (radians yawOffset) camera.m_CameraUp
  let lookDirection := yawRotation.mulVec lookDirection
  let pitchRotation := rotate (radians pitchOffset) rightDirection
  let lookDirection := pitchRotation.mulVec lookDirection
  let currentPitch := Real.arcsin lookDirection.y
  let lookDirection : Vec3 :=
    if currentPitch > CAMERA_MAX_PITCH then
      { lookDirection with y := Real.sin CAMERA_MAX_PITCH }
    else if currentPitch < -CAMERA_MAX_PITCH then
      { lookDirection with y := -Real.sin CAMERA_MAX_PITCH }
    else lookDirection
  { camera with m_CameraCenter := camera.m_CameraEye.add (normalize lookDirection) }

/-! ## Inputs used to evaluate the model -/

/-- A memory-type table with three types whose property flags are 1, 6 and 7. -/
def sampleMemoryProperties : VkPhysicalDeviceMemoryProperties :=
  { memoryTypeCount := 3, propertyFlags := fun i => [1, 6, 7].getD i 0 }

/-- A driver whose two memory types (flags 1 and 2) both lack property bit 4,
and which creates objects and allocates memory without failing. -/
def sampleAllocationDriver : AllocationDriver :=
  { memProperties := { memoryTypeCount := 2, propertyFlags := fun i => [1, 2].getD i 0 },
    createResult := VK_SUCCESS,
    memRequirements := { size := 16, memoryTypeBits := 3 },
    allocateResult := VK_SUCCESS }

/-- A driver for one frame in which acquisition returns `acquireResult`,
presentation returns `presentResult`, and every other call succeeds; the window
is not resized. -/
def sampleFrameDriver (acquireResult presentResult : VkResult) : FrameDriver :=
  { resizeEvent := false, acquireResult := acquireResult, imageIndex := 0,
    beginCommandBufferResult := VK_SUCCESS, endCommandBufferResult := VK_SUCCESS,
    submitResult := VK_SUCCESS, presentResult := presentResult,
    resizeWhileWaiting := false, recreateSucceeds := true,
    allocatedDescriptorSet := fun k => k + 1 }

/-- A driver for one frame in which every call succeeds, presentation reports
a suboptimal swapchain, and the window is minimised when the swapchain is
recreated: the recreation waits for a non-zero framebuffer size, and the event
that ends the wait runs the resize callback. -/
def sampleMinimizedDriver : FrameDriver :=
  { resizeEvent := false, acquireResult := VK_SUCCESS, imageIndex := 0,
    beginCommandBufferResult := VK_SUCCESS, endCommandBufferResult := VK_SUCCESS,
    submitResult := VK_SUCCESS, presentResult := VK_SUBOPTIMAL_KHR,
    resizeWhileWaiting := true, recreateSucceeds := true,
    allocatedDescriptorSet := fun k => k + 1 }

/-- The engine after start-up with two frames in flight and two models, the
driver having handed out descriptor set handles 1, 2, 3, 4. -/
def sampleEngine : EngineState :=
  initialEngine 2 2 (fun k => k + 1)

/-- Surface capabilities with a fixed current extent of 800 by 600 and between
two and eight images. -/
def sampleCapabilities : VkSurfaceCapabilitiesKHR :=
  { minImageCount := 2, maxImageCount := 8,
    currentExtent := { width := 800, height := 600 },
    minImageExtent := { width := 1, height := 1 },
    maxImageExtent := { width := 4096, height := 4096 } }

/-- Surface capabilities that leave the extent to the window (current width
`UINT32_MAX`) and put no upper limit on the image count (`maxImageCount = 0`). -/
def sampleOpenCapabilities : VkSurfaceCapabilitiesKHR :=
  { minImageCount := 2, maxImageCount := 0,
    currentExtent := { width := UINT32_MAX, height := UINT32_MAX },
    minImageExtent := { width := 1, height := 1 },
    maxImageExtent := { width := 4096, height := 4096 } }

/-- A device that passes every check: one queue family that both draws and
presents, both required extensions, one surface format and one present mode. -/
def sampleSuitableDevice : PhysicalDevice :=
  { deviceType := 2, geometryShader := true, samplerAnisotropy := true,
    queueFamilies := [{ queueFlags := 1, presentSupport := true }],
    extensions := ["VK_KHR_swapchain", "VK_KHR_portability_subset"],
    swapChainSupport := { capabilities := sampleCapabilities,
                          formats := [{ format := 50, colorSpace := 0 }],
                          presentModes := [2] },
    framebufferColorSampleCounts := 15, framebufferDepthSampleCounts := 7 }

/-- The same device with a second queue family: the first only draws and the
second only presents. -/
def sampleSplitQueueDevice : PhysicalDevice :=
  { sampleSuitableDevice with
      queueFamilies := [{ queueFlags := 1, presentSupport := false },
                        { queueFlags := 0, presentSupport := true }] }

/-- The same device with a single queue family that draws but cannot present to
the surface. -/
def sampleHeadlessDevice : PhysicalDevice :=
  { sampleSuitableDevice with
      queueFamilies := [{ queueFlags := 1, presentSupport := false }] }

/-- The suitable device on a surface that leaves the extent to the window and
does not limit the image count. -/
def sampleOpenSurfaceDevice : PhysicalDevice :=
  { sampleSuitableDevice with
      swapChainSupport := { capabilities := sampleOpenCapabilities,
                            formats := [{ format := 50, colorSpace := 0 }],
                            presentModes := [2] } }

/-- A window with a framebuffer of 5000 by 5 pixels; the swapchain is created
with three images. -/
def sampleSwapChainDriver : SwapChainDriver :=
  { framebufferWidth := 5000, framebufferHeight := 5, createSwapchainResult := VK_SUCCESS,
    swapchainImageCount := 3 }

/-- The preferred surface format used in the examples. -/
def samplePreferredFormat : VkSurfaceFormatKHR :=
  { format := 50, colorSpace := 0 }

/-- Surface capabilities whose minimum image count exceeds a positive maximum,
which no conformant driver reports. -/
def sampleInvertedCapabilities : VkSurfaceCapabilitiesKHR :=
  { sampleCapabilities with minImageCount := 5, maxImageCount := 3 }

/-- The suitable device on a surface with the inverted image-count bounds. -/
def sampleInvertedSurfaceDevice : PhysicalDevice :=
  { sampleSuitableDevice with
      swapChainSupport := { capabilities := sampleInvertedCapabilities,
                            formats := [{ format := 50, colorSpace := 0 }],
                            presentModes := [2] } }

/-- A driver with the three memory types of `sampleMemoryProperties`, the
second and third host visible and coherent, which creates objects and allocates
memory without failing. -/
def sampleHostVisibleDriver : AllocationDriver :=
  { memProperties := sampleMemoryProperties, createResult := VK_SUCCESS,
    memRequirements := { size := 192, memoryTypeBits := 7 }, allocateResult := VK_SUCCESS }

/-- Two frames in flight and a uniform buffer object of 192 bytes. -/
def sampleSettings : Settings :=
  { MAX_FRAMES_IN_FLIGHT := 2, PREFERRED_SURFACE_FORMAT := samplePreferredFormat,
    sizeofUniformBufferObject := 192 }

/-- A driver with which every call made while the swapchain and its dependants
are built succeeds; the swapchain gets three images. -/
def sampleBundleDriver : BundleDriver :=
  { swapChain := sampleSwapChainDriver, createImageViewResult := VK_SUCCESS,
    createRenderPassResult := VK_SUCCESS, pipelineResult := VK_SUCCESS,
    imageAllocation := sampleHostVisibleDriver, depthFormat := some 126,
    createFramebufferResult := VK_SUCCESS, bufferAllocation := sampleHostVisibleDriver,
    mapMemoryResult := VK_SUCCESS, createDescriptorPoolResult := VK_SUCCESS,
    allocateDescriptorSetsResult := VK_SUCCESS, allocateCommandBuffersResult := VK_SUCCESS }

/-- The members after `initVulkan` with the sample settings, device and driver
and two models. -/
def sampleInitialBundle : SwapChainBundle :=
  { m_Models := 2, m_MSAASamples := 4, m_SwapChainImages := 3, m_SwapChainImageFormat := 50,
    m_SwapChainExtent := { width := 800, height := 600 }, m_SwapChainImageViews := 3,
    m_ColorImage := some { width := 800, height := 600 },
    m_DepthImage := some { width := 800, height := 600 },
    m_SwapChainFramebuffers :=
      [{ attachmentCount := 3, swapChainImageView := 0, width := 800, height := 600,
         layers := 1 },
       { attachmentCount := 3, swapChainImageView := 1, width := 800, height := 600,
         layers := 1 },
       { attachmentCount := 3, swapChainImageView := 2, width := 800, height := 600,
         layers := 1 }],
    m_CommandBuffers := 2, m_UniformBuffers := 4, m_UniformBuffersMemory := 4,
    m_UniformBuffersMapped := 4,
    m_DescriptorPool := some
      { poolSizes := [{ type := 6, descriptorCount := 4 }, { type := 1, descriptorCount := 4 }],
        maxSets := 4 },
    m_DescriptorSets :=
      [{ uniformBuffer := some 0, imageSampler := true },
       { uniformBuffer := some 1, imageSampler := true },
       { uniformBuffer := some 2, imageSampler := true },
       { uniformBuffer := some 3, imageSampler := true }] }

/-- The members after a swapchain recreation that follows `initVulkan`: as
before, except that the command-buffer ring is empty. -/
def sampleRecreatedBundle : SwapChainBundle :=
  { sampleInitialBundle with m_CommandBuffers := 0 }

/-- A driver for one frame in which `vkBeginCommandBuffer` fails and every other
call succeeds. -/
def sampleRecordingFailureDriver : FrameDriver :=
  { sampleFrameDriver VK_SUCCESS VK_SUCCESS with beginCommandBufferResult := -1 }

/-- The suitable device reported as an integrated GPU
(`VK_PHYSICAL_DEVICE_TYPE_INTEGRATED_GPU`). -/
def sampleIntegratedDevice : PhysicalDevice :=
  { sampleSuitableDevice with deviceType := 1 }

/-- Format properties of a device on which only `VK_FORMAT_D24_UNORM_S8_UINT`
can be a depth-stencil attachment under optimal tiling. -/
def sampleFormatProperties (format : Nat) : VkFormatProperties :=
  if format = 129 then { linearTilingFeatures := 0, optimalTilingFeatures := 0x201 }
  else { linearTilingFeatures := 0, optimalTilingFeatures := 0x1 }

/-- The bytes of a staging buffer holding a solid red RGBA8 image:
`FF 00 00 FF` repeated. -/
def sampleRedPixels (offset : Nat) : Nat :=
  [255, 0, 0, 255].getD (offset % 4) 0

/-- A camera at the origin looking level along the x axis, with the y axis up. -/
def sampleLevelCamera : Camera :=
  { m_CameraEye := ⟨0, 0, 0⟩, m_CameraCenter := ⟨1, 0, 0⟩, m_CameraUp := ⟨0, 1, 0⟩ }

/-! # Properties -/

/-! ## Memory-type selection -/

/-- The 32-bit test `typeFilter & (1 << i)` is non-zero exactly when bit `i` of
`typeFilter` is set, for a shift below the word size. -/
theorem and_shift_ne_zero_iff (typeFilter i : Nat) (hi : i < 32) :
    (typeFilter &&& ((1 <<< i) % 2 ^ 32) != 0) = typeFilter.testBit i := by
  have hlt : 2 ^ i < 2 ^ 32 := Nat.pow_lt_pow_right (by norm_num) hi
  rw [Nat.one_shiftLeft, Nat.mod_eq_of_lt hlt, Nat.and_two_pow]
  cases h : typeFilter.testBit i
  · simp
  · have : 2 ^ i ≠ 0 := by positivity
    simp [this]

/-- The test `(flags & properties) == properties` holds exactly when every bit
of `properties` is a bit of `flags`. -/
theorem and_eq_right_iff (flags properties : Nat) :
    (flags &&& properties == properties) = true ↔
      ∀ b, properties.testBit b = true → flags.testBit b = true := by
  rw [beq_iff_eq]
  constructor
  · intro h b hb
    have := congrArg (fun n => n.testBit b) h
    simp only [Nat.testBit_and, hb, Bool.and_true] at this
    exact this
  · intro h
    apply Nat.eq_of_testBit_eq
    intro b
    rw [Nat.testBit_and]
    cases hb : properties.testBit b
    · simp
    · simp [h b hb]

/-- The loop condition, read as a statement about bits. -/
theorem memoryTypeMatches_iff (memProperties : VkPhysicalDeviceMemoryProperties)
    (typeFilter properties i : Nat) (hi : i < 32) :
    memoryTypeMatches memProperties typeFilter properties i = true ↔
      typeFilter.testBit i = true ∧
        ∀ b, properties.testBit b = true → (memProperties.propertyFlags i).testBit b = true := by
  unfold memoryTypeMatches
  rw [Bool.and_eq_true, and_shift_ne_zero_iff typeFilter i hi, and_eq_right_iff]

/-- A returned index lies in the scanned range, satisfies the loop condition,
and no scanned index before it does. -/
theorem findMemoryTypeFrom_ok (memProperties : VkPhysicalDeviceMemoryProperties)
    (typeFilter properties : Nat) :
    ∀ (remaining i k : Nat),
      findMemoryTypeFrom memProperties typeFilter properties remaining i = .ok k →
        i ≤ k ∧ k < i + remaining ∧
          memoryTypeMatches memProperties typeFilter properties k = true ∧
          ∀ j, i ≤ j → j < k → memoryTypeMatches memProperties typeFilter properties j = false := by
  intro remaining
  induction remaining with
  | zero => intro i k h; simp [findMemoryTypeFrom] at h
  | succ n ih =>
    intro i k h
    unfold findMemoryTypeFrom at h
    by_cases hm : memoryTypeMatches memProperties typeFilter properties i = true
    · rw [if_pos hm] at h
      injection h with h
      subst h
      exact ⟨le_refl _, by omega, hm, fun j h1 h2 => absurd h1 (by omega)⟩
    · rw [if_neg hm] at h
      obtain ⟨h1, h2, h3, h4⟩ := ih (i + 1) k h
      refine ⟨by omega, by omega, h3, ?_⟩
      intro j hj1 hj2
      by_cases hji : j = i
      · subst hji; simpa using hm
      · exact h4 j (by omega) hj2

/-- The loop throws only `NoSuitableMemoryType`, and only when no scanned index
satisfies the loop condition. -/
theorem findMemoryTypeFrom_error (memProperties : VkPhysicalDeviceMemoryProperties)
    (typeFilter properties : Nat) :
    ∀ (remaining i : Nat) (e : EngineError),
      findMemoryTypeFrom memProperties typeFilter properties remaining i = .error e →
        e = .NoSuitableMemoryType ∧
          ∀ j, i ≤ j → j < i + remaining →
            memoryTypeMatches memProperties typeFilter properties j = false := by
  intro remaining
  induction remaining with
  | zero =>
    intro i e h
    simp only [findMemoryTypeFrom] at h
    injection h with h
    exact ⟨h.symm, fun j h1 h2 => absurd h1 (by omega)⟩
  | succ n ih =>
    intro i e h
    unfold findMemoryTypeFrom at h
    by_cases hm : memoryTypeMatches memProperties typeFilter properties i = true
    · rw [if_pos hm] at h; cases h
    · rw [if_neg hm] at h
      obtain ⟨h1, h2⟩ := ih (i + 1) e h
      refine ⟨h1, ?_⟩
      intro j hj1 hj2
      by_cases hji : j = i
      · subst hji; simpa using hm
      · exact h2 j (by omega) (by omega)

/-- The selection either returns an index or throws `NoSuitableMemoryType`. -/
theorem findMemoryType_cases (memProperties : VkPhysicalDeviceMemoryProperties)
    (typeFilter properties : Nat) :
    (∃ k, findMemoryType memProperties typeFilter properties = .ok k) ∨
      findMemoryType memProperties typeFilter properties = .error .NoSuitableMemoryType := by
  cases h : findMemoryType memProperties typeFilter properties with
  | ok k => exact Or.inl ⟨k, rfl⟩
  | error e =>
    right
    have := (findMemoryTypeFrom_error memProperties typeFilter properties _ _ e h).1
    rw [this]

/-- The selection throws exactly when no index below `memoryTypeCount` has its
bit set in the mask and flags containing every requested property. -/
theorem findMemoryType_error_iff (memProperties : VkPhysicalDeviceMemoryProperties)
    (typeFilter properties : Nat)
    (hcount : memProperties.memoryTypeCount ≤ VK_MAX_MEMORY_TYPES) :
    findMemoryType memProperties typeFilter properties = .error .NoSuitableMemoryType ↔
      ¬ ∃ i, i < memProperties.memoryTypeCount ∧ typeFilter.testBit i = true ∧
          ∀ b, properties.testBit b = true →
            (memProperties.propertyFlags i).testBit b = true := by
  unfold VK_MAX_MEMORY_TYPES at hcount
  constructor
  · intro h ⟨i, hi, hbit, hsup⟩
    have := (findMemoryTypeFrom_error memProperties typeFilter properties _ _ _ h).2 i
      (Nat.zero_le _) (by omega)
    rw [← Bool.not_eq_true, memoryTypeMatches_iff _ _ _ _ (by omega)] at this
    exact this ⟨hbit, hsup⟩
  · intro h
    rcases findMemoryType_cases memProperties typeFilter properties with ⟨k, hk⟩ | herr
    · exfalso
      obtain ⟨_, hlt, hm, _⟩ := findMemoryTypeFrom_ok memProperties typeFilter properties _ _ _ hk
      have hk' : k < memProperties.memoryTypeCount := by omega
      rw [memoryTypeMatches_iff _ _ _ _ (by omega)] at hm
      exact h ⟨k, hk', hm.1, hm.2⟩
    · exact herr

/-- Claim C1: for every memory-type table of a device (at most
`VK_MAX_MEMORY_TYPES` entries), every type-bit mask and every set of required
property flags, an index `i` returned by `findMemoryType` is below
`memoryTypeCount`, has its bit set in the mask, has property flags containing
every required flag, and is the first such index. -/
theorem findMemoryType_returns_first_match (memProperties : VkPhysicalDeviceMemoryProperties)
    (typeFilter properties i : Nat)
    (hcount : memProperties.memoryTypeCount ≤ VK_MAX_MEMORY_TYPES)
    (hfound : findMemoryType memProperties typeFilter properties = .ok i) :
    i < memProperties.memoryTypeCount ∧
      typeFilter.testBit i = true ∧
      (∀ b, properties.testBit b = true → (memProperties.propertyFlags i).testBit b = true) ∧
      ∀ j, j < i →
        ¬ (typeFilter.testBit j = true ∧
            ∀ b, properties.testBit b = true →
              (memProperties.propertyFlags j).testBit b = true) := by
  obtain ⟨_, hlt, hm, hfirst⟩ :=
    findMemoryTypeFrom_ok memProperties typeFilter properties _ _ _ hfound
  have hi : i < memProperties.memoryTypeCount := by omega
  have hi32 : i < 32 := by unfold VK_MAX_MEMORY_TYPES at hcount; omega
  rw [memoryTypeMatches_iff _ _ _ _ hi32] at hm
  refine ⟨hi, hm.1, hm.2, ?_⟩
  intro j hj hmatch
  have hj32 : j < 32 := by omega
  have := hfirst j (Nat.zero_le _) hj
  rw [← Bool.not_eq_true, memoryTypeMatches_iff _ _ _ _ hj32] at this
  exact this hmatch

/-- Witness for C1: with flags 1, 6, 7, mask 6 and required flags 6 the
selection returns index 1, and the four conclusions hold there. -/
theorem findMemoryType_returns_first_match_witness :
    sampleMemoryProperties.memoryTypeCount ≤ VK_MAX_MEMORY_TYPES ∧
      findMemoryType sampleMemoryProperties 6 6 = .ok 1 ∧
      (1 < sampleMemoryProperties.memoryTypeCount ∧
        (6 : Nat).testBit 1 = true ∧
        (∀ b, (6 : Nat).testBit b = true →
          (sampleMemoryProperties.propertyFlags 1).testBit b = true) ∧
        ∀ j, j < 1 →
          ¬ ((6 : Nat).testBit j = true ∧
              ∀ b, (6 : Nat).testBit b = true →
                (sampleMemoryProperties.propertyFlags j).testBit b = true)) :=
  ⟨by decide, rfl,
   findMemoryType_returns_first_match sampleMemoryProperties 6 6 1 (by decide) rfl⟩

/-! ## Buffer and image factories -/

/-- With the buffer created, `createBuffer` throws `NoSuitableMemoryType`
exactly when the selection does, and then allocates nothing. -/
theorem createBuffer_error_iff (driver : AllocationDriver) (size usage properties : Nat)
    (hcreate : driver.createResult = VK_SUCCESS) :
    ((createBuffer driver size usage properties).2 = .error .NoSuitableMemoryType ↔
      findMemoryType driver.memProperties driver.memRequirements.memoryTypeBits properties =
        .error .NoSuitableMemoryType) ∧
    ((createBuffer driver size usage properties).2 = .error .NoSuitableMemoryType →
      ∀ call ∈ (createBuffer driver size usage properties).1, call.isAllocate = false) := by
  unfold createBuffer
  rw [if_neg (by simp [hcreate])]
  rcases findMemoryType_cases driver.memProperties driver.memRequirements.memoryTypeBits
    properties with ⟨k, hk⟩ | herr
  · rw [hk]
    by_cases ha : driver.allocateResult = VK_SUCCESS <;> simp [ha]
  · rw [herr]
    simp [AllocationCall.isAllocate]

/-- With the image created, `createImage` throws `NoSuitableMemoryType` exactly
when the selection does, and then allocates nothing. -/
theorem createImage_error_iff (driver : AllocationDriver)
    (width height mipLevels numSamples format tiling usage properties : Nat)
    (hcreate : driver.createResult = VK_SUCCESS) :
    ((createImage driver width height mipLevels numSamples format tiling usage properties).2 =
        .error .NoSuitableMemoryType ↔
      findMemoryType driver.memProperties driver.memRequirements.memoryTypeBits properties =
        .error .NoSuitableMemoryType) ∧
    ((createImage driver width height mipLevels numSamples format tiling usage properties).2 =
        .error .NoSuitableMemoryType →
      ∀ call ∈ (createImage driver width height mipLevels numSamples format tiling usage
        properties).1, call.isAllocate = false) := by
  unfold createImage
  rw [if_neg (by simp [hcreate])]
  rcases findMemoryType_cases driver.memProperties driver.memRequirements.memoryTypeBits
    properties with ⟨k, hk⟩ | herr
  · rw [hk]
    by_cases ha : driver.allocateResult = VK_SUCCESS <;> simp [ha]
  · rw [herr]
    simp [AllocationCall.isAllocate]

/-- Claim C2: `findMemoryType` fails with `NoSuitableMemoryType` if and only if
no index below `memoryTypeCount` has its bit set in the type-bit mask and
property flags containing all required properties; and once the buffer or image
object exists (so that its type-bit mask exists), `createBuffer` and
`createImage` fail with that error in exactly that case, having made no
`vkAllocateMemory` call. -/
theorem findMemoryType_fails_iff_no_match (driver : AllocationDriver)
    (typeFilter properties : Nat)
    (hcount : driver.memProperties.memoryTypeCount ≤ VK_MAX_MEMORY_TYPES) :
    (findMemoryType driver.memProperties typeFilter properties = .error .NoSuitableMemoryType ↔
      ¬ ∃ i, i < driver.memProperties.memoryTypeCount ∧ typeFilter.testBit i = true ∧
          ∀ b, properties.testBit b = true →
            (driver.memProperties.propertyFlags i).testBit b = true) ∧
    (driver.createResult = VK_SUCCESS →
      (∀ size usage,
        ((createBuffer driver size usage properties).2 = .error .NoSuitableMemoryType ↔
          ¬ ∃ i, i < driver.memProperties.memoryTypeCount ∧
              driver.memRequirements.memoryTypeBits.testBit i = true ∧
              ∀ b, properties.testBit b = true →
                (driver.memProperties.propertyFlags i).testBit b = true) ∧
        ((createBuffer driver size usage properties).2 = .error .NoSuitableMemoryType →
          ∀ call ∈ (createBuffer driver size usage properties).1, call.isAllocate = false)) ∧
      (∀ width height mipLevels numSamples format tiling usage,
        ((createImage driver width height mipLevels numSamples format tiling usage
            properties).2 = .error .NoSuitableMemoryType ↔
          ¬ ∃ i, i < driver.memProperties.memoryTypeCount ∧
              driver.memRequirements.memoryTypeBits.testBit i = true ∧
              ∀ b, properties.testBit b = true →
                (driver.memProperties.propertyFlags i).testBit b = true) ∧
        ((createImage driver width height mipLevels numSamples format tiling usage
            properties).2 = .error .NoSuitableMemoryType →
          ∀ call ∈ (createImage driver width height mipLevels numSamples format tiling usage
            properties).1, call.isAllocate = false))) := by
  refine ⟨findMemoryType_error_iff _ _ _ hcount, fun hcreate => ⟨?_, ?_⟩⟩
  · intro size usage
    have h := createBuffer_error_iff driver size usage properties hcreate
    exact ⟨h.1.trans (findMemoryType_error_iff _ _ _ hcount), h.2⟩
  · intro width height mipLevels numSamples format tiling usage
    have h := createImage_error_iff driver width height mipLevels numSamples format tiling usage
      properties hcreate
    exact ⟨h.1.trans (findMemoryType_error_iff _ _ _ hcount), h.2⟩

/-- Witness for C2: with memory types of flags 1 and 2 and required flag 4, the
buffer factory throws `NoSuitableMemoryType`, no index matches, and no call in
its log is an allocation. -/
theorem findMemoryType_fails_iff_no_match_witness :
    sampleAllocationDriver.memProperties.memoryTypeCount ≤ VK_MAX_MEMORY_TYPES ∧
      sampleAllocationDriver.createResult = VK_SUCCESS ∧
      (createBuffer sampleAllocationDriver 16 1 4).2 = .error .NoSuitableMemoryType ∧
      (¬ ∃ i, i < sampleAllocationDriver.memProperties.memoryTypeCount ∧
          sampleAllocationDriver.memRequirements.memoryTypeBits.testBit i = true ∧
          ∀ b, (4 : Nat).testBit b = true →
            (sampleAllocationDriver.memProperties.propertyFlags i).testBit b = true) ∧
      (∀ call ∈ (createBuffer sampleAllocationDriver 16 1 4).1, call.isAllocate = false) :=
  ⟨by decide, rfl, rfl,
   ((((findMemoryType_fails_iff_no_match sampleAllocationDriver 3 4 (by decide)).2 rfl).1
      16 1).1).mp rfl,
   (((findMemoryType_fails_iff_no_match sampleAllocationDriver 3 4 (by decide)).2 rfl).1
      16 1).2 rfl⟩

/-! ## Layout transitioner -/

/-- Claim C3: for each of the four recognised (old, new) layout pairs,
`transitionImageLayout` records exactly one barrier between the begin and the
end of its single-use command buffer, with the (srcStage, dstStage, srcAccess,
dstAccess) of the table - (TOP_OF_PIPE, TRANSFER, 0, TRANSFER_WRITE),
(TRANSFER, FRAGMENT_SHADER, TRANSFER_WRITE, SHADER_READ), (TRANSFER,
BOTTOM_OF_PIPE, TRANSFER_READ, 0), (TOP_OF_PIPE, TRANSFER, 0, TRANSFER_READ) -
the given old and new layouts, and the level range starting at 0 with
`mipLevels` levels. -/
theorem transitionImageLayout_recognized_pairs (image format mipLevels : Nat) :
    transitionImageLayout image format VK_IMAGE_LAYOUT_UNDEFINED
        VK_IMAGE_LAYOUT_TRANSFER_DST_OPTIMAL mipLevels =
      ([.beginSingleTimeCommands,
        .vkCmdPipelineBarrier VK_PIPELINE_STAGE_TOP_OF_PIPE_BIT VK_PIPELINE_STAGE_TRANSFER_BIT
          { srcAccessMask := 0, dstAccessMask := VK_ACCESS_TRANSFER_WRITE_BIT,
            oldLayout := VK_IMAGE_LAYOUT_UNDEFINED,
            newLayout := VK_IMAGE_LAYOUT_TRANSFER_DST_OPTIMAL,
            image := image, baseMipLevel := 0, levelCount := mipLevels },
        .endSingleTimeCommands], .ok ()) ∧
    transitionImageLayout image format VK_IMAGE_LAYOUT_TRANSFER_DST_OPTIMAL
        VK_IMAGE_LAYOUT_SHADER_READ_ONLY_OPTIMAL mipLevels =
      ([.beginSingleTimeCommands,
        .vkCmdPipelineBarrier VK_PIPELINE_STAGE_TRANSFER_BIT VK_PIPELINE_STAGE_FRAGMENT_SHADER_BIT
          { srcAccessMask := VK_ACCESS_TRANSFER_WRITE_BIT,
            dstAccessMask := VK_ACCESS_SHADER_READ_BIT,
            oldLayout := VK_IMAGE_LAYOUT_TRANSFER_DST_OPTIMAL,
            newLayout := VK_IMAGE_LAYOUT_SHADER_READ_ONLY_OPTIMAL,
            image := image, baseMipLevel := 0, levelCount := mipLevels },
        .endSingleTimeCommands], .ok ()) ∧
    transitionImageLayout image format VK_IMAGE_LAYOUT_TRANSFER_SRC_OPTIMAL
        VK_IMAGE_LAYOUT_PRESENT_SRC_KHR mipLevels =
      ([.beginSingleTimeCommands,
        .vkCmdPipelineBarrier VK_PIPELINE_STAGE_TRANSFER_BIT VK_PIPELINE_STAGE_BOTTOM_OF_PIPE_BIT
          { srcAccessMask := VK_ACCESS_TRANSFER_READ_BIT, dstAccessMask := 0,
            oldLayout := VK_IMAGE_LAYOUT_TRANSFER_SRC_OPTIMAL,
            newLayout := VK_IMAGE_LAYOUT_PRESENT_SRC_KHR,
            image := image, baseMipLevel := 0, levelCount := mipLevels },
        .endSingleTimeCommands], .ok ()) ∧
    transitionImageLayout image format VK_IMAGE_LAYOUT_PRESENT_SRC_KHR
        VK_IMAGE_LAYOUT_TRANSFER_SRC_OPTIMAL mipLevels =
      ([.beginSingleTimeCommands,
        .vkCmdPipelineBarrier VK_PIPELINE_STAGE_TOP_OF_PIPE_BIT VK_PIPELINE_STAGE_TRANSFER_BIT
          { srcAccessMask := 0, dstAccessMask := VK_ACCESS_TRANSFER_READ_BIT,
            oldLayout := VK_IMAGE_LAYOUT_PRESENT_SRC_KHR,
            newLayout := VK_IMAGE_LAYOUT_TRANSFER_SRC_OPTIMAL,
            image := image, baseMipLevel := 0, levelCount := mipLevels },
        .endSingleTimeCommands], .ok ()) := by
  refine ⟨?_, ?_, ?_, ?_⟩ <;>
    simp [transitionImageLayout, VK_IMAGE_LAYOUT_UNDEFINED, VK_IMAGE_LAYOUT_TRANSFER_DST_OPTIMAL,
      VK_IMAGE_LAYOUT_SHADER_READ_ONLY_OPTIMAL, VK_IMAGE_LAYOUT_TRANSFER_SRC_OPTIMAL,
      VK_IMAGE_LAYOUT_PRESENT_SRC_KHR]

/-- An unrecognised pair reaches the final `else`: the command buffer was begun,
nothing else was recorded, and `UnsupportedLayoutTransition` is thrown. -/
theorem transitionImageLayout_else (image format mipLevels : Nat)
    (oldLayout newLayout : VkImageLayout)
    (hpair :
      ¬ ((oldLayout = VK_IMAGE_LAYOUT_UNDEFINED ∧
            newLayout = VK_IMAGE_LAYOUT_TRANSFER_DST_OPTIMAL) ∨
          (oldLayout = VK_IMAGE_LAYOUT_TRANSFER_DST_OPTIMAL ∧
            newLayout = VK_IMAGE_LAYOUT_SHADER_READ_ONLY_OPTIMAL) ∨
          (oldLayout = VK_IMAGE_LAYOUT_TRANSFER_SRC_OPTIMAL ∧
            newLayout = VK_IMAGE_LAYOUT_PRESENT_SRC_KHR) ∨
          (oldLayout = VK_IMAGE_LAYOUT_PRESENT_SRC_KHR ∧
            newLayout = VK_IMAGE_LAYOUT_TRANSFER_SRC_OPTIMAL))) :
    transitionImageLayout image format oldLayout newLayout mipLevels =
      ([.beginSingleTimeCommands], .error .UnsupportedLayoutTransition) := by
  simp only [not_or] at hpair
  obtain ⟨h1, h2, h3, h4⟩ := hpair
  unfold transitionImageLayout
  simp only [if_neg h1, if_neg h2, if_neg h3, if_neg h4]

/-- Claim C4: for every (old, new) layout pair that is not one of the four
recognised pairs, `transitionImageLayout` fails with
`UnsupportedLayoutTransition` having only begun its command buffer: no pipeline
barrier is recorded and the buffer is not submitted.  In particular this holds
when old = new, and for the reversed pairs TRANSFER_DST → UNDEFINED and
SHADER_READ_ONLY → TRANSFER_DST. -/
theorem transitionImageLayout_unrecognized_pair (image format mipLevels : Nat) :
    (∀ oldLayout newLayout : VkImageLayout,
      ¬ ((oldLayout = VK_IMAGE_LAYOUT_UNDEFINED ∧
            newLayout = VK_IMAGE_LAYOUT_TRANSFER_DST_OPTIMAL) ∨
          (oldLayout = VK_IMAGE_LAYOUT_TRANSFER_DST_OPTIMAL ∧
            newLayout = VK_IMAGE_LAYOUT_SHADER_READ_ONLY_OPTIMAL) ∨
          (oldLayout = VK_IMAGE_LAYOUT_TRANSFER_SRC_OPTIMAL ∧
            newLayout = VK_IMAGE_LAYOUT_PRESENT_SRC_KHR) ∨
          (oldLayout = VK_IMAGE_LAYOUT_PRESENT_SRC_KHR ∧
            newLayout = VK_IMAGE_LAYOUT_TRANSFER_SRC_OPTIMAL)) →
        (transitionImageLayout image format oldLayout newLayout mipLevels).2 =
            .error .UnsupportedLayoutTransition ∧
          (transitionImageLayout image format oldLayout newLayout mipLevels).1.any
            Command.isBarrier = false ∧
          (transitionImageLayout image format oldLayout newLayout mipLevels).1.any
            Command.isSubmit = false) ∧
    (∀ layout : VkImageLayout,
      transitionImageLayout image format layout layout mipLevels =
        ([.beginSingleTimeCommands], .error .UnsupportedLayoutTransition)) ∧
    transitionImageLayout image format VK_IMAGE_LAYOUT_TRANSFER_DST_OPTIMAL
        VK_IMAGE_LAYOUT_UNDEFINED mipLevels =
      ([.beginSingleTimeCommands], .error .UnsupportedLayoutTransition) ∧
    transitionImageLayout image format VK_IMAGE_LAYOUT_SHADER_READ_ONLY_OPTIMAL
        VK_IMAGE_LAYOUT_TRANSFER_DST_OPTIMAL mipLevels =
      ([.beginSingleTimeCommands], .error .UnsupportedLayoutTransition) := by
  refine ⟨?_, ?_, ?_, ?_⟩
  · intro oldLayout newLayout hpair
    rw [transitionImageLayout_else image format mipLevels oldLayout newLayout hpair]
    exact ⟨rfl, rfl, rfl⟩
  · intro layout
    apply transitionImageLayout_else
    intro h
    rcases h with ⟨h1, h2⟩ | ⟨h1, h2⟩ | ⟨h1, h2⟩ | ⟨h1, h2⟩ <;>
      rw [h1] at h2 <;> exact absurd h2 (by decide)
  · apply transitionImageLayout_else
    decide
  · apply transitionImageLayout_else
    decide

/-- Witness for C4: PRESENT_SRC → UNDEFINED is not a recognised pair, and the
transitioner fails on it without a barrier and without a submission. -/
theorem transitionImageLayout_unrecognized_pair_witness :
    ¬ ((VK_IMAGE_LAYOUT_PRESENT_SRC_KHR = VK_IMAGE_LAYOUT_UNDEFINED ∧
          VK_IMAGE_LAYOUT_UNDEFINED = VK_IMAGE_LAYOUT_TRANSFER_DST_OPTIMAL) ∨
        (VK_IMAGE_LAYOUT_PRESENT_SRC_KHR = VK_IMAGE_LAYOUT_TRANSFER_DST_OPTIMAL ∧
          VK_IMAGE_LAYOUT_UNDEFINED = VK_IMAGE_LAYOUT_SHADER_READ_ONLY_OPTIMAL) ∨
        (VK_IMAGE_LAYOUT_PRESENT_SRC_KHR = VK_IMAGE_LAYOUT_TRANSFER_SRC_OPTIMAL ∧
          VK_IMAGE_LAYOUT_UNDEFINED = VK_IMAGE_LAYOUT_PRESENT_SRC_KHR) ∨
        (VK_IMAGE_LAYOUT_PRESENT_SRC_KHR = VK_IMAGE_LAYOUT_PRESENT_SRC_KHR ∧
          VK_IMAGE_LAYOUT_UNDEFINED = VK_IMAGE_LAYOUT_TRANSFER_SRC_OPTIMAL)) ∧
      ((transitionImageLayout 1 43 VK_IMAGE_LAYOUT_PRESENT_SRC_KHR VK_IMAGE_LAYOUT_UNDEFINED
            9).2 = .error .UnsupportedLayoutTransition ∧
        (transitionImageLayout 1 43 VK_IMAGE_LAYOUT_PRESENT_SRC_KHR VK_IMAGE_LAYOUT_UNDEFINED
            9).1.any Command.isBarrier = false ∧
        (transitionImageLayout 1 43 VK_IMAGE_LAYOUT_PRESENT_SRC_KHR VK_IMAGE_LAYOUT_UNDEFINED
            9).1.any Command.isSubmit = false) :=
  ⟨by decide,
   (transitionImageLayout_unrecognized_pair 1 43 9).1 VK_IMAGE_LAYOUT_PRESENT_SRC_KHR
     VK_IMAGE_LAYOUT_UNDEFINED (by decide)⟩

/-! ## Mipmap generator: layouts -/

/-- Reading a list just past a front part gives the element that follows it. -/
theorem getElem?_append_cons_length {α : Type} (front : List α) (x : α) (back : List α) :
    (front ++ x :: back)[front.length]? = some x := by
  induction front with
  | nil => simp
  | cons a front ih => simpa using ih

/-- Reading a list one further than a front part gives the second element after it. -/
theorem getElem?_append_cons_succ {α : Type} (front : List α) (x y : α) (back : List α) :
    (front ++ x :: y :: back)[front.length + 1]? = some y := by
  induction front with
  | nil => simp
  | cons a front ih => simpa using ih

/-- Writing a list just past a front part replaces the element that follows it. -/
theorem set_append_cons_length {α : Type} (front : List α) (x y : α) (back : List α) :
    (front ++ x :: back).set front.length y = front ++ y :: back := by
  induction front with
  | nil => rfl
  | cons a front ih => simp [ih]

/-- A one-level barrier on a level that is in the named old layout moves that
level, and only that level, to the new layout. -/
theorem transitionLevels_one (oldLayout newLayout : VkImageLayout)
    (front : List VkImageLayout) (back : List VkImageLayout) (level : Nat)
    (hlevel : level = front.length) :
    transitionLevels oldLayout newLayout 1 level (front ++ oldLayout :: back) =
      some (front ++ newLayout :: back) := by
  subst hlevel
  unfold transitionLevels
  rw [if_pos (getElem?_append_cons_length front oldLayout back), set_append_cons_length]
  rfl

/-- Moving one copy of an element from the back part to the front part. -/
theorem replicate_succ_append {α : Type} (k : Nat) (a : α) (rest : List α) :
    List.replicate k a ++ a :: rest = List.replicate (k + 1) a ++ rest := by
  induction k with
  | zero => rfl
  | succ k ih =>
    simp only [List.replicate_succ, List.cons_append] at ih ⊢
    rw [ih]

/-- Loop invariant of `generateMipmaps`: entering the iteration for level
`k + 1` with levels below `k` in SHADER_READ_ONLY and the remaining levels in
TRANSFER_DST, every command of the remaining iterations names the layouts the
levels have, and the loop ends with all levels but the last in
SHADER_READ_ONLY and the last in TRANSFER_DST. -/
theorem trackLayouts_generateMipmapsLoop (image : Nat) :
    ∀ (remaining k : Nat) (mipWidth mipHeight : Int) (rest : List Command),
      trackLayouts (generateMipmapsLoop image remaining (k + 1) mipWidth mipHeight ++ rest)
          (List.replicate k VK_IMAGE_LAYOUT_SHADER_READ_ONLY_OPTIMAL ++
            List.replicate (remaining + 1) VK_IMAGE_LAYOUT_TRANSFER_DST_OPTIMAL) =
        trackLayouts rest
          (List.replicate (k + remaining) VK_IMAGE_LAYOUT_SHADER_READ_ONLY_OPTIMAL ++
            [VK_IMAGE_LAYOUT_TRANSFER_DST_OPTIMAL]) := by
  intro remaining
  induction remaining with
  | zero => intro k mipWidth mipHeight rest; simp [generateMipmapsLoop]
  | succ n ih =>
    intro k mipWidth mipHeight rest
    have hlen : k = (List.replicate k VK_IMAGE_LAYOUT_SHADER_READ_ONLY_OPTIMAL).length := by simp
    have hstep := ih (k + 1) (halveMip mipWidth) (halveMip mipHeight) rest
    simp only [generateMipmapsLoop, List.cons_append, trackLayouts, Nat.add_sub_cancel]
    simp only [List.replicate_succ]
    rw [transitionLevels_one _ _ _ _ _ hlen]
    simp only []
    have hsrc : (List.replicate k VK_IMAGE_LAYOUT_SHADER_READ_ONLY_OPTIMAL ++
        VK_IMAGE_LAYOUT_TRANSFER_SRC_OPTIMAL :: VK_IMAGE_LAYOUT_TRANSFER_DST_OPTIMAL ::
          List.replicate n VK_IMAGE_LAYOUT_TRANSFER_DST_OPTIMAL)[k]? =
        some VK_IMAGE_LAYOUT_TRANSFER_SRC_OPTIMAL := by
      have := getElem?_append_cons_length
        (List.replicate k VK_IMAGE_LAYOUT_SHADER_READ_ONLY_OPTIMAL)
        VK_IMAGE_LAYOUT_TRANSFER_SRC_OPTIMAL
        (VK_IMAGE_LAYOUT_TRANSFER_DST_OPTIMAL ::
          List.replicate n VK_IMAGE_LAYOUT_TRANSFER_DST_OPTIMAL)
      rwa [← hlen] at this
    have hdst : (List.replicate k VK_IMAGE_LAYOUT_SHADER_READ_ONLY_OPTIMAL ++
        VK_IMAGE_LAYOUT_TRANSFER_SRC_OPTIMAL :: VK_IMAGE_LAYOUT_TRANSFER_DST_OPTIMAL ::
          List.replicate n VK_IMAGE_LAYOUT_TRANSFER_DST_OPTIMAL)[k + 1]? =
        some VK_IMAGE_LAYOUT_TRANSFER_DST_OPTIMAL := by
      have := getElem?_append_cons_succ
        (List.replicate k VK_IMAGE_LAYOUT_SHADER_READ_ONLY_OPTIMAL)
        VK_IMAGE_LAYOUT_TRANSFER_SRC_OPTIMAL VK_IMAGE_LAYOUT_TRANSFER_DST_OPTIMAL
        (List.replicate n VK_IMAGE_LAYOUT_TRANSFER_DST_OPTIMAL)
      rwa [← hlen] at this
    rw [if_pos ⟨hsrc, hdst⟩, transitionLevels_one _ _ _ _ _ hlen]
    simp only []
    simp only [List.append_eq]
    rw [replicate_succ_append, ← List.replicate_succ, hstep, Nat.add_right_comm k 1 n,
      Nat.add_assoc k n 1]

/-- Claim C5: tracking one layout per mip level, for every mip count
`mipLevels ≥ 1` (a `uint32_t`) and an image whose `mipLevels` levels are all in
TRANSFER_DST, `generateMipmaps` returns normally, every barrier and blit it
records names as old, source and destination layout the layout the level has at
that point (the tracker does not stop), and afterwards every level is in
SHADER_READ_ONLY. -/
theorem generateMipmaps_all_levels_shader_read (optimalTilingFeatures image : Nat)
    (texWidth texHeight : Int) (mipLevels : Nat)
    (hlinear :
      optimalTilingFeatures &&& VK_FORMAT_FEATURE_SAMPLED_IMAGE_FILTER_LINEAR_BIT ≠ 0)
    (hlevels : 1 ≤ mipLevels) (hword : mipLevels < 2 ^ 32) :
    (generateMipmaps optimalTilingFeatures image texWidth texHeight mipLevels).2 = .ok () ∧
      trackLayouts (generateMipmaps optimalTilingFeatures image texWidth texHeight mipLevels).1
          (List.replicate mipLevels VK_IMAGE_LAYOUT_TRANSFER_DST_OPTIMAL) =
        some (List.replicate mipLevels VK_IMAGE_LAYOUT_SHADER_READ_ONLY_OPTIMAL) := by
  unfold generateMipmaps
  rw [if_neg hlinear]
  refine ⟨rfl, ?_⟩
  obtain ⟨n, rfl⟩ : ∃ n, mipLevels = n + 1 := ⟨mipLevels - 1, by omega⟩
  have hlast : (n + 1 + 2 ^ 32 - 1) % 2 ^ 32 = n := by omega
  have hloop := trackLayouts_generateMipmapsLoop image n 0 texWidth texHeight
    [ .vkCmdPipelineBarrier VK_PIPELINE_STAGE_TRANSFER_BIT VK_PIPELINE_STAGE_FRAGMENT_SHADER_BIT
        { srcAccessMask := VK_ACCESS_TRANSFER_WRITE_BIT,
          dstAccessMask := VK_ACCESS_SHADER_READ_BIT,
          oldLayout := VK_IMAGE_LAYOUT_TRANSFER_DST_OPTIMAL,
          newLayout := VK_IMAGE_LAYOUT_SHADER_READ_ONLY_OPTIMAL,
          image := image, baseMipLevel := n, levelCount := 1 },
      .endSingleTimeCommands ]
  simp only [List.replicate_zero, List.nil_append, Nat.zero_add] at hloop
  simp only [trackLayouts, Nat.add_sub_cancel, hlast, List.append_eq]
  rw [hloop]
  simp only [trackLayouts]
  rw [transitionLevels_one _ _ _ _ _ (by simp)]
  simp only [trackLayouts]
  rw [replicate_succ_append]
  simp

/-- Witness for C5: a 5x3 image with three levels, all in TRANSFER_DST (7),
ends with all three in SHADER_READ_ONLY (5); the same commands run against
levels in UNDEFINED are rejected by the tracker at the first barrier. -/
theorem generateMipmaps_all_levels_shader_read_witness :
    (0x1000 &&& VK_FORMAT_FEATURE_SAMPLED_IMAGE_FILTER_LINEAR_BIT ≠ 0 ∧ 1 ≤ 3 ∧ 3 < 2 ^ 32) ∧
      ((generateMipmaps 0x1000 7 5 3 3).2 = .ok () ∧
        trackLayouts (generateMipmaps 0x1000 7 5 3 3).1 [7, 7, 7] = some [5, 5, 5]) ∧
      trackLayouts (generateMipmaps 0x1000 7 5 3 3).1 [0, 0, 0] = none :=
  ⟨by decide,
   generateMipmaps_all_levels_shader_read 0x1000 7 5 3 3 (by decide) (by decide) (by decide),
   by decide⟩

/-! ## Mipmap generator: extents -/

/-- The end-of-iteration update of a clamped extent is the clamped half. -/
theorem halveMip_max (x : Int) (hx : 0 ≤ x) : halveMip (max 1 x) = max 1 (x / 2) := by
  unfold halveMip
  split <;> omega

/-- The destination extent computed from a clamped extent is the clamped half. -/
theorem blitDstExtent_max (x : Int) (hx : 0 ≤ x) : blitDstExtent (max 1 x) = max 1 (x / 2) := by
  unfold blitDstExtent
  split <;> omega

/-- Halving a non-negative quotient by a power of two gives the quotient by the
next power of two. -/
theorem ediv_two_pow_succ (x : Int) (hx : 0 ≤ x) (j : Nat) :
    x / 2 ^ j / 2 = x / 2 ^ (j + 1) := by
  lift x to ℕ using hx
  norm_cast
  rw [Nat.div_div_eq_div_mul, pow_succ]

/-- After `j` iterations the running extent is `max 1 (mip / 2 ^ j)`. -/
theorem halveMip_iterate (mip : Int) (hmip : 1 ≤ mip) (j : Nat) :
    halveMip^[j] mip = max 1 (mip / 2 ^ j) := by
  induction j with
  | zero => simp; omega
  | succ j ih =>
    have hpos : (0 : Int) ≤ mip / 2 ^ j := Int.ediv_nonneg (by omega) (by positivity)
    rw [Function.iterate_succ_apply', ih, halveMip_max _ hpos,
      ediv_two_pow_succ _ (by omega)]

/-- The blits of a concatenation are the blits of its parts. -/
theorem blitsOf_append (front back : List Command) :
    blitsOf (front ++ back) = blitsOf front ++ blitsOf back := by
  induction front with
  | nil => rfl
  | cons command front ih => cases command <;> simp [blitsOf, ih]

/-- The `j`-th blit of the loop entered at level `i`. -/
theorem blitsOf_generateMipmapsLoop (image : Nat) :
    ∀ (remaining i j : Nat) (mipWidth mipHeight : Int), j < remaining →
      (blitsOf (generateMipmapsLoop image remaining i mipWidth mipHeight))[j]? =
        some { srcMipLevel := i + j - 1,
               srcWidth := halveMip^[j] mipWidth, srcHeight := halveMip^[j] mipHeight,
               dstMipLevel := i + j,
               dstWidth := blitDstExtent (halveMip^[j] mipWidth),
               dstHeight := blitDstExtent (halveMip^[j] mipHeight) } := by
  intro remaining
  induction remaining with
  | zero => intro i j _ _ hj; omega
  | succ n ih =>
    intro i j mipWidth mipHeight hj
    cases j with
    | zero => simp [generateMipmapsLoop, blitsOf]
    | succ j =>
      simp only [generateMipmapsLoop, blitsOf, List.getElem?_cons_succ]
      rw [ih (i + 1) j (halveMip mipWidth) (halveMip mipHeight) (by omega)]
      simp only [Function.iterate_succ_apply]
      have h1 : i + 1 + j - 1 = i + (j + 1) - 1 := by omega
      have h2 : i + 1 + j = i + (j + 1) := by omega
      rw [h1, h2]

/-- The blits of `generateMipmaps` are those of its loop. -/
theorem blitsOf_generateMipmaps (optimalTilingFeatures image : Nat) (texWidth texHeight : Int)
    (mipLevels : Nat)
    (hlinear :
      optimalTilingFeatures &&& VK_FORMAT_FEATURE_SAMPLED_IMAGE_FILTER_LINEAR_BIT ≠ 0) :
    blitsOf (generateMipmaps optimalTilingFeatures image texWidth texHeight mipLevels).1 =
      blitsOf (generateMipmapsLoop image (mipLevels - 1) 1 texWidth texHeight) := by
  unfold generateMipmaps
  rw [if_neg hlinear]
  simp [blitsOf, blitsOf_append]

/-- Claim C6: for every texture size `texWidth, texHeight ≥ 1` and every `i`
with `1 ≤ i < mipLevels`, the blit recorded by iteration `i` of
`generateMipmaps` (the `(i - 1)`-th blit) reads level `i - 1` with source extent
`(max 1 (texWidth / 2 ^ (i - 1)), max 1 (texHeight / 2 ^ (i - 1)))` and writes
level `i` with destination extent
`(max 1 (texWidth / 2 ^ i), max 1 (texHeight / 2 ^ i))`, division rounding down;
all four extents are at least 1. -/
theorem generateMipmaps_blit_extents (optimalTilingFeatures image : Nat)
    (texWidth texHeight : Int) (mipLevels i : Nat)
    (hlinear :
      optimalTilingFeatures &&& VK_FORMAT_FEATURE_SAMPLED_IMAGE_FILTER_LINEAR_BIT ≠ 0)
    (hwidth : 1 ≤ texWidth) (hheight : 1 ≤ texHeight) (hi : 1 ≤ i) (hlevel : i < mipLevels) :
    (blitsOf (generateMipmaps optimalTilingFeatures image texWidth texHeight mipLevels).1)[i - 1]? =
        some { srcMipLevel := i - 1,
               srcWidth := max 1 (texWidth / 2 ^ (i - 1)),
               srcHeight := max 1 (texHeight / 2 ^ (i - 1)),
               dstMipLevel := i,
               dstWidth := max 1 (texWidth / 2 ^ i),
               dstHeight := max 1 (texHeight / 2 ^ i) } ∧
      1 ≤ max 1 (texWidth / 2 ^ (i - 1)) ∧ 1 ≤ max 1 (texHeight / 2 ^ (i - 1)) ∧
      1 ≤ max 1 (texWidth / 2 ^ i) ∧ 1 ≤ max 1 (texHeight / 2 ^ i) := by
  refine ⟨?_, le_max_left _ _, le_max_left _ _, le_max_left _ _, le_max_left _ _⟩
  obtain ⟨j, rfl⟩ : ∃ j, i = j + 1 := ⟨i - 1, by omega⟩
  have hw : (0 : Int) ≤ texWidth / 2 ^ j := Int.ediv_nonneg (by omega) (by positivity)
  have hh : (0 : Int) ≤ texHeight / 2 ^ j := Int.ediv_nonneg (by omega) (by positivity)
  rw [blitsOf_generateMipmaps _ _ _ _ _ hlinear, Nat.add_sub_cancel,
    blitsOf_generateMipmapsLoop image (mipLevels - 1) 1 j texWidth texHeight (by omega),
    halveMip_iterate _ hwidth, halveMip_iterate _ hheight,
    blitDstExtent_max _ hw, blitDstExtent_max _ hh,
    ediv_two_pow_succ _ (by omega), ediv_two_pow_succ _ (by omega), Nat.add_comm 1 j,
    Nat.add_sub_cancel]

/-- Witness for C6: for a 5x3 texture with four levels, iteration 3 blits level
2 at extent 1x1 (5 / 4 = 1, 3 / 4 = 0 clamped to 1) to level 3 at extent 1x1. -/
theorem generateMipmaps_blit_extents_witness :
    (0x1000 &&& VK_FORMAT_FEATURE_SAMPLED_IMAGE_FILTER_LINEAR_BIT ≠ 0 ∧
        (1 : Int) ≤ 5 ∧ (1 : Int) ≤ 3 ∧ 1 ≤ 3 ∧ 3 < 4) ∧
      (blitsOf (generateMipmaps 0x1000 7 5 3 4).1)[3 - 1]? =
        some { srcMipLevel := 3 - 1,
               srcWidth := max 1 ((5 : Int) / 2 ^ (3 - 1)),
               srcHeight := max 1 ((3 : Int) / 2 ^ (3 - 1)),
               dstMipLevel := 3,
               dstWidth := max 1 ((5 : Int) / 2 ^ 3),
               dstHeight := max 1 ((3 : Int) / 2 ^ 3) } ∧
      (blitsOf (generateMipmaps 0x1000 7 5 3 4).1)[2]? =
        some { srcMipLevel := 2, srcWidth := 1, srcHeight := 1,
               dstMipLevel := 3, dstWidth := 1, dstHeight := 1 } :=
  ⟨by decide,
   (generateMipmaps_blit_extents 0x1000 7 5 3 4 3 (by decide) (by decide) (by decide)
     (by decide) (by decide)).1,
   by decide⟩

/-! ## Mip count -/

/-- Two consecutive powers of two bracket a number for one exponent only. -/
theorem mipLevels_unique (m k L : Nat) (hlow : 2 ^ k ≤ m) (hhigh : m < 2 ^ (k + 1))
    (hLlow : 2 ^ (L - 1) ≤ m) (hLhigh : m < 2 ^ L) : L = k + 1 := by
  have h1 : 2 ^ k < 2 ^ L := lt_of_le_of_lt hlow hLhigh
  have h2 : 2 ^ (L - 1) < 2 ^ (k + 1) := lt_of_le_of_lt hLlow hhigh
  have h3 : k < L := (Nat.pow_lt_pow_iff_right (by norm_num)).mp h1
  have h4 : L - 1 < k + 1 := (Nat.pow_lt_pow_iff_right (by norm_num)).mp h2
  omega

/-- Claim C7: for every texture of width and height at least 1, the mip count
computed at load is `L = floor (log2 (max w h)) + 1`, it satisfies
`2 ^ (L - 1) ≤ max w h < 2 ^ L`, and it is the only number that does. -/
theorem computeMipLevels_floor_log2 (texWidth texHeight : Int)
    (hwidth : 1 ≤ texWidth) (hheight : 1 ≤ texHeight) :
    computeMipLevels texWidth texHeight = Nat.log 2 (max texWidth texHeight).toNat + 1 ∧
      (2 : Int) ^ (computeMipLevels texWidth texHeight - 1) ≤ max texWidth texHeight ∧
      max texWidth texHeight < (2 : Int) ^ computeMipLevels texWidth texHeight ∧
      ∀ L : Nat, (2 : Int) ^ (L - 1) ≤ max texWidth texHeight →
        max texWidth texHeight < (2 : Int) ^ L → L = computeMipLevels texWidth texHeight := by
  have hmax : 1 ≤ max texWidth texHeight := le_trans hwidth (le_max_left _ _)
  have hmax' : 1 ≤ max texWidth texHeight := le_trans hheight (le_max_right _ _)
  obtain ⟨m, hm⟩ : ∃ m : Nat, max texWidth texHeight = (m : Int) :=
    ⟨(max texWidth texHeight).toNat, (Int.toNat_of_nonneg (by omega)).symm⟩
  have hm0 : m ≠ 0 := by intro h; rw [h] at hm; omega
  have hlow : 2 ^ m.log2 ≤ m := Nat.log2_self_le hm0
  have hhigh : m < 2 ^ (m.log2 + 1) := Nat.lt_log2_self
  unfold computeMipLevels
  rw [hm, Int.toNat_ofNat, Nat.add_sub_cancel]
  refine ⟨by rw [Nat.log2_eq_log_two], by exact_mod_cast hlow, by exact_mod_cast hhigh, ?_⟩
  intro L hLlow hLhigh
  exact mipLevels_unique m m.log2 L hlow hhigh (by exact_mod_cast hLlow) (by exact_mod_cast hLhigh)

/-- Witness for C7: a 256x256 texture yields 9 mip levels, since
`2 ^ 8 ≤ 256 < 2 ^ 9`. -/
theorem computeMipLevels_floor_log2_witness :
    ((1 : Int) ≤ 256 ∧ (2 : Int) ^ (9 - 1) ≤ max 256 256 ∧ max (256 : Int) 256 < 2 ^ 9) ∧
      computeMipLevels 256 256 = 9 :=
  ⟨by decide,
   ((computeMipLevels_floor_log2 256 256 (by decide) (by decide)).2.2.2 9
     (by decide) (by decide)).symm⟩

/-! ## Frame scheduler -/

/-- What `recreateSwapChain` does to the modelled fields. -/
theorem recreateSwapChain_fields (MAX_FRAMES_IN_FLIGHT : Nat) (driver : FrameDriver)
    (engine : EngineState) :
    (recreateSwapChain MAX_FRAMES_IN_FLIGHT driver engine).1.m_CurrentFrameIdx =
        engine.m_CurrentFrameIdx ∧
      (recreateSwapChain MAX_FRAMES_IN_FLIGHT driver engine).1.m_FrameCounter =
        engine.m_FrameCounter ∧
      (recreateSwapChain MAX_FRAMES_IN_FLIGHT driver engine).1.m_Models = engine.m_Models ∧
      (recreateSwapChain MAX_FRAMES_IN_FLIGHT driver engine).1.m_FramebufferResized =
        (engine.m_FramebufferResized || driver.resizeWhileWaiting) ∧
      (recreateSwapChain MAX_FRAMES_IN_FLIGHT driver engine).1.m_CommandBuffers = 0 := by
  unfold recreateSwapChain
  cases driver.resizeWhileWaiting <;> cases driver.recreateSucceeds <;>
    simp [cleanupSwapChain, framebufferResizeCallback]

/-- Past a usable acquisition, an in-range slot, a recording that does not throw
and a successful submission, `drawFrame` continues with the presentation. -/
theorem drawFrame_after_submit (MAX_FRAMES_IN_FLIGHT : Nat) (driver : FrameDriver)
    (engine : EngineState)
    (hacquire : driver.acquireResult = VK_SUCCESS ∨ driver.acquireResult = VK_SUBOPTIMAL_KHR)
    (hring : engine.m_CurrentFrameIdx < engine.m_CommandBuffers)
    (hrecord : (recordCommandBuffers driver engine engine.m_CurrentFrameIdx
      driver.imageIndex).2 = none)
    (hsubmit : driver.submitResult = VK_SUCCESS) :
    drawFrame MAX_FRAMES_IN_FLIGHT driver engine =
      presentFrame MAX_FRAMES_IN_FLIGHT driver engine
        ([.vkWaitForFences engine.m_CurrentFrameIdx,
          .vkAcquireNextImageKHR engine.m_CurrentFrameIdx] ++
          [.vkResetFences engine.m_CurrentFrameIdx,
           .vkResetCommandBuffer engine.m_CurrentFrameIdx] ++
          (recordCommandBuffers driver engine engine.m_CurrentFrameIdx driver.imageIndex).1 ++
          writeUniformBuffers engine engine.m_Models 0 ++
          [.vkQueueSubmit engine.m_CurrentFrameIdx engine.m_CurrentFrameIdx
            engine.m_CurrentFrameIdx engine.m_CurrentFrameIdx]) := by
  have h1 : ¬ driver.acquireResult = VK_ERROR_OUT_OF_DATE_KHR := by
    rcases hacquire with h | h <;> rw [h] <;> decide
  have h2 : ¬ (driver.acquireResult ≠ VK_SUCCESS ∧ driver.acquireResult ≠ VK_SUBOPTIMAL_KHR) := by
    rcases hacquire with h | h <;> simp [h]
  unfold drawFrame
  simp only [if_neg h1, if_neg h2, not_lt, if_neg (not_le.mpr hring),
    hrecord, hsubmit, ne_eq, not_true_eq_false, if_false]

/-- Counting over a concatenation. -/
theorem countCalls_append (p : FrameCall → Bool) (front back : List FrameCall) :
    countCalls p (front ++ back) = countCalls p front + countCalls p back := by
  simp [countCalls]

/-- Nothing is counted when no call satisfies the test. -/
theorem countCalls_eq_zero (p : FrameCall → Bool) (calls : List FrameCall)
    (h : ∀ call ∈ calls, p call = false) : countCalls p calls = 0 := by
  simp only [countCalls, List.length_eq_zero, List.filter_eq_nil_iff]
  intro call hcall
  simp [h call hcall]

/-- The model loop of the recording never recreates the swapchain. -/
theorem recordModels_not_recreate (engine : EngineState) :
    ∀ (remaining j : Nat), ∀ call ∈ (recordModels engine remaining j).1,
      call.isRecreate = false := by
  intro remaining
  induction remaining with
  | zero => intro j call h; simp [recordModels] at h
  | succ n ih =>
    intro j call h
    unfold recordModels at h
    dsimp only at h
    split at h
    · simp at h
    · split at h
      · simp at h
      · simp only [List.mem_cons] at h
        rcases h with h | h
        · rw [h]; rfl
        · exact ih _ _ h

/-- The recording never recreates the swapchain. -/
theorem recordCommandBuffers_not_recreate (driver : FrameDriver) (engine : EngineState)
    (commandBuffer imageIndex : Nat) :
    ∀ call ∈ (recordCommandBuffers driver engine commandBuffer imageIndex).1,
      call.isRecreate = false := by
  intro call h
  unfold recordCommandBuffers at h
  dsimp only at h
  split at h
  · simp at h; rw [h]; rfl
  · split at h
    · simp only [List.mem_append, List.mem_cons, List.mem_singleton, List.not_mem_nil,
        or_false] at h
      rcases h with (h | h | h | h | h | h) | h
      all_goals first | (rw [h]; rfl) | exact recordModels_not_recreate _ _ _ _ h
    · split at h
      all_goals
        simp only [List.mem_append, List.mem_cons, List.mem_singleton, List.not_mem_nil,
          or_false] at h
        rcases h with ((h | h | h | h | h | h) | h) | h | h
        all_goals first | (rw [h]; rfl) | exact recordModels_not_recreate _ _ _ _ h

/-- The uniform-buffer copies never recreate the swapchain. -/
theorem writeUniformBuffers_not_recreate (engine : EngineState) :
    ∀ (remaining i : Nat), ∀ call ∈ writeUniformBuffers engine remaining i,
      call.isRecreate = false := by
  intro remaining
  induction remaining with
  | zero => intro i call h; simp [writeUniformBuffers] at h
  | succ n ih =>
    intro i call h
    simp only [writeUniformBuffers, List.mem_cons] at h
    rcases h with h | h
    · rw [h]; rfl
    · exact ih _ _ h

/-- Counting over a list with a first call. -/
theorem countCalls_cons (p : FrameCall → Bool) (call : FrameCall) (calls : List FrameCall) :
    countCalls p (call :: calls) = (if p call = true then 1 else 0) + countCalls p calls := by
  unfold countCalls
  rw [List.filter_cons]
  split <;> simp [Nat.add_comm]

/-- Nothing is counted in the empty list. -/
theorem countCalls_nil (p : FrameCall → Bool) : countCalls p [] = 0 := rfl

/-- No swapchain recreation precedes the presentation. -/
theorem countCalls_recreate_submitted (driver : FrameDriver) (engine : EngineState) :
    countCalls FrameCall.isRecreate
      ([.vkWaitForFences engine.m_CurrentFrameIdx,
          .vkAcquireNextImageKHR engine.m_CurrentFrameIdx] ++
          [.vkResetFences engine.m_CurrentFrameIdx,
           .vkResetCommandBuffer engine.m_CurrentFrameIdx] ++
          (recordCommandBuffers driver engine engine.m_CurrentFrameIdx driver.imageIndex).1 ++
          writeUniformBuffers engine engine.m_Models 0 ++
          [.vkQueueSubmit engine.m_CurrentFrameIdx engine.m_CurrentFrameIdx
            engine.m_CurrentFrameIdx engine.m_CurrentFrameIdx]) = 0 := by
  rw [countCalls_append, countCalls_append, countCalls_append, countCalls_append,
    countCalls_eq_zero _ _ (recordCommandBuffers_not_recreate _ _ _ _),
    countCalls_eq_zero _ _ (writeUniformBuffers_not_recreate _ _ _)]
  simp [countCalls_cons, countCalls_nil, FrameCall.isRecreate]

/-- What the end of `drawFrame` does, by cases on the presentation result and
the resize flag. -/
theorem presentFrame_spec (MAX_FRAMES_IN_FLIGHT : Nat) (driver : FrameDriver)
    (engine : EngineState) (submitted : List FrameCall)
    (hbefore : countCalls FrameCall.isRecreate submitted = 0) :
    ((driver.presentResult = VK_ERROR_OUT_OF_DATE_KHR ∨
        driver.presentResult = VK_SUBOPTIMAL_KHR ∨ engine.m_FramebufferResized = true) →
      countCalls FrameCall.isRecreate
          (presentFrame MAX_FRAMES_IN_FLIGHT driver engine submitted).calls = 1 ∧
        (presentFrame MAX_FRAMES_IN_FLIGHT driver engine submitted).engine.m_FramebufferResized =
          driver.resizeWhileWaiting) ∧
    (¬ (driver.presentResult = VK_ERROR_OUT_OF_DATE_KHR ∨
        driver.presentResult = VK_SUBOPTIMAL_KHR ∨ engine.m_FramebufferResized = true) →
      countCalls FrameCall.isRecreate
          (presentFrame MAX_FRAMES_IN_FLIGHT driver engine submitted).calls = 0 ∧
        (driver.presentResult ≠ VK_SUCCESS →
          (presentFrame MAX_FRAMES_IN_FLIGHT driver engine submitted).outcome =
            .fatal .PresentFailed)) ∧
    (∀ error, (presentFrame MAX_FRAMES_IN_FLIGHT driver engine submitted).outcome =
        .fatal error →
      (presentFrame MAX_FRAMES_IN_FLIGHT driver engine submitted).engine.m_CurrentFrameIdx =
          engine.m_CurrentFrameIdx ∧
        (presentFrame MAX_FRAMES_IN_FLIGHT driver engine submitted).engine.m_FrameCounter =
          engine.m_FrameCounter) ∧
    ((∀ error, (presentFrame MAX_FRAMES_IN_FLIGHT driver engine submitted).outcome ≠
        .fatal error) →
      (presentFrame MAX_FRAMES_IN_FLIGHT driver engine submitted).engine.m_CurrentFrameIdx =
          (engine.m_CurrentFrameIdx + 1) % MAX_FRAMES_IN_FLIGHT ∧
        (presentFrame MAX_FRAMES_IN_FLIGHT driver engine submitted).engine.m_FrameCounter =
          engine.m_FrameCounter + 1) := by
  have hpresent : ∀ a b, FrameCall.isRecreate (.vkQueuePresentKHR a b) = false := fun _ _ => rfl
  have hrecreate : FrameCall.isRecreate .recreateSwapChain = true := rfl
  unfold presentFrame
  by_cases hcond : driver.presentResult = VK_ERROR_OUT_OF_DATE_KHR ∨
      driver.presentResult = VK_SUBOPTIMAL_KHR ∨ engine.m_FramebufferResized = true
  · simp only [if_pos hcond]
    cases hre : driver.recreateSucceeds <;> cases hw : driver.resizeWhileWaiting <;>
      simp [recreateSwapChain, cleanupSwapChain, framebufferResizeCallback, advanceFrame, hre,
        hw, hcond, countCalls_append, hbefore, countCalls_cons, countCalls_nil, hpresent,
        hrecreate]
  · simp only [if_neg hcond]
    by_cases hp : driver.presentResult = VK_SUCCESS
    · simp only [hp, ne_eq, not_true_eq_false, if_false]
      rw [hp] at hcond
      simp [hcond, advanceFrame, countCalls_append, hbefore, countCalls_cons, countCalls_nil,
        hpresent]
    · simp [hp, hcond, countCalls_append, hbefore, countCalls_cons, countCalls_nil, hpresent]

/-- Counterexample to C10 as stated, at two inputs.  First: every call of the
frame succeeds and the presentation is suboptimal, so the flag is cleared and
the swapchain recreated; the window being minimised, the recreation waits in
`glfwWaitEvents`, the resize callback runs there, and the resize flag is true
when `drawFrame` returns.  Second: the resize flag is set and the presentation
fails with device-lost (-4), a result other than success, out-of-date and
suboptimal; the swapchain is recreated and `drawFrame` runs to its last
statement, so this result is not fatal. -/
theorem drawFrame_resize_flag_set_after_recreation :
    ((drawFrame 2 sampleMinimizedDriver sampleEngine).outcome = .completed ∧
      countCalls FrameCall.isSubmit (drawFrame 2 sampleMinimizedDriver sampleEngine).calls = 1 ∧
      countCalls FrameCall.isRecreate
        (drawFrame 2 sampleMinimizedDriver sampleEngine).calls = 1 ∧
      (drawFrame 2 sampleMinimizedDriver sampleEngine).engine.m_FramebufferResized = true) ∧
    ((sampleFrameDriver VK_SUCCESS (-4)).presentResult ≠ VK_SUCCESS ∧
      (sampleFrameDriver VK_SUCCESS (-4)).presentResult ≠ VK_ERROR_OUT_OF_DATE_KHR ∧
      (sampleFrameDriver VK_SUCCESS (-4)).presentResult ≠ VK_SUBOPTIMAL_KHR ∧
      countCalls FrameCall.isSubmit
        (drawFrame 2 (sampleFrameDriver VK_SUCCESS (-4))
          (framebufferResizeCallback sampleEngine)).calls = 1 ∧
      (drawFrame 2 (sampleFrameDriver VK_SUCCESS (-4))
        (framebufferResizeCallback sampleEngine)).outcome = .completed ∧
      (drawFrame 2 (sampleFrameDriver VK_SUCCESS (-4))
        (framebufferResizeCallback sampleEngine)).engine.m_FrameCounter = 1) := by
  decide

/-- Claim C10, amended: after a successful submit in `drawFrame` (usable
acquisition, slot within the command-buffer ring, recording without exception,
submit result success), the swapchain is recreated - exactly once - if the
present result is out-of-date or suboptimal or the resize flag is set; the flag
is cleared before the recreation starts, and afterwards it is set exactly when
the resize callback ran during the recreation's wait for a non-zero
framebuffer size.  Outside that case the swapchain is not recreated, and a
present result other than success is the fatal `PresentFailed`.  Every fatal
end leaves the slot and the frame counter as they were; every other end
advances the slot to `(slot + 1) % MAX_FRAMES_IN_FLIGHT` and increments the
counter.  An acquire result other than success, suboptimal or out-of-date is
the fatal `AcquireFailed`, with slot and counter as they were. -/
theorem drawFrame_present_and_fatal_results (MAX_FRAMES_IN_FLIGHT : Nat) (driver : FrameDriver)
    (engine : EngineState) :
    ((driver.acquireResult = VK_SUCCESS ∨ driver.acquireResult = VK_SUBOPTIMAL_KHR) →
      engine.m_CurrentFrameIdx < engine.m_CommandBuffers →
      (recordCommandBuffers driver engine engine.m_CurrentFrameIdx driver.imageIndex).2 = none →
      driver.submitResult = VK_SUCCESS →
        ((driver.presentResult = VK_ERROR_OUT_OF_DATE_KHR ∨
            driver.presentResult = VK_SUBOPTIMAL_KHR ∨ engine.m_FramebufferResized = true) →
          countCalls FrameCall.isRecreate
              (drawFrame MAX_FRAMES_IN_FLIGHT driver engine).calls = 1 ∧
            (drawFrame MAX_FRAMES_IN_FLIGHT driver engine).engine.m_FramebufferResized =
              driver.resizeWhileWaiting) ∧
        (¬ (driver.presentResult = VK_ERROR_OUT_OF_DATE_KHR ∨
            driver.presentResult = VK_SUBOPTIMAL_KHR ∨ engine.m_FramebufferResized = true) →
          countCalls FrameCall.isRecreate
              (drawFrame MAX_FRAMES_IN_FLIGHT driver engine).calls = 0 ∧
            (driver.presentResult ≠ VK_SUCCESS →
              (drawFrame MAX_FRAMES_IN_FLIGHT driver engine).outcome = .fatal .PresentFailed)) ∧
        (∀ error, (drawFrame MAX_FRAMES_IN_FLIGHT driver engine).outcome = .fatal error →
          (drawFrame MAX_FRAMES_IN_FLIGHT driver engine).engine.m_CurrentFrameIdx =
              engine.m_CurrentFrameIdx ∧
            (drawFrame MAX_FRAMES_IN_FLIGHT driver engine).engine.m_FrameCounter =
              engine.m_FrameCounter) ∧
        ((∀ error, (drawFrame MAX_FRAMES_IN_FLIGHT driver engine).outcome ≠ .fatal error) →
          (drawFrame MAX_FRAMES_IN_FLIGHT driver engine).engine.m_CurrentFrameIdx =
              (engine.m_CurrentFrameIdx + 1) % MAX_FRAMES_IN_FLIGHT ∧
            (drawFrame MAX_FRAMES_IN_FLIGHT driver engine).engine.m_FrameCounter =
              engine.m_FrameCounter + 1)) ∧
    (driver.acquireResult ≠ VK_SUCCESS → driver.acquireResult ≠ VK_SUBOPTIMAL_KHR →
      driver.acquireResult ≠ VK_ERROR_OUT_OF_DATE_KHR →
        (drawFrame MAX_FRAMES_IN_FLIGHT driver engine).outcome = .fatal .AcquireFailed ∧
          (drawFrame MAX_FRAMES_IN_FLIGHT driver engine).engine.m_CurrentFrameIdx =
            engine.m_CurrentFrameIdx ∧
          (drawFrame MAX_FRAMES_IN_FLIGHT driver engine).engine.m_FrameCounter =
            engine.m_FrameCounter) := by
  constructor
  · intro hacquire hring hrecord hsubmit
    rw [drawFrame_after_submit _ _ _ hacquire hring hrecord hsubmit]
    exact presentFrame_spec _ _ _ _ (countCalls_recreate_submitted driver engine)
  · intro h1 h2 h3
    unfold drawFrame
    simp only [if_neg h3, if_pos (And.intro h1 h2), and_self]

/-- Witness for C10 as amended: a suboptimal presentation on the engine as
started triggers one recreation, leaves the flag clear when no resize arrives
during the recreation, and still advances to slot 1 and counter 1; an
acquisition failing with device-lost (-4) is fatal and advances nothing. -/
theorem drawFrame_present_and_fatal_results_witness :
    (countCalls FrameCall.isRecreate
          (drawFrame 2 (sampleFrameDriver VK_SUCCESS VK_SUBOPTIMAL_KHR) sampleEngine).calls = 1 ∧
        (drawFrame 2 (sampleFrameDriver VK_SUCCESS VK_SUBOPTIMAL_KHR)
          sampleEngine).engine.m_FramebufferResized = false) ∧
      ((drawFrame 2 (sampleFrameDriver VK_SUCCESS VK_SUBOPTIMAL_KHR)
          sampleEngine).engine.m_CurrentFrameIdx = (0 + 1) % 2 ∧
        (drawFrame 2 (sampleFrameDriver VK_SUCCESS VK_SUBOPTIMAL_KHR)
          sampleEngine).engine.m_FrameCounter = 0 + 1) ∧
      ((drawFrame 2 (sampleFrameDriver (-4) VK_SUCCESS) sampleEngine).outcome =
          .fatal .AcquireFailed ∧
        (drawFrame 2 (sampleFrameDriver (-4) VK_SUCCESS) sampleEngine).engine.m_CurrentFrameIdx =
          0 ∧
        (drawFrame 2 (sampleFrameDriver (-4) VK_SUCCESS) sampleEngine).engine.m_FrameCounter =
          0) :=
  ⟨((drawFrame_present_and_fatal_results 2 (sampleFrameDriver VK_SUCCESS VK_SUBOPTIMAL_KHR)
      sampleEngine).1 (Or.inl rfl) (by decide) (by decide) rfl).1 (Or.inr (Or.inl rfl)),
   ((drawFrame_present_and_fatal_results 2 (sampleFrameDriver VK_SUCCESS VK_SUBOPTIMAL_KHR)
      sampleEngine).1 (Or.inl rfl) (by decide) (by decide) rfl).2.2.2
      (fun error h => by
        rw [show (drawFrame 2 (sampleFrameDriver VK_SUCCESS VK_SUBOPTIMAL_KHR)
          sampleEngine).outcome = FrameOutcome.completed by decide] at h
        cases h),
   (drawFrame_present_and_fatal_results 2 (sampleFrameDriver (-4) VK_SUCCESS)
      sampleEngine).2 (by decide) (by decide) (by decide)⟩

/-- The uniform-buffer writes of a concatenation. -/
theorem uniformWrites_append (front back : List FrameCall) :
    uniformWrites (front ++ back) = uniformWrites front ++ uniformWrites back := by
  induction front with
  | nil => rfl
  | cons call front ih => cases call <;> simp [uniformWrites, ih]

/-- The model loop of the recording writes no uniform buffer. -/
theorem uniformWrites_recordModels (engine : EngineState) :
    ∀ (remaining j : Nat), uniformWrites (recordModels engine remaining j).1 = [] := by
  intro remaining
  induction remaining with
  | zero => intro j; rfl
  | succ n ih =>
    intro j
    unfold recordModels
    dsimp only
    split
    · rfl
    · split
      · rfl
      · simp [uniformWrites, ih]

/-- The recording writes no uniform buffer. -/
theorem uniformWrites_recordCommandBuffers (driver : FrameDriver) (engine : EngineState)
    (commandBuffer imageIndex : Nat) :
    uniformWrites (recordCommandBuffers driver engine commandBuffer imageIndex).1 = [] := by
  unfold recordCommandBuffers
  dsimp only
  split
  · rfl
  · split
    · simp [uniformWrites_append, uniformWrites, uniformWrites_recordModels]
    · split <;> simp [uniformWrites_append, uniformWrites, uniformWrites_recordModels]

/-- The copy loop writes buffer `slot * M + m` for each model `m` it visits. -/
theorem uniformWrites_writeUniformBuffers (engine : EngineState) :
    ∀ (remaining i : Nat),
      uniformWrites (writeUniformBuffers engine remaining i) =
        (List.range' i remaining).map
          (fun m => engine.m_CurrentFrameIdx * engine.m_Models + m) := by
  intro remaining
  induction remaining with
  | zero => intro i; rfl
  | succ n ih =>
    intro i
    simp [writeUniformBuffers, getCurrentFrameIdx, uniformWrites, ih, List.range'_succ]

/-- The model loop does not throw when every descriptor set it reads exists and
is not the null handle. -/
theorem recordModels_succeeds (engine : EngineState) :
    ∀ (remaining j : Nat),
      (∀ t, j ≤ t → t < j + remaining →
        ∃ handle, engine.m_DescriptorSets[engine.m_CurrentFrameIdx * engine.m_Models + t]? =
          some handle ∧ handle ≠ 0) →
      (recordModels engine remaining j).2 = none := by
  intro remaining
  induction remaining with
  | zero => intro j _; rfl
  | succ n ih =>
    intro j hsets
    obtain ⟨handle, hget, hne⟩ := hsets j (le_refl _) (by omega)
    unfold recordModels
    dsimp only
    rw [hget]
    simp only [if_neg hne]
    exact ih (j + 1) (fun t h1 h2 => hsets t (by omega) (by omega))

/-- The recording does not throw when begin and end succeed and the descriptor
sets of the current slot are valid. -/
theorem recordCommandBuffers_succeeds (driver : FrameDriver) (engine : EngineState)
    (commandBuffer imageIndex : Nat)
    (hbegin : driver.beginCommandBufferResult = VK_SUCCESS)
    (hend : driver.endCommandBufferResult = VK_SUCCESS)
    (hsets : ∀ t, t < engine.m_Models →
        ∃ handle, engine.m_DescriptorSets[engine.m_CurrentFrameIdx * engine.m_Models + t]? =
          some handle ∧ handle ≠ 0) :
    (recordCommandBuffers driver engine commandBuffer imageIndex).2 = none := by
  have hmodels := recordModels_succeeds engine engine.m_Models 0
    (fun t _ h => hsets t (by omega))
  unfold recordCommandBuffers
  simp [hbegin, hend, hmodels]

/-- An index built from a slot and a model is within the `F * M` ring. -/
theorem slot_index_lt (F M s t : Nat) (hs : s < F) (ht : t < M) : s * M + t < F * M := by
  calc s * M + t < s * M + M := by omega
    _ = (s + 1) * M := by ring
    _ ≤ F * M := Nat.mul_le_mul_right M hs

/-- One iteration in which every call succeeds and nothing asks for a resize
advances the engine and writes the uniform buffers of the current slot. -/
theorem mainLoopIteration_success (MAX_FRAMES_IN_FLIGHT : Nat) (driver : FrameDriver)
    (engine : EngineState)
    (hflag : engine.m_FramebufferResized = false)
    (hring : engine.m_CommandBuffers = MAX_FRAMES_IN_FLIGHT)
    (hslot : engine.m_CurrentFrameIdx < MAX_FRAMES_IN_FLIGHT)
    (hsets : ∀ k, k < MAX_FRAMES_IN_FLIGHT * engine.m_Models →
      ∃ handle, engine.m_DescriptorSets[k]? = some handle ∧ handle ≠ 0)
    (hresize : driver.resizeEvent = false)
    (hacquire : driver.acquireResult = VK_SUCCESS ∨ driver.acquireResult = VK_SUBOPTIMAL_KHR)
    (hbegin : driver.beginCommandBufferResult = VK_SUCCESS)
    (hend : driver.endCommandBufferResult = VK_SUCCESS)
    (hsubmit : driver.submitResult = VK_SUCCESS)
    (hpresent : driver.presentResult = VK_SUCCESS) :
    (mainLoopIteration MAX_FRAMES_IN_FLIGHT driver engine).engine =
        advanceFrame MAX_FRAMES_IN_FLIGHT engine ∧
      (mainLoopIteration MAX_FRAMES_IN_FLIGHT driver engine).outcome = .completed ∧
      uniformWrites (mainLoopIteration MAX_FRAMES_IN_FLIGHT driver engine).calls =
        (List.range engine.m_Models).map
          (fun m => engine.m_CurrentFrameIdx * engine.m_Models + m) := by
  have hrecord := recordCommandBuffers_succeeds driver engine engine.m_CurrentFrameIdx
    driver.imageIndex hbegin hend
    (fun t ht => hsets _ (slot_index_lt _ _ _ _ hslot ht))
  have hcond : ¬ (driver.presentResult = VK_ERROR_OUT_OF_DATE_KHR ∨
      driver.presentResult = VK_SUBOPTIMAL_KHR ∨ engine.m_FramebufferResized = true) := by
    rw [hpresent, hflag]; decide
  unfold mainLoopIteration
  simp only [hresize, Bool.false_eq_true, if_false]
  rw [drawFrame_after_submit _ _ _ hacquire (by omega) hrecord hsubmit]
  unfold presentFrame
  dsimp only
  rw [if_neg hcond, if_neg (by simp [hpresent])]
  simp [uniformWrites_append, uniformWrites, uniformWrites_recordCommandBuffers,
    uniformWrites_writeUniformBuffers, List.range_eq_range']

/-- A run of iterations in which every call succeeds and nothing asks for a
resize: every `drawFrame` runs to its last statement. -/
theorem mainLoop_success_run (MAX_FRAMES_IN_FLIGHT : Nat) (hframes : 0 < MAX_FRAMES_IN_FLIGHT) :
    ∀ (drivers : List FrameDriver) (engine : EngineState),
      engine.m_FramebufferResized = false →
      engine.m_CommandBuffers = MAX_FRAMES_IN_FLIGHT →
      engine.m_CurrentFrameIdx < MAX_FRAMES_IN_FLIGHT →
      (∀ k, k < MAX_FRAMES_IN_FLIGHT * engine.m_Models →
        ∃ handle, engine.m_DescriptorSets[k]? = some handle ∧ handle ≠ 0) →
      (∀ driver ∈ drivers,
        driver.resizeEvent = false ∧
        (driver.acquireResult = VK_SUCCESS ∨ driver.acquireResult = VK_SUBOPTIMAL_KHR) ∧
        driver.beginCommandBufferResult = VK_SUCCESS ∧
        driver.endCommandBufferResult = VK_SUCCESS ∧
        driver.submitResult = VK_SUCCESS ∧ driver.presentResult = VK_SUCCESS) →
      ∀ result ∈ mainLoop MAX_FRAMES_IN_FLIGHT drivers engine, result.outcome = .completed := by
  intro drivers
  induction drivers with
  | nil => intro engine _ _ _ _ _ result hresult; simp [mainLoop] at hresult
  | cons driver drivers ih =>
    intro engine hflag hring hslot hsets hgood
    obtain ⟨hresize, hacquire, hbegin, hend, hsubmit, hpresent⟩ :=
      hgood driver (List.mem_cons_self _ _)
    obtain ⟨hengine, houtcome, _⟩ := mainLoopIteration_success MAX_FRAMES_IN_FLIGHT driver
      engine hflag hring hslot hsets hresize hacquire hbegin hend hsubmit hpresent
    have hloop : mainLoop MAX_FRAMES_IN_FLIGHT (driver :: drivers) engine =
        mainLoopIteration MAX_FRAMES_IN_FLIGHT driver engine ::
          mainLoop MAX_FRAMES_IN_FLIGHT drivers (advanceFrame MAX_FRAMES_IN_FLIGHT engine) := by
      simp only [mainLoop, houtcome, hengine]
    rw [hloop]
    intro result hresult
    rcases List.mem_cons.mp hresult with h | h
    · rw [h]; exact houtcome
    · exact ih (advanceFrame MAX_FRAMES_IN_FLIGHT engine) hflag hring (Nat.mod_lt _ hframes)
        hsets (fun d hd => hgood d (List.mem_cons_of_mem _ hd)) result h

/-- The facts about a `presentFrame` result that do not depend on the branch taken. -/
theorem presentFrame_completed (MAX_FRAMES_IN_FLIGHT : Nat) (driver : FrameDriver)
    (engine : EngineState) (submitted : List FrameCall)
    (hcompleted : (presentFrame MAX_FRAMES_IN_FLIGHT driver engine submitted).outcome =
      .completed) :
    (presentFrame MAX_FRAMES_IN_FLIGHT driver engine submitted).engine.m_CurrentFrameIdx =
        (engine.m_CurrentFrameIdx + 1) % MAX_FRAMES_IN_FLIGHT ∧
      (presentFrame MAX_FRAMES_IN_FLIGHT driver engine submitted).engine.m_FrameCounter =
        engine.m_FrameCounter + 1 ∧
      (presentFrame MAX_FRAMES_IN_FLIGHT driver engine submitted).engine.m_Models =
        engine.m_Models ∧
      uniformWrites (presentFrame MAX_FRAMES_IN_FLIGHT driver engine submitted).calls =
        uniformWrites submitted := by
  unfold presentFrame at hcompleted ⊢
  dsimp only at hcompleted ⊢
  by_cases hcond : driver.presentResult = VK_ERROR_OUT_OF_DATE_KHR ∨
      driver.presentResult = VK_SUBOPTIMAL_KHR ∨ engine.m_FramebufferResized = true
  · rw [if_pos hcond] at hcompleted ⊢
    cases hre : driver.recreateSucceeds <;> cases hw : driver.resizeWhileWaiting <;>
      simp [recreateSwapChain, cleanupSwapChain, framebufferResizeCallback, advanceFrame, hre,
        hw, uniformWrites_append, uniformWrites] at hcompleted ⊢
  · rw [if_neg hcond] at hcompleted ⊢
    by_cases hp : driver.presentResult = VK_SUCCESS <;>
      simp [hp, advanceFrame, uniformWrites_append, uniformWrites] at hcompleted ⊢

/-- A `drawFrame` that runs to its last statement got a usable image, found its
command buffer, recorded without exception and submitted successfully. -/
theorem drawFrame_completed_conditions (MAX_FRAMES_IN_FLIGHT : Nat) (driver : FrameDriver)
    (engine : EngineState)
    (hcompleted : (drawFrame MAX_FRAMES_IN_FLIGHT driver engine).outcome = .completed) :
    (driver.acquireResult = VK_SUCCESS ∨ driver.acquireResult = VK_SUBOPTIMAL_KHR) ∧
      engine.m_CurrentFrameIdx < engine.m_CommandBuffers ∧
      (recordCommandBuffers driver engine engine.m_CurrentFrameIdx driver.imageIndex).2 = none ∧
      driver.submitResult = VK_SUCCESS := by
  unfold drawFrame at hcompleted
  dsimp only at hcompleted
  by_cases h1 : driver.acquireResult = VK_ERROR_OUT_OF_DATE_KHR
  · rw [if_pos h1] at hcompleted
    split at hcompleted <;> cases hcompleted
  · rw [if_neg h1] at hcompleted
    by_cases h2 : driver.acquireResult ≠ VK_SUCCESS ∧ driver.acquireResult ≠ VK_SUBOPTIMAL_KHR
    · rw [if_pos h2] at hcompleted; cases hcompleted
    · rw [if_neg h2] at hcompleted
      by_cases h3 : ¬ engine.m_CurrentFrameIdx < engine.m_CommandBuffers
      · rw [if_pos h3] at hcompleted; cases hcompleted
      · rw [if_neg h3] at hcompleted
        cases h4 : (recordCommandBuffers driver engine engine.m_CurrentFrameIdx
            driver.imageIndex).2 with
        | some error => simp only [h4] at hcompleted; cases hcompleted
        | none =>
          simp only [h4] at hcompleted
          by_cases h5 : driver.submitResult ≠ VK_SUCCESS
          · rw [if_pos h5] at hcompleted; cases hcompleted
          · refine ⟨?_, not_not.mp h3, rfl, not_not.mp h5⟩
            by_cases h6 : driver.acquireResult = VK_SUCCESS
            · exact Or.inl h6
            · exact Or.inr (not_not.mp (fun h7 => h2 ⟨h6, h7⟩))

/-- A `drawFrame` that runs to its last statement has advanced the slot and the
counter and has written the uniform buffers of the slot it started in. -/
theorem drawFrame_completed (MAX_FRAMES_IN_FLIGHT : Nat) (driver : FrameDriver)
    (engine : EngineState)
    (hcompleted : (drawFrame MAX_FRAMES_IN_FLIGHT driver engine).outcome = .completed) :
    (drawFrame MAX_FRAMES_IN_FLIGHT driver engine).engine.m_CurrentFrameIdx =
        (engine.m_CurrentFrameIdx + 1) % MAX_FRAMES_IN_FLIGHT ∧
      (drawFrame MAX_FRAMES_IN_FLIGHT driver engine).engine.m_FrameCounter =
        engine.m_FrameCounter + 1 ∧
      (drawFrame MAX_FRAMES_IN_FLIGHT driver engine).engine.m_Models = engine.m_Models ∧
      uniformWrites (drawFrame MAX_FRAMES_IN_FLIGHT driver engine).calls =
        (List.range engine.m_Models).map
          (fun m => engine.m_CurrentFrameIdx * engine.m_Models + m) := by
  obtain ⟨hacquire, hring, hrecord, hsubmit⟩ :=
    drawFrame_completed_conditions MAX_FRAMES_IN_FLIGHT driver engine hcompleted
  rw [drawFrame_after_submit _ _ _ hacquire hring hrecord hsubmit] at hcompleted ⊢
  obtain ⟨h1, h2, h3, h4⟩ := presentFrame_completed _ _ _ _ hcompleted
  refine ⟨h1, h2, h3, ?_⟩
  rw [h4]
  simp [uniformWrites_append, uniformWrites, uniformWrites_recordCommandBuffers,
    uniformWrites_writeUniformBuffers, List.range_eq_range']

/-- One iteration of the main loop that runs `drawFrame` to its last statement. -/
theorem mainLoopIteration_completed (MAX_FRAMES_IN_FLIGHT : Nat) (driver : FrameDriver)
    (engine : EngineState)
    (hcompleted : (mainLoopIteration MAX_FRAMES_IN_FLIGHT driver engine).outcome = .completed) :
    (mainLoopIteration MAX_FRAMES_IN_FLIGHT driver engine).engine.m_CurrentFrameIdx =
        (engine.m_CurrentFrameIdx + 1) % MAX_FRAMES_IN_FLIGHT ∧
      (mainLoopIteration MAX_FRAMES_IN_FLIGHT driver engine).engine.m_FrameCounter =
        engine.m_FrameCounter + 1 ∧
      (mainLoopIteration MAX_FRAMES_IN_FLIGHT driver engine).engine.m_Models =
        engine.m_Models ∧
      uniformWrites (mainLoopIteration MAX_FRAMES_IN_FLIGHT driver engine).calls =
        (List.range engine.m_Models).map
          (fun m => engine.m_CurrentFrameIdx * engine.m_Models + m) := by
  unfold mainLoopIteration at hcompleted ⊢
  cases hresize : driver.resizeEvent
  · simp only [hresize, Bool.false_eq_true, if_false] at hcompleted ⊢
    exact drawFrame_completed _ _ _ hcompleted
  · simp only [hresize, if_true] at hcompleted ⊢
    exact drawFrame_completed _ _ (framebufferResizeCallback engine) hcompleted

/-- A run of the main loop in which every `drawFrame` runs to its last
statement, from any engine whose slot is in range. -/
theorem mainLoop_completed_run (MAX_FRAMES_IN_FLIGHT : Nat) (hframes : 0 < MAX_FRAMES_IN_FLIGHT) :
    ∀ (drivers : List FrameDriver) (engine : EngineState),
      engine.m_CurrentFrameIdx < MAX_FRAMES_IN_FLIGHT →
      (∀ result ∈ mainLoop MAX_FRAMES_IN_FLIGHT drivers engine, result.outcome = .completed) →
      (mainLoop MAX_FRAMES_IN_FLIGHT drivers engine).length = drivers.length ∧
      (engineAfter engine (mainLoop MAX_FRAMES_IN_FLIGHT drivers engine)).m_FrameCounter =
        engine.m_FrameCounter + drivers.length ∧
      (engineAfter engine (mainLoop MAX_FRAMES_IN_FLIGHT drivers engine)).m_CurrentFrameIdx =
        (engine.m_CurrentFrameIdx + drivers.length) % MAX_FRAMES_IN_FLIGHT ∧
      ∀ k, k < drivers.length →
        ∃ result, (mainLoop MAX_FRAMES_IN_FLIGHT drivers engine)[k]? = some result ∧
          uniformWrites result.calls =
            (List.range engine.m_Models).map
              (fun m => ((engine.m_CurrentFrameIdx + k) % MAX_FRAMES_IN_FLIGHT) *
                engine.m_Models + m) := by
  intro drivers
  induction drivers with
  | nil =>
    intro engine hslot _
    refine ⟨rfl, rfl, ?_, fun k hk => absurd hk (by simp)⟩
    simp [mainLoop, engineAfter, Nat.mod_eq_of_lt hslot]
  | cons driver drivers ih =>
    intro engine hslot hall
    have hhead : (mainLoopIteration MAX_FRAMES_IN_FLIGHT driver engine).outcome =
        .completed := by
      apply hall
      unfold mainLoop
      dsimp only
      split <;> simp
    obtain ⟨hidx, hcounter, hmodels, hwrites⟩ :=
      mainLoopIteration_completed MAX_FRAMES_IN_FLIGHT driver engine hhead
    have hloop : mainLoop MAX_FRAMES_IN_FLIGHT (driver :: drivers) engine =
        mainLoopIteration MAX_FRAMES_IN_FLIGHT driver engine ::
          mainLoop MAX_FRAMES_IN_FLIGHT drivers
            (mainLoopIteration MAX_FRAMES_IN_FLIGHT driver engine).engine := by
      simp only [mainLoop, hhead]
    rw [hloop] at hall ⊢
    obtain ⟨hlen, hcounter', hidx', hframes'⟩ :=
      ih (mainLoopIteration MAX_FRAMES_IN_FLIGHT driver engine).engine
        (by rw [hidx]; exact Nat.mod_lt _ hframes)
        (fun result hresult => hall result (List.mem_cons_of_mem _ hresult))
    refine ⟨by simp [hlen], ?_, ?_, ?_⟩
    · simp only [engineAfter]
      rw [hcounter', hcounter]; simp only [List.length_cons]; omega
    · simp only [engineAfter]
      rw [hidx', hidx]
      simp only [List.length_cons]
      rw [Nat.mod_add_mod, Nat.add_assoc, Nat.add_comm 1]
    · intro k hk
      cases k with
      | zero =>
        refine ⟨mainLoopIteration MAX_FRAMES_IN_FLIGHT driver engine, by simp, ?_⟩
        rw [hwrites, Nat.add_zero, Nat.mod_eq_of_lt hslot]
      | succ k =>
        obtain ⟨result, hget, hresult⟩ := hframes' k (by simpa using hk)
        refine ⟨result, by simpa using hget, ?_⟩
        rw [hresult, hmodels, hidx, Nat.mod_add_mod, Nat.add_assoc, Nat.add_comm 1]

/-- Claim C8: with `F > 0` frames in flight and `M` models, start from the
engine as initialised (slot 0, frame counter 0) and run `n` iterations of the
main loop.  When every driver call of these iterations succeeds, no resize is
pending and the descriptor sets are valid, every `drawFrame` runs to its last
statement; and whenever every `drawFrame` runs to its last statement, the
frame counter is `n`, the current slot is `n % F`, and the `k`-th frame (from
0) wrote exactly the uniform buffers `(k % F) * M + m` for `m = 0, ..., M - 1`,
in that order. -/
theorem mainLoop_counter_slot_and_writes (MAX_FRAMES_IN_FLIGHT numModels : Nat)
    (allocatedDescriptorSet : Nat → Nat) (drivers : List FrameDriver)
    (hframes : 0 < MAX_FRAMES_IN_FLIGHT) :
    ((∀ k, k < MAX_FRAMES_IN_FLIGHT * numModels → allocatedDescriptorSet k ≠ 0) →
      (∀ driver ∈ drivers,
        driver.resizeEvent = false ∧
        (driver.acquireResult = VK_SUCCESS ∨ driver.acquireResult = VK_SUBOPTIMAL_KHR) ∧
        driver.beginCommandBufferResult = VK_SUCCESS ∧
        driver.endCommandBufferResult = VK_SUCCESS ∧
        driver.submitResult = VK_SUCCESS ∧ driver.presentResult = VK_SUCCESS) →
      ∀ result ∈ mainLoop MAX_FRAMES_IN_FLIGHT drivers
          (initialEngine MAX_FRAMES_IN_FLIGHT numModels allocatedDescriptorSet),
        result.outcome = .completed) ∧
    ((∀ result ∈ mainLoop MAX_FRAMES_IN_FLIGHT drivers
          (initialEngine MAX_FRAMES_IN_FLIGHT numModels allocatedDescriptorSet),
        result.outcome = .completed) →
      (mainLoop MAX_FRAMES_IN_FLIGHT drivers
          (initialEngine MAX_FRAMES_IN_FLIGHT numModels allocatedDescriptorSet)).length =
        drivers.length ∧
      (engineAfter (initialEngine MAX_FRAMES_IN_FLIGHT numModels allocatedDescriptorSet)
          (mainLoop MAX_FRAMES_IN_FLIGHT drivers
            (initialEngine MAX_FRAMES_IN_FLIGHT numModels
              allocatedDescriptorSet))).m_FrameCounter = drivers.length ∧
      (engineAfter (initialEngine MAX_FRAMES_IN_FLIGHT numModels allocatedDescriptorSet)
          (mainLoop MAX_FRAMES_IN_FLIGHT drivers
            (initialEngine MAX_FRAMES_IN_FLIGHT numModels
              allocatedDescriptorSet))).m_CurrentFrameIdx =
        drivers.length % MAX_FRAMES_IN_FLIGHT ∧
      ∀ k, k < drivers.length →
        ∃ result,
          (mainLoop MAX_FRAMES_IN_FLIGHT drivers
            (initialEngine MAX_FRAMES_IN_FLIGHT numModels allocatedDescriptorSet))[k]? =
              some result ∧
          uniformWrites result.calls =
            (List.range numModels).map
              (fun m => (k % MAX_FRAMES_IN_FLIGHT) * numModels + m)) := by
  constructor
  · intro hsets hgood
    exact mainLoop_success_run MAX_FRAMES_IN_FLIGHT hframes drivers
      (initialEngine MAX_FRAMES_IN_FLIGHT numModels allocatedDescriptorSet) rfl rfl hframes
      (by
        intro k hk
        refine ⟨allocatedDescriptorSet k, ?_, hsets k hk⟩
        simp only [initialEngine] at hk ⊢
        simp [hk])
      hgood
  · intro hall
    have hrun := mainLoop_completed_run MAX_FRAMES_IN_FLIGHT hframes drivers
      (initialEngine MAX_FRAMES_IN_FLIGHT numModels allocatedDescriptorSet) hframes hall
    simpa [initialEngine] using hrun

/-- Witness for C8: with two frames in flight and two models, one successful
frame leaves counter 1, slot 1 and writes buffers 0 and 1; two successful
frames leave counter 2, slot 0 and write buffers 0, 1 and then 2, 3. -/
theorem mainLoop_counter_slot_and_writes_witness :
    ((engineAfter sampleEngine
          (mainLoop 2 [sampleFrameDriver VK_SUCCESS VK_SUCCESS] sampleEngine)).m_FrameCounter =
        1 ∧
      (engineAfter sampleEngine
          (mainLoop 2 [sampleFrameDriver VK_SUCCESS VK_SUCCESS]
            sampleEngine)).m_CurrentFrameIdx = 1 ∧
      (mainLoop 2 [sampleFrameDriver VK_SUCCESS VK_SUCCESS] sampleEngine).map
          (fun result => uniformWrites result.calls) = [[0, 1]]) ∧
    ((engineAfter sampleEngine
          (mainLoop 2 [sampleFrameDriver VK_SUCCESS VK_SUCCESS,
            sampleFrameDriver VK_SUCCESS VK_SUCCESS] sampleEngine)).m_FrameCounter = 2 ∧
      (engineAfter sampleEngine
          (mainLoop 2 [sampleFrameDriver VK_SUCCESS VK_SUCCESS,
            sampleFrameDriver VK_SUCCESS VK_SUCCESS] sampleEngine)).m_CurrentFrameIdx = 0 ∧
      (mainLoop 2 [sampleFrameDriver VK_SUCCESS VK_SUCCESS,
            sampleFrameDriver VK_SUCCESS VK_SUCCESS] sampleEngine).map
          (fun result => uniformWrites result.calls) = [[0, 1], [2, 3]]) :=
  ⟨⟨((mainLoop_counter_slot_and_writes 2 2 (fun k => k + 1)
        [sampleFrameDriver VK_SUCCESS VK_SUCCESS] (by decide)).2
        ((mainLoop_counter_slot_and_writes 2 2 (fun k => k + 1)
          [sampleFrameDriver VK_SUCCESS VK_SUCCESS] (by decide)).1
          (fun k _ => Nat.succ_ne_zero k) (by decide))).2.1,
     ((mainLoop_counter_slot_and_writes 2 2 (fun k => k + 1)
        [sampleFrameDriver VK_SUCCESS VK_SUCCESS] (by decide)).2
        ((mainLoop_counter_slot_and_writes 2 2 (fun k => k + 1)
          [sampleFrameDriver VK_SUCCESS VK_SUCCESS] (by decide)).1
          (fun k _ => Nat.succ_ne_zero k) (by decide))).2.2.1,
     by decide⟩,
   ⟨((mainLoop_counter_slot_and_writes 2 2 (fun k => k + 1)
        [sampleFrameDriver VK_SUCCESS VK_SUCCESS, sampleFrameDriver VK_SUCCESS VK_SUCCESS]
        (by decide)).2
        ((mainLoop_counter_slot_and_writes 2 2 (fun k => k + 1)
          [sampleFrameDriver VK_SUCCESS VK_SUCCESS, sampleFrameDriver VK_SUCCESS VK_SUCCESS]
          (by decide)).1 (fun k _ => Nat.succ_ne_zero k) (by decide))).2.1,
     ((mainLoop_counter_slot_and_writes 2 2 (fun k => k + 1)
        [sampleFrameDriver VK_SUCCESS VK_SUCCESS, sampleFrameDriver VK_SUCCESS VK_SUCCESS]
        (by decide)).2
        ((mainLoop_counter_slot_and_writes 2 2 (fun k => k + 1)
          [sampleFrameDriver VK_SUCCESS VK_SUCCESS, sampleFrameDriver VK_SUCCESS VK_SUCCESS]
          (by decide)).1 (fun k _ => Nat.succ_ne_zero k) (by decide))).2.2.1,
     by decide⟩⟩

/-- Every call of the model loop of the recording is a recording call. -/
theorem recordModels_isRecording (engine : EngineState) :
    ∀ (remaining j : Nat) (call : FrameCall),
      call ∈ (recordModels engine remaining j).1 → call.isRecording = true := by
  intro remaining
  induction remaining with
  | zero => intro j call h; simp [recordModels] at h
  | succ n ih =>
    intro j call h
    unfold recordModels at h
    dsimp only at h
    split at h
    · simp at h
    · split at h
      · simp at h
      · simp only [List.mem_cons] at h
        rcases h with h | h
        · rw [h]; rfl
        · exact ih _ _ h

/-- Every call of `recordCommandBuffers` is a recording call. -/
theorem recordCommandBuffers_isRecording (driver : FrameDriver) (engine : EngineState)
    (commandBuffer imageIndex : Nat) (call : FrameCall)
    (h : call ∈ (recordCommandBuffers driver engine commandBuffer imageIndex).1) :
    call.isRecording = true := by
  unfold recordCommandBuffers at h
  dsimp only at h
  split at h
  · simp only [List.mem_singleton] at h; rw [h]; rfl
  · split at h
    · simp only [List.mem_append, List.mem_cons, List.mem_singleton, List.not_mem_nil,
        or_false] at h
      rcases h with h | h
      · rcases h with h | h | h | h | h | h <;> rw [h] <;> rfl
      · exact recordModels_isRecording _ _ _ _ h
    · split at h <;>
      · simp only [List.mem_append, List.mem_cons, List.mem_singleton, List.not_mem_nil,
          or_false] at h
        rcases h with (h | h) | h
        · rcases h with h | h | h | h | h | h <;> rw [h] <;> rfl
        · exact recordModels_isRecording _ _ _ _ h
        · rcases h with h | h <;> rw [h] <;> rfl

/-- Every call of the uniform-buffer loop is a uniform-buffer write. -/
theorem writeUniformBuffers_isUniformWrite (engine : EngineState) :
    ∀ (remaining i : Nat) (call : FrameCall),
      call ∈ writeUniformBuffers engine remaining i → call.isUniformWrite = true := by
  intro remaining
  induction remaining with
  | zero => intro i call h; simp [writeUniformBuffers] at h
  | succ n ih =>
    intro i call h
    simp only [writeUniformBuffers, List.mem_cons] at h
    rcases h with h | h
    · rw [h]; rfl
    · exact ih _ _ h

/-- The calls of a frame up to and including the submission contain no
presentation. -/
theorem countCalls_present_submitted (driver : FrameDriver) (engine : EngineState)
    (slot imageIndex : Nat) :
    countCalls FrameCall.isPresent
      ([.vkWaitForFences slot, .vkAcquireNextImageKHR slot] ++
        [.vkResetFences slot, .vkResetCommandBuffer slot] ++
        (recordCommandBuffers driver engine slot imageIndex).1 ++
        writeUniformBuffers engine engine.m_Models 0 ++
        [.vkQueueSubmit slot slot slot slot]) = 0 := by
  apply countCalls_eq_zero
  intro call hcall
  simp only [List.mem_append, List.mem_cons, List.mem_singleton, List.not_mem_nil,
    or_false] at hcall
  rcases hcall with (((h | h) | h) | h) | h
  · rcases h with h | h <;> rw [h] <;> rfl
  · rcases h with h | h <;> rw [h] <;> rfl
  · have := recordCommandBuffers_isRecording _ _ _ _ _ h
    cases call <;> simp_all [FrameCall.isRecording, FrameCall.isPresent]
  · have := writeUniformBuffers_isUniformWrite _ _ _ _ h
    cases call <;> simp_all [FrameCall.isUniformWrite, FrameCall.isPresent]
  · rw [h]; rfl

/-- What one `drawFrame` does to the slot and the counter, by outcome. -/
theorem drawFrame_slot_counter (MAX_FRAMES_IN_FLIGHT : Nat) (driver : FrameDriver)
    (engine : EngineState) :
    ((drawFrame MAX_FRAMES_IN_FLIGHT driver engine).outcome = .completed ∧
        countCalls FrameCall.isPresent (drawFrame MAX_FRAMES_IN_FLIGHT driver engine).calls = 1 ∧
        (drawFrame MAX_FRAMES_IN_FLIGHT driver engine).engine.m_CurrentFrameIdx =
          (engine.m_CurrentFrameIdx + 1) % MAX_FRAMES_IN_FLIGHT ∧
        (drawFrame MAX_FRAMES_IN_FLIGHT driver engine).engine.m_FrameCounter =
          engine.m_FrameCounter + 1) ∨
      ((drawFrame MAX_FRAMES_IN_FLIGHT driver engine).outcome = .returnedEarly ∧
        countCalls FrameCall.isPresent (drawFrame MAX_FRAMES_IN_FLIGHT driver engine).calls = 0 ∧
        (drawFrame MAX_FRAMES_IN_FLIGHT driver engine).engine.m_CurrentFrameIdx =
          engine.m_CurrentFrameIdx ∧
        (drawFrame MAX_FRAMES_IN_FLIGHT driver engine).engine.m_FrameCounter =
          engine.m_FrameCounter) ∨
      ((∃ error, (drawFrame MAX_FRAMES_IN_FLIGHT driver engine).outcome = .fatal error) ∧
        (drawFrame MAX_FRAMES_IN_FLIGHT driver engine).engine.m_CurrentFrameIdx =
          engine.m_CurrentFrameIdx ∧
        (drawFrame MAX_FRAMES_IN_FLIGHT driver engine).engine.m_FrameCounter =
          engine.m_FrameCounter) := by
  by_cases h1 : driver.acquireResult = VK_ERROR_OUT_OF_DATE_KHR
  · obtain ⟨hidx, hcounter, -, -, -⟩ := recreateSwapChain_fields MAX_FRAMES_IN_FLIGHT driver engine
    unfold drawFrame
    dsimp only
    rw [if_pos h1]
    split
    · exact Or.inr (Or.inr ⟨⟨_, rfl⟩, hidx, hcounter⟩)
    · exact Or.inr (Or.inl ⟨rfl, rfl, hidx, hcounter⟩)
  · by_cases h2 : driver.acquireResult ≠ VK_SUCCESS ∧ driver.acquireResult ≠ VK_SUBOPTIMAL_KHR
    · unfold drawFrame
      dsimp only
      rw [if_neg h1, if_pos h2]
      exact Or.inr (Or.inr ⟨⟨_, rfl⟩, rfl, rfl⟩)
    · by_cases h3 : ¬ engine.m_CurrentFrameIdx < engine.m_CommandBuffers
      · unfold drawFrame
        dsimp only
        rw [if_neg h1, if_neg h2, if_pos h3]
        exact Or.inr (Or.inr ⟨⟨_, rfl⟩, rfl, rfl⟩)
      · cases h4 : (recordCommandBuffers driver engine engine.m_CurrentFrameIdx
            driver.imageIndex).2 with
        | some error =>
          unfold drawFrame
          dsimp only
          rw [if_neg h1, if_neg h2, if_neg h3]
          simp only [h4]
          exact Or.inr (Or.inr (by simp))
        | none =>
          by_cases h5 : driver.submitResult ≠ VK_SUCCESS
          · unfold drawFrame
            dsimp only
            rw [if_neg h1, if_neg h2, if_neg h3]
            simp only [h4]
            rw [if_pos h5]
            exact Or.inr (Or.inr (by simp))
          · have hacquire : driver.acquireResult = VK_SUCCESS ∨
                driver.acquireResult = VK_SUBOPTIMAL_KHR := by
              by_cases h6 : driver.acquireResult = VK_SUCCESS
              · exact Or.inl h6
              · exact Or.inr (not_not.mp (fun h7 => h2 ⟨h6, h7⟩))
            rw [drawFrame_after_submit _ _ _ hacquire (not_not.mp h3) h4 (not_not.mp h5)]
            have hnone := countCalls_present_submitted driver engine engine.m_CurrentFrameIdx
              driver.imageIndex
            obtain ⟨hidx, hcounter, -, -, -⟩ := recreateSwapChain_fields MAX_FRAMES_IN_FLIGHT
              driver { engine with m_FramebufferResized := false }
            unfold presentFrame
            dsimp only
            split
            · split
              · exact Or.inr (Or.inr ⟨⟨_, rfl⟩, hidx, hcounter⟩)
              · refine Or.inl ⟨rfl, ?_, ?_, ?_⟩
                · rw [countCalls_append, countCalls_append, hnone]; rfl
                · simp only [advanceFrame, hidx]
                · simp only [advanceFrame, hcounter]
            · split
              · exact Or.inr (Or.inr ⟨⟨_, rfl⟩, rfl, rfl⟩)
              · refine Or.inl ⟨rfl, ?_, rfl, rfl⟩
                rw [countCalls_append, hnone]; rfl

/-- What one iteration of the main loop does to the slot and the counter. -/
theorem mainLoopIteration_slot_counter (MAX_FRAMES_IN_FLIGHT : Nat) (driver : FrameDriver)
    (engine : EngineState) :
    ((mainLoopIteration MAX_FRAMES_IN_FLIGHT driver engine).outcome = .completed ∧
        countCalls FrameCall.isPresent
          (mainLoopIteration MAX_FRAMES_IN_FLIGHT driver engine).calls = 1 ∧
        (mainLoopIteration MAX_FRAMES_IN_FLIGHT driver engine).engine.m_CurrentFrameIdx =
          (engine.m_CurrentFrameIdx + 1) % MAX_FRAMES_IN_FLIGHT ∧
        (mainLoopIteration MAX_FRAMES_IN_FLIGHT driver engine).engine.m_FrameCounter =
          engine.m_FrameCounter + 1) ∨
      ((mainLoopIteration MAX_FRAMES_IN_FLIGHT driver engine).outcome = .returnedEarly ∧
        countCalls FrameCall.isPresent
          (mainLoopIteration MAX_FRAMES_IN_FLIGHT driver engine).calls = 0 ∧
        (mainLoopIteration MAX_FRAMES_IN_FLIGHT driver engine).engine.m_CurrentFrameIdx =
          engine.m_CurrentFrameIdx ∧
        (mainLoopIteration MAX_FRAMES_IN_FLIGHT driver engine).engine.m_FrameCounter =
          engine.m_FrameCounter) ∨
      ((∃ error, (mainLoopIteration MAX_FRAMES_IN_FLIGHT driver engine).outcome =
          .fatal error) ∧
        (mainLoopIteration MAX_FRAMES_IN_FLIGHT driver engine).engine.m_CurrentFrameIdx =
          engine.m_CurrentFrameIdx ∧
        (mainLoopIteration MAX_FRAMES_IN_FLIGHT driver engine).engine.m_FrameCounter =
          engine.m_FrameCounter) := by
  unfold mainLoopIteration
  cases driver.resizeEvent
  · exact drawFrame_slot_counter MAX_FRAMES_IN_FLIGHT driver engine
  · exact drawFrame_slot_counter MAX_FRAMES_IN_FLIGHT driver (framebufferResizeCallback engine)

/-- Along a run of the main loop the slot stays below the number of frames in
flight and the counter never falls below its value at the start. -/
theorem mainLoop_slot_counter_bounds (MAX_FRAMES_IN_FLIGHT : Nat)
    (hF : 0 < MAX_FRAMES_IN_FLIGHT) :
    ∀ (drivers : List FrameDriver) (engine : EngineState),
      engine.m_CurrentFrameIdx < MAX_FRAMES_IN_FLIGHT →
      ∀ result ∈ mainLoop MAX_FRAMES_IN_FLIGHT drivers engine,
        result.engine.m_CurrentFrameIdx < MAX_FRAMES_IN_FLIGHT ∧
          engine.m_FrameCounter ≤ result.engine.m_FrameCounter := by
  intro drivers
  induction drivers with
  | nil => intro engine _ result h; simp [mainLoop] at h
  | cons driver rest ih =>
    intro engine hslot result hmem
    have hstep : (mainLoopIteration MAX_FRAMES_IN_FLIGHT driver engine).engine.m_CurrentFrameIdx
          < MAX_FRAMES_IN_FLIGHT ∧
        engine.m_FrameCounter ≤
          (mainLoopIteration MAX_FRAMES_IN_FLIGHT driver engine).engine.m_FrameCounter := by
      rcases mainLoopIteration_slot_counter MAX_FRAMES_IN_FLIGHT driver engine with
        ⟨-, -, h1, h2⟩ | ⟨-, -, h1, h2⟩ | ⟨-, h1, h2⟩
      · exact ⟨h1 ▸ Nat.mod_lt _ hF, by omega⟩
      · exact ⟨h1 ▸ hslot, by omega⟩
      · exact ⟨h1 ▸ hslot, by omega⟩
    unfold mainLoop at hmem
    dsimp only at hmem
    split at hmem
    · simp only [List.mem_singleton] at hmem
      rw [hmem]; exact hstep
    · simp only [List.mem_cons] at hmem
      rcases hmem with hmem | hmem
      · rw [hmem]; exact hstep
      · have := ih _ hstep.1 result hmem
        exact ⟨this.1, le_trans hstep.2 this.2⟩

/-- Along a run of the main loop the counter values form a non-decreasing sequence. -/
theorem mainLoop_counter_monotone (MAX_FRAMES_IN_FLIGHT : Nat)
    (hF : 0 < MAX_FRAMES_IN_FLIGHT) :
    ∀ (drivers : List FrameDriver) (engine : EngineState),
      engine.m_CurrentFrameIdx < MAX_FRAMES_IN_FLIGHT →
      List.Pairwise (fun before after => before ≤ after)
        (engine.m_FrameCounter ::
          (mainLoop MAX_FRAMES_IN_FLIGHT drivers engine).map
            (fun result => result.engine.m_FrameCounter)) := by
  intro drivers
  induction drivers with
  | nil => intro engine _; simp [mainLoop]
  | cons driver rest ih =>
    intro engine hslot
    rw [List.pairwise_cons]
    refine ⟨?_, ?_⟩
    · intro counter hcounter
      rw [List.mem_map] at hcounter
      obtain ⟨result, hmem, rfl⟩ := hcounter
      exact (mainLoop_slot_counter_bounds MAX_FRAMES_IN_FLIGHT hF _ engine hslot result hmem).2
    · have hstep := (mainLoop_slot_counter_bounds MAX_FRAMES_IN_FLIGHT hF [driver] engine hslot
        (mainLoopIteration MAX_FRAMES_IN_FLIGHT driver engine) (by
          unfold mainLoop; dsimp only; split <;> simp [mainLoop])).1
      unfold mainLoop
      dsimp only
      split
      · simp
      · exact ih _ hstep

/-- Claim C11: from the engine as constructed and initialised, whatever the
driver answers in each frame, every state the frame loop reaches has its slot
index below the number of frames in flight and the frame counters form a
non-decreasing sequence; and in any single frame the counter grows by exactly
one when the frame presents and runs to its end, and stays unchanged when the
frame returns early at an out-of-date acquisition (no presentation) or throws. -/
theorem mainLoop_slot_in_range_counter_monotone (MAX_FRAMES_IN_FLIGHT numModels : Nat)
    (allocatedDescriptorSet : Nat → Nat) (drivers : List FrameDriver)
    (hF : 0 < MAX_FRAMES_IN_FLIGHT) :
    (∀ result ∈ mainLoop MAX_FRAMES_IN_FLIGHT drivers
        (initialEngine MAX_FRAMES_IN_FLIGHT numModels allocatedDescriptorSet),
        result.engine.m_CurrentFrameIdx < MAX_FRAMES_IN_FLIGHT) ∧
      List.Pairwise (fun before after => before ≤ after)
        ((initialEngine MAX_FRAMES_IN_FLIGHT numModels allocatedDescriptorSet).m_FrameCounter ::
          (mainLoop MAX_FRAMES_IN_FLIGHT drivers
            (initialEngine MAX_FRAMES_IN_FLIGHT numModels allocatedDescriptorSet)).map
            (fun result => result.engine.m_FrameCounter)) ∧
      ∀ (driver : FrameDriver) (engine : EngineState),
        ((mainLoopIteration MAX_FRAMES_IN_FLIGHT driver engine).outcome = .completed →
          countCalls FrameCall.isPresent
              (mainLoopIteration MAX_FRAMES_IN_FLIGHT driver engine).calls = 1 ∧
            (mainLoopIteration MAX_FRAMES_IN_FLIGHT driver engine).engine.m_FrameCounter =
              engine.m_FrameCounter + 1) ∧
        ((mainLoopIteration MAX_FRAMES_IN_FLIGHT driver engine).outcome = .returnedEarly →
          countCalls FrameCall.isPresent
              (mainLoopIteration MAX_FRAMES_IN_FLIGHT driver engine).calls = 0 ∧
            (mainLoopIteration MAX_FRAMES_IN_FLIGHT driver engine).engine.m_FrameCounter =
              engine.m_FrameCounter) ∧
        (∀ error, (mainLoopIteration MAX_FRAMES_IN_FLIGHT driver engine).outcome =
            .fatal error →
          (mainLoopIteration MAX_FRAMES_IN_FLIGHT driver engine).engine.m_FrameCounter =
            engine.m_FrameCounter) := by
  have hstart : (initialEngine MAX_FRAMES_IN_FLIGHT numModels
      allocatedDescriptorSet).m_CurrentFrameIdx < MAX_FRAMES_IN_FLIGHT := hF
  refine ⟨fun result hmem =>
      (mainLoop_slot_counter_bounds MAX_FRAMES_IN_FLIGHT hF drivers _ hstart result hmem).1,
    mainLoop_counter_monotone MAX_FRAMES_IN_FLIGHT hF drivers _ hstart, ?_⟩
  intro driver engine
  rcases mainLoopIteration_slot_counter MAX_FRAMES_IN_FLIGHT driver engine with
    ⟨h0, h1, -, h2⟩ | ⟨h0, h1, -, h2⟩ | ⟨⟨error, h0⟩, -, h2⟩
  · refine ⟨fun _ => ⟨h1, h2⟩, fun h => ?_, fun error h => ?_⟩
    · rw [h0] at h; cases h
    · rw [h0] at h; cases h
  · refine ⟨fun h => ?_, fun _ => ⟨h1, h2⟩, fun error h => ?_⟩
    · rw [h0] at h; cases h
    · rw [h0] at h; cases h
  · refine ⟨fun h => ?_, fun h => ?_, fun _ _ => h2⟩
    · rw [h0] at h; cases h
    · rw [h0] at h; cases h

/-- Witness for C11: two frames in flight, two models, a frame that presents
followed by a frame whose acquisition is out of date; the slots are 1 and 1 and
the counters 1 and 1. -/
theorem mainLoop_slot_in_range_counter_monotone_witness :
    0 < 2 ∧
      (mainLoop 2 [sampleFrameDriver VK_SUCCESS VK_SUCCESS,
          sampleFrameDriver VK_ERROR_OUT_OF_DATE_KHR VK_SUCCESS]
          (initialEngine 2 2 (fun k => k + 1))).map
        (fun result => (result.engine.m_CurrentFrameIdx, result.engine.m_FrameCounter)) =
          [(1, 1), (1, 1)] ∧
      List.Pairwise (fun before after => before ≤ after)
        ((initialEngine 2 2 (fun k => k + 1)).m_FrameCounter ::
          (mainLoop 2 [sampleFrameDriver VK_SUCCESS VK_SUCCESS,
            sampleFrameDriver VK_ERROR_OUT_OF_DATE_KHR VK_SUCCESS]
            (initialEngine 2 2 (fun k => k + 1))).map
            (fun result => result.engine.m_FrameCounter)) :=
  ⟨by decide, by decide,
   (mainLoop_slot_in_range_counter_monotone 2 2 (fun k => k + 1)
     [sampleFrameDriver VK_SUCCESS VK_SUCCESS,
      sampleFrameDriver VK_ERROR_OUT_OF_DATE_KHR VK_SUCCESS] (by decide)).2.1⟩

/-- A single-bit test on the intersection of two masks succeeds exactly when it
succeeds on both masks. -/
theorem and_and_two_pow_ne_zero (color depth k : Nat) :
    (color &&& depth) &&& 2 ^ k ≠ 0 ↔ color &&& 2 ^ k ≠ 0 ∧ depth &&& 2 ^ k ≠ 0 := by
  have hpos : 2 ^ k ≠ 0 := by positivity
  simp only [Nat.and_two_pow, Nat.testBit_and]
  cases color.testBit k <;> cases depth.testBit k <;> simp [hpos]

/-- The branch `getMaxUsableSampleCount` takes: the first of 64, 32, 16, 8, 4, 2
whose bit is set in both masks, after every larger one has been found missing
from one of them, and 1 at the end of the chain. -/
theorem getMaxUsableSampleCount_cases (color depth : Nat) :
    (getMaxUsableSampleCount color depth = 64 ∧ (color &&& 64 ≠ 0 ∧ depth &&& 64 ≠ 0)) ∨
    (getMaxUsableSampleCount color depth = 32 ∧ ¬ (color &&& 64 ≠ 0 ∧ depth &&& 64 ≠ 0) ∧
      (color &&& 32 ≠ 0 ∧ depth &&& 32 ≠ 0)) ∨
    (getMaxUsableSampleCount color depth = 16 ∧ ¬ (color &&& 64 ≠ 0 ∧ depth &&& 64 ≠ 0) ∧
      ¬ (color &&& 32 ≠ 0 ∧ depth &&& 32 ≠ 0) ∧ (color &&& 16 ≠ 0 ∧ depth &&& 16 ≠ 0)) ∨
    (getMaxUsableSampleCount color depth = 8 ∧ ¬ (color &&& 64 ≠ 0 ∧ depth &&& 64 ≠ 0) ∧
      ¬ (color &&& 32 ≠ 0 ∧ depth &&& 32 ≠ 0) ∧ ¬ (color &&& 16 ≠ 0 ∧ depth &&& 16 ≠ 0) ∧
      (color &&& 8 ≠ 0 ∧ depth &&& 8 ≠ 0)) ∨
    (getMaxUsableSampleCount color depth = 4 ∧ ¬ (color &&& 64 ≠ 0 ∧ depth &&& 64 ≠ 0) ∧
      ¬ (color &&& 32 ≠ 0 ∧ depth &&& 32 ≠ 0) ∧ ¬ (color &&& 16 ≠ 0 ∧ depth &&& 16 ≠ 0) ∧
      ¬ (color &&& 8 ≠ 0 ∧ depth &&& 8 ≠ 0) ∧ (color &&& 4 ≠ 0 ∧ depth &&& 4 ≠ 0)) ∨
    (getMaxUsableSampleCount color depth = 2 ∧ ¬ (color &&& 64 ≠ 0 ∧ depth &&& 64 ≠ 0) ∧
      ¬ (color &&& 32 ≠ 0 ∧ depth &&& 32 ≠ 0) ∧ ¬ (color &&& 16 ≠ 0 ∧ depth &&& 16 ≠ 0) ∧
      ¬ (color &&& 8 ≠ 0 ∧ depth &&& 8 ≠ 0) ∧ ¬ (color &&& 4 ≠ 0 ∧ depth &&& 4 ≠ 0) ∧
      (color &&& 2 ≠ 0 ∧ depth &&& 2 ≠ 0)) ∨
    (getMaxUsableSampleCount color depth = 1 ∧ ¬ (color &&& 64 ≠ 0 ∧ depth &&& 64 ≠ 0) ∧
      ¬ (color &&& 32 ≠ 0 ∧ depth &&& 32 ≠ 0) ∧ ¬ (color &&& 16 ≠ 0 ∧ depth &&& 16 ≠ 0) ∧
      ¬ (color &&& 8 ≠ 0 ∧ depth &&& 8 ≠ 0) ∧ ¬ (color &&& 4 ≠ 0 ∧ depth &&& 4 ≠ 0) ∧
      ¬ (color &&& 2 ≠ 0 ∧ depth &&& 2 ≠ 0)) := by
  have h64 := and_and_two_pow_ne_zero color depth 6
  have h32 := and_and_two_pow_ne_zero color depth 5
  have h16 := and_and_two_pow_ne_zero color depth 4
  have h8 := and_and_two_pow_ne_zero color depth 3
  have h4 := and_and_two_pow_ne_zero color depth 2
  have h2 := and_and_two_pow_ne_zero color depth 1
  rw [show (2 : Nat) ^ 6 = 64 by rfl] at h64
  rw [show (2 : Nat) ^ 5 = 32 by rfl] at h32
  rw [show (2 : Nat) ^ 4 = 16 by rfl] at h16
  rw [show (2 : Nat) ^ 3 = 8 by rfl] at h8
  rw [show (2 : Nat) ^ 2 = 4 by rfl] at h4
  rw [show (2 : Nat) ^ 1 = 2 by rfl] at h2
  rw [← h64, ← h32, ← h16, ← h8, ← h4, ← h2]
  unfold getMaxUsableSampleCount
  simp only [VK_SAMPLE_COUNT_64_BIT, VK_SAMPLE_COUNT_32_BIT, VK_SAMPLE_COUNT_16_BIT,
    VK_SAMPLE_COUNT_8_BIT, VK_SAMPLE_COUNT_4_BIT, VK_SAMPLE_COUNT_2_BIT, VK_SAMPLE_COUNT_1_BIT]
  generalize (color &&& depth) &&& 64 = n64
  generalize (color &&& depth) &&& 32 = n32
  generalize (color &&& depth) &&& 16 = n16
  generalize (color &&& depth) &&& 8 = n8
  generalize (color &&& depth) &&& 4 = n4
  generalize (color &&& depth) &&& 2 = n2
  by_cases c64 : n64 = 0
  swap
  · left; simp [c64]
  right
  by_cases c32 : n32 = 0
  swap
  · left; simp [c64, c32]
  right
  by_cases c16 : n16 = 0
  swap
  · left; simp [c64, c32, c16]
  right
  by_cases c8 : n8 = 0
  swap
  · left; simp [c64, c32, c16, c8]
  right
  by_cases c4 : n4 = 0
  swap
  · left; simp [c64, c32, c16, c8, c4]
  right
  by_cases c2 : n2 = 0
  swap
  · left; simp [c64, c32, c16, c8, c4, c2]
  right
  simp [c64, c32, c16, c8, c4, c2]

/-- Claim C19: for every pair of colour and depth sample-count masks,
`getMaxUsableSampleCount` returns a count among 64, 32, 16, 8, 4, 2 whose bit is
set in both masks whenever there is one, no larger count among those six has its
bit set in both masks, and the result is 1 exactly when none of the six is set
in both. -/
theorem getMaxUsableSampleCount_largest_common (color depth : Nat) :
    (∀ count ∈ [64, 32, 16, 8, 4, 2], color &&& count ≠ 0 → depth &&& count ≠ 0 →
        count ≤ getMaxUsableSampleCount color depth) ∧
      (getMaxUsableSampleCount color depth ≠ 1 →
        getMaxUsableSampleCount color depth ∈ [64, 32, 16, 8, 4, 2] ∧
          color &&& getMaxUsableSampleCount color depth ≠ 0 ∧
          depth &&& getMaxUsableSampleCount color depth ≠ 0) ∧
      (getMaxUsableSampleCount color depth = 1 ↔
        ∀ count ∈ [64, 32, 16, 8, 4, 2], ¬ (color &&& count ≠ 0 ∧ depth &&& count ≠ 0)) := by
  simp only [List.mem_cons, List.mem_singleton, List.not_mem_nil, or_false, forall_eq_or_imp,
    forall_eq]
  rcases getMaxUsableSampleCount_cases color depth with h | h | h | h | h | h | h
  all_goals
    obtain ⟨hr, hrest⟩ := h
    rw [hr]
    revert hrest
    generalize color &&& 64 = a64, depth &&& 64 = b64, color &&& 32 = a32, depth &&& 32 = b32,
      color &&& 16 = a16, depth &&& 16 = b16, color &&& 8 = a8, depth &&& 8 = b8,
      color &&& 4 = a4, depth &&& 4 = b4, color &&& 2 = a2, depth &&& 2 = b2
    intro hrest
    omega

/-- The function `std::clamp` with ordered bounds is the usual clamp, and its
value lies between the bounds. -/
theorem stdClamp_eq (v lo hi : Nat) (h : lo ≤ hi) :
    stdClamp v lo hi = max lo (min v hi) ∧ lo ≤ stdClamp v lo hi ∧ stdClamp v lo hi ≤ hi := by
  unfold stdClamp
  split_ifs <;> omega

/-- The conversion to `uint32_t` keeps a value that already fits. -/
theorem toUint32_of_fits (x : Int) (h0 : 0 ≤ x) (h1 : x < 2 ^ 32) : (toUint32 x : Int) = x := by
  unfold toUint32
  rw [Int.emod_eq_of_lt h0 h1, Int.toNat_of_nonneg h0]

/-- Claim C16: for every surface-capabilities record, when the current extent
has a width other than the sentinel `2^32 - 1`, `chooseSwapExtent` returns the
current extent unchanged; otherwise, when the minimum extent is at most the
maximum extent componentwise, the returned width and height are the window
framebuffer width and height (as `uint32_t`, which is the value itself for a
size that fits) clamped into the minimum and maximum extent, and so lie within
those bounds. -/
theorem chooseSwapExtent_current_or_clamped (capabilities : VkSurfaceCapabilitiesKHR)
    (width height : Int) :
    (capabilities.currentExtent.width ≠ 2 ^ 32 - 1 →
        chooseSwapExtent capabilities width height = capabilities.currentExtent) ∧
      (capabilities.currentExtent.width = 2 ^ 32 - 1 →
        capabilities.minImageExtent.width ≤ capabilities.maxImageExtent.width →
        capabilities.minImageExtent.height ≤ capabilities.maxImageExtent.height →
          (chooseSwapExtent capabilities width height).width =
              max capabilities.minImageExtent.width
                (min (toUint32 width) capabilities.maxImageExtent.width) ∧
            (chooseSwapExtent capabilities width height).height =
              max capabilities.minImageExtent.height
                (min (toUint32 height) capabilities.maxImageExtent.height) ∧
            capabilities.minImageExtent.width ≤
              (chooseSwapExtent capabilities width height).width ∧
            (chooseSwapExtent capabilities width height).width ≤
              capabilities.maxImageExtent.width ∧
            capabilities.minImageExtent.height ≤
              (chooseSwapExtent capabilities width height).height ∧
            (chooseSwapExtent capabilities width height).height ≤
              capabilities.maxImageExtent.height) ∧
      (∀ size : Int, 0 ≤ size → size < 2 ^ 32 → (toUint32 size : Int) = size) := by
  refine ⟨fun h => ?_, fun h hw hh => ?_, toUint32_of_fits⟩
  · unfold chooseSwapExtent
    have : (capabilities.currentExtent.width == UINT32_MAX) = false := by
      simpa [UINT32_MAX] using h
    simp [this]
  · have hdef : chooseSwapExtent capabilities width height =
        { width := stdClamp (toUint32 width) capabilities.minImageExtent.width
            capabilities.maxImageExtent.width,
          height := stdClamp (toUint32 height) capabilities.minImageExtent.height
            capabilities.maxImageExtent.height } := by
      unfold chooseSwapExtent
      have : (capabilities.currentExtent.width == UINT32_MAX) = true := by
        simpa [UINT32_MAX] using h
      simp [this]
    rw [hdef]
    obtain ⟨w1, w2, w3⟩ := stdClamp_eq (toUint32 width) _ _ hw
    obtain ⟨h1, h2, h3⟩ := stdClamp_eq (toUint32 height) _ _ hh
    exact ⟨w1, h1, w2, w3, h2, h3⟩

/-- Witness for C16: on a surface that leaves the extent to the window, a
framebuffer of 5000 by 5 pixels is clamped into 1..4096 and gives 4096 by 5. -/
theorem chooseSwapExtent_current_or_clamped_witness :
    sampleOpenCapabilities.currentExtent.width = 2 ^ 32 - 1 ∧
      chooseSwapExtent sampleOpenCapabilities 5000 5 = { width := 4096, height := 5 } ∧
      (chooseSwapExtent sampleOpenCapabilities 5000 5).width =
        max sampleOpenCapabilities.minImageExtent.width
          (min (toUint32 5000) sampleOpenCapabilities.maxImageExtent.width) ∧
      chooseSwapExtent sampleCapabilities 5000 5 = { width := 800, height := 600 } :=
  ⟨by decide, by decide,
   ((chooseSwapExtent_current_or_clamped sampleOpenCapabilities 5000 5).2.1 (by decide)
     (by decide) (by decide)).1,
   (chooseSwapExtent_current_or_clamped sampleCapabilities 5000 5).1 (by decide)⟩

/-- A swapchain that `createSwapChain` creates was requested with the image
count computed from the frames in flight and the surface capabilities. -/
theorem createSwapChain_minImageCount (MAX_FRAMES_IN_FLIGHT : Nat)
    (PREFERRED_SURFACE_FORMAT : VkSurfaceFormatKHR) (device : PhysicalDevice)
    (driver : SwapChainDriver) (created : CreatedSwapChain)
    (h : createSwapChain MAX_FRAMES_IN_FLIGHT PREFERRED_SURFACE_FORMAT device driver =
      .ok created) :
    created.createInfo.minImageCount =
      requestedImageCount MAX_FRAMES_IN_FLIGHT device.swapChainSupport.capabilities := by
  unfold createSwapChain at h
  dsimp only at h
  split at h
  · cases h
  · split at h
    · cases h
    · split at h
      · cases h
      · split at h
        · split at h
          · cases h
          · injection h with h
            rw [← h]
            dsimp only
            split <;> rfl
        · cases h

/-- Counterexample for C17: with two frames in flight and a surface that
reports `maxImageCount = 0` (no upper limit), `createSwapChain` requests two
images, which is more than `maxImageCount`; and on a record whose minimum 5
exceeds its maximum 3 it requests three images, fewer than `minImageCount`. -/
theorem createSwapChain_image_count_exceeds_zero_maximum :
    (createSwapChain 2 samplePreferredFormat sampleOpenSurfaceDevice
        sampleSwapChainDriver).toOption.map (fun created => created.createInfo.minImageCount) =
        some 2 ∧
      sampleOpenSurfaceDevice.swapChainSupport.capabilities.maxImageCount = 0 ∧
      ¬ (requestedImageCount 2 sampleOpenSurfaceDevice.swapChainSupport.capabilities ≤
        sampleOpenSurfaceDevice.swapChainSupport.capabilities.maxImageCount) ∧
      (createSwapChain 2 samplePreferredFormat sampleInvertedSurfaceDevice
        sampleSwapChainDriver).toOption.map (fun created => created.createInfo.minImageCount) =
        some 3 ∧
      ¬ (sampleInvertedSurfaceDevice.swapChainSupport.capabilities.minImageCount ≤
        requestedImageCount 2 sampleInvertedSurfaceDevice.swapChainSupport.capabilities) := by
  refine ⟨rfl, rfl, by decide, rfl, by decide⟩

/-- Claim C17 (amended): every swapchain that `createSwapChain` creates was
requested with the image count computed from the capabilities as follows.  When
`maxImageCount` is 0, which means no upper limit, the count is the number of
frames in flight raised to `minImageCount`, so it is at least `minImageCount`.
When `maxImageCount` is positive and `minImageCount` is at most it, the count
is the number of frames in flight clamped into `minImageCount..maxImageCount`,
so it is at least `minImageCount` and at most `maxImageCount`. -/
theorem createSwapChain_image_count_clamped (MAX_FRAMES_IN_FLIGHT : Nat)
    (PREFERRED_SURFACE_FORMAT : VkSurfaceFormatKHR) (device : PhysicalDevice)
    (driver : SwapChainDriver) (created : CreatedSwapChain)
    (h : createSwapChain MAX_FRAMES_IN_FLIGHT PREFERRED_SURFACE_FORMAT device driver =
      .ok created) :
    (device.swapChainSupport.capabilities.maxImageCount = 0 →
        created.createInfo.minImageCount =
            max MAX_FRAMES_IN_FLIGHT device.swapChainSupport.capabilities.minImageCount ∧
          device.swapChainSupport.capabilities.minImageCount ≤
            created.createInfo.minImageCount) ∧
      (0 < device.swapChainSupport.capabilities.maxImageCount →
        device.swapChainSupport.capabilities.minImageCount ≤
          device.swapChainSupport.capabilities.maxImageCount →
        created.createInfo.minImageCount =
            max device.swapChainSupport.capabilities.minImageCount
              (min MAX_FRAMES_IN_FLIGHT device.swapChainSupport.capabilities.maxImageCount) ∧
          device.swapChainSupport.capabilities.minImageCount ≤
            created.createInfo.minImageCount ∧
          created.createInfo.minImageCount ≤
            device.swapChainSupport.capabilities.maxImageCount) := by
  rw [createSwapChain_minImageCount _ _ _ _ _ h]
  unfold requestedImageCount
  dsimp only
  refine ⟨fun h0 => ?_, fun hpos hle => ?_⟩
  · split_ifs <;> omega
  · split_ifs <;> omega

/-- Witness for C17: two frames in flight on a surface allowing two to eight
images give a swapchain requested with two images, and on a surface without an
upper limit as well. -/
theorem createSwapChain_image_count_clamped_witness :
    createSwapChain 2 samplePreferredFormat sampleSuitableDevice sampleSwapChainDriver =
        .ok { createInfo :=
                { minImageCount := 2, imageFormat := 50, imageColorSpace := 0,
                  imageExtent := { width := 800, height := 600 }, presentMode := 2,
                  imageSharingMode := VK_SHARING_MODE_EXCLUSIVE, queueFamilyIndexCount := 0,
                  pQueueFamilyIndices := [] },
              m_SwapChainImages := 3, m_SwapChainImageFormat := 50,
              m_SwapChainExtent := { width := 800, height := 600 } } ∧
      (2 : Nat) = max 2 (min 2 8) ∧ 2 ≤ 2 ∧ 2 ≤ 8 :=
  ⟨rfl,
   ((createSwapChain_image_count_clamped 2 samplePreferredFormat sampleSuitableDevice
      sampleSwapChainDriver _ rfl).2 (by decide) (by decide))⟩

/-- The exception of `findQueueFamilies` is thrown exactly when the loop leaves
the graphics or the presentation family unresolved. -/
theorem findQueueFamilies_error_iff (queueFamilies : List QueueFamily) :
    findQueueFamilies queueFamilies = .error .QueueFamilyIncomplete ↔
      (findQueueFamiliesFrom queueFamilies 0
          { graphicsFamily := none, presentationFamily := none }).graphicsFamily = none ∨
        (findQueueFamiliesFrom queueFamilies 0
          { graphicsFamily := none, presentationFamily := none }).presentationFamily = none := by
  unfold findQueueFamilies
  dsimp only
  generalize findQueueFamiliesFrom queueFamilies 0
    { graphicsFamily := none, presentationFamily := none } = indices
  rcases indices with ⟨graphics, presentation⟩
  cases graphics <;> cases presentation <;> simp [QueueFamilyIndices.isComplete]

/-- Claim C18: in `createSwapChain`, once a surface format and a present mode
are chosen and `vkCreateSwapchainKHR` succeeds, resolved queue-family indices
`graphics` and `presentation` give a swapchain created with exclusive sharing,
`queueFamilyIndexCount = 0` and no index list when they are equal, and with
concurrent sharing, `queueFamilyIndexCount = 2` and the index list
`[graphics, presentation]` when they differ; and when `findQueueFamilies` leaves
an index unresolved, which is exactly when it throws, creation fails with that
exception. -/
theorem createSwapChain_sharing_mode (MAX_FRAMES_IN_FLIGHT : Nat)
    (PREFERRED_SURFACE_FORMAT : VkSurfaceFormatKHR) (device : PhysicalDevice)
    (driver : SwapChainDriver) (hformats : device.swapChainSupport.formats ≠ [])
    (hmodes : device.swapChainSupport.presentModes ≠ []) :
    (∀ graphics presentation : Nat,
        findQueueFamilies device.queueFamilies =
          .ok { graphicsFamily := some graphics, presentationFamily := some presentation } →
        driver.createSwapchainResult = VK_SUCCESS →
        ∃ created,
          createSwapChain MAX_FRAMES_IN_FLIGHT PREFERRED_SURFACE_FORMAT device driver =
            .ok created ∧
          (graphics = presentation →
            created.createInfo.imageSharingMode = VK_SHARING_MODE_EXCLUSIVE ∧
              created.createInfo.queueFamilyIndexCount = 0 ∧
              created.createInfo.pQueueFamilyIndices = []) ∧
          (graphics ≠ presentation →
            created.createInfo.imageSharingMode = VK_SHARING_MODE_CONCURRENT ∧
              created.createInfo.queueFamilyIndexCount = 2 ∧
              created.createInfo.pQueueFamilyIndices = [graphics, presentation])) ∧
      (((findQueueFamiliesFrom device.queueFamilies 0
            { graphicsFamily := none, presentationFamily := none }).graphicsFamily = none ∨
          (findQueueFamiliesFrom device.queueFamilies 0
            { graphicsFamily := none, presentationFamily := none }).presentationFamily = none) →
        createSwapChain MAX_FRAMES_IN_FLIGHT PREFERRED_SURFACE_FORMAT device driver =
          .error .QueueFamilyIncomplete) := by
  obtain ⟨surfaceFormat, hsurface⟩ :
      ∃ surfaceFormat, chooseSwapSurfaceFormat PREFERRED_SURFACE_FORMAT
        device.swapChainSupport.formats = some surfaceFormat := by
    unfold chooseSwapSurfaceFormat
    split
    · exact ⟨_, rfl⟩
    · cases hlist : device.swapChainSupport.formats with
      | nil => exact absurd hlist hformats
      | cons first rest => exact ⟨first, by simp⟩
  obtain ⟨presentMode, hpresent⟩ :
      ∃ presentMode, chooseSwapPresentMode device.swapChainSupport.presentModes =
        .ok presentMode := by
    unfold chooseSwapPresentMode
    cases hlist : device.swapChainSupport.presentModes with
    | nil => exact absurd hlist hmodes
    | cons first rest =>
      dsimp only
      split
      · exact ⟨_, rfl⟩
      · exact ⟨_, rfl⟩
  refine ⟨fun graphics presentation hqueue hcreate => ?_, fun hmissing => ?_⟩
  · unfold createSwapChain
    simp only [querySwapChainSupport, hsurface, hpresent, hqueue, hcreate, ne_eq,
      not_true_eq_false, if_false]
    by_cases heq : graphics = presentation
    · simp [heq]
    · simp [heq]
  · unfold createSwapChain
    simp only [querySwapChainSupport, hsurface, hpresent,
      (findQueueFamilies_error_iff device.queueFamilies).mpr hmissing]

/-- Witness for C18: a device whose single queue family draws and presents gets
exclusive sharing, and a device whose first family draws and whose second
presents gets concurrent sharing with the index list `[0, 1]`. -/
theorem createSwapChain_sharing_mode_witness :
    sampleSplitQueueDevice.swapChainSupport.formats ≠ [] ∧
      sampleSplitQueueDevice.swapChainSupport.presentModes ≠ [] ∧
      findQueueFamilies sampleSplitQueueDevice.queueFamilies =
        .ok { graphicsFamily := some 0, presentationFamily := some 1 } ∧
      (createSwapChain 2 samplePreferredFormat sampleSplitQueueDevice
          sampleSwapChainDriver).toOption.map
        (fun created => (created.createInfo.imageSharingMode,
          created.createInfo.queueFamilyIndexCount, created.createInfo.pQueueFamilyIndices)) =
        some (VK_SHARING_MODE_CONCURRENT, 2, [0, 1]) ∧
      (createSwapChain 2 samplePreferredFormat sampleSuitableDevice
          sampleSwapChainDriver).toOption.map
        (fun created => (created.createInfo.imageSharingMode,
          created.createInfo.queueFamilyIndexCount, created.createInfo.pQueueFamilyIndices)) =
        some (VK_SHARING_MODE_EXCLUSIVE, 0, []) ∧
      createSwapChain 2 samplePreferredFormat sampleHeadlessDevice sampleSwapChainDriver =
        .error .QueueFamilyIncomplete :=
  ⟨by decide, by decide, rfl, rfl, rfl,
   (createSwapChain_sharing_mode 2 samplePreferredFormat sampleHeadlessDevice
     sampleSwapChainDriver (by decide) (by decide)).2 (Or.inr rfl)⟩

/-- Claim C20 (evaluation at the failing input): with a device that draws but
cannot present listed before a device that passes every check,
`pickPhysicalDevice` does not skip the first device and select the second: the
exception of `findQueueFamilies` leaves `isDeviceSuitable` and
`pickPhysicalDevice`, although the second device alone is selected. -/
theorem pickPhysicalDevice_throws_on_unresolved_queue_family :
    findQueueFamilies sampleHeadlessDevice.queueFamilies = .error .QueueFamilyIncomplete ∧
      isDeviceSuitable true true sampleHeadlessDevice = .error .QueueFamilyIncomplete ∧
      isDeviceSuitable true true sampleSuitableDevice = .ok true ∧
      pickPhysicalDevice true true [sampleHeadlessDevice, sampleSuitableDevice] =
        .error .QueueFamilyIncomplete ∧
      pickPhysicalDevice true true [sampleSuitableDevice] =
        .ok { m_PhysicalDevice := 0, m_MSAASamples := 4 } ∧
      pickPhysicalDevice true true [sampleSuitableDevice, sampleHeadlessDevice] =
        .ok { m_PhysicalDevice := 0, m_MSAASamples := 4 } :=
  ⟨rfl, rfl, rfl, rfl, rfl, rfl⟩

/-- A sequence of two steps succeeds exactly when the first succeeds and the
second succeeds on its result. -/
theorem bind_eq_ok_iff {ε α β : Type} (x : Except ε α) (f : α → Except ε β) (b : β) :
    (x >>= f) = .ok b ↔ ∃ a, x = .ok a ∧ f a = .ok b := by
  cases x with
  | error e => simp [bind, Except.bind]
  | ok a => simp [bind, Except.bind]

/-- What a successful `createSwapChain` does to the members. -/
theorem createSwapChain_members (settings : Settings) (device : PhysicalDevice)
    (driver : BundleDriver) (bundle after : SwapChainBundle)
    (h : SwapChainBundle.createSwapChain settings device driver bundle = .ok after) :
    ∃ created, Engine.createSwapChain settings.MAX_FRAMES_IN_FLIGHT
        settings.PREFERRED_SURFACE_FORMAT device driver.swapChain = .ok created ∧
      after = { bundle with
                  m_SwapChainImages := created.m_SwapChainImages,
                  m_SwapChainImageFormat := created.m_SwapChainImageFormat,
                  m_SwapChainExtent := created.m_SwapChainExtent } := by
  unfold SwapChainBundle.createSwapChain at h
  split at h
  · cases h
  · rename_i created hcreated
    injection h with h
    exact ⟨created, hcreated, h.symm⟩

/-- What a successful `createImageViews` does to the members. -/
theorem createImageViews_members (driver : BundleDriver) (bundle after : SwapChainBundle)
    (h : createImageViews driver bundle = .ok after) :
    after = { bundle with m_SwapChainImageViews := bundle.m_SwapChainImages } := by
  unfold createImageViews at h
  split at h
  · cases h
  · injection h with h; exact h.symm

/-- A successful `createRenderPass` leaves the members as they are. -/
theorem createRenderPass_members (driver : BundleDriver) (bundle after : SwapChainBundle)
    (h : createRenderPass driver bundle = .ok after) : after = bundle := by
  unfold createRenderPass at h
  split at h
  · cases h
  · injection h with h; exact h.symm

/-- A successful `createGraphicsPipeline` leaves the members as they are. -/
theorem createGraphicsPipeline_members (driver : BundleDriver)
    (bundle after : SwapChainBundle)
    (h : createGraphicsPipeline driver bundle = .ok after) : after = bundle := by
  unfold createGraphicsPipeline at h
  split at h
  · cases h
  · injection h with h; exact h.symm

/-- What a successful `createColorResources` does to the members. -/
theorem createColorResources_members (driver : BundleDriver) (bundle after : SwapChainBundle)
    (h : createColorResources driver bundle = .ok after) :
    after = { bundle with
                m_ColorImage := some { width := bundle.m_SwapChainExtent.width,
                                       height := bundle.m_SwapChainExtent.height } } := by
  unfold createColorResources at h
  split at h
  · cases h
  · split at h
    · cases h
    · injection h with h; exact h.symm

/-- What a successful `createDepthResources` does to the members. -/
theorem createDepthResources_members (driver : BundleDriver) (bundle after : SwapChainBundle)
    (h : createDepthResources driver bundle = .ok after) :
    after = { bundle with
                m_DepthImage := some { width := bundle.m_SwapChainExtent.width,
                                       height := bundle.m_SwapChainExtent.height } } := by
  unfold createDepthResources at h
  split at h
  · cases h
  · split at h
    · cases h
    · split at h
      · cases h
      · injection h with h; exact h.symm

/-- What a successful `createFramebuffers` does to the members. -/
theorem createFramebuffers_members (driver : BundleDriver) (bundle after : SwapChainBundle)
    (h : createFramebuffers driver bundle = .ok after) :
    after = { bundle with
                m_SwapChainFramebuffers :=
                  (List.range bundle.m_SwapChainImageViews).map (fun i =>
                    { attachmentCount := 3, swapChainImageView := i,
                      width := bundle.m_SwapChainExtent.width,
                      height := bundle.m_SwapChainExtent.height, layers := 1 }) } := by
  unfold createFramebuffers at h
  split at h
  · cases h
  · injection h with h; exact h.symm

/-- What a successful `createUniformBuffers` does to the members. -/
theorem createUniformBuffers_members (settings : Settings) (driver : BundleDriver)
    (bundle after : SwapChainBundle)
    (h : createUniformBuffers settings driver bundle = .ok after) :
    after = { bundle with
                m_UniformBuffers := settings.MAX_FRAMES_IN_FLIGHT * bundle.m_Models,
                m_UniformBuffersMemory := settings.MAX_FRAMES_IN_FLIGHT * bundle.m_Models,
                m_UniformBuffersMapped := settings.MAX_FRAMES_IN_FLIGHT * bundle.m_Models } := by
  unfold createUniformBuffers at h
  dsimp only at h
  split at h
  · injection h with h; exact h.symm
  · split at h
    · cases h
    · split at h
      · cases h
      · injection h with h; exact h.symm

/-- What a successful `createDescriptorPool` does to the members. -/
theorem createDescriptorPool_members (settings : Settings) (driver : BundleDriver)
    (bundle after : SwapChainBundle)
    (h : createDescriptorPool settings driver bundle = .ok after) :
    after = { bundle with
                m_DescriptorPool := some
                  { poolSizes :=
                      [{ type := VK_DESCRIPTOR_TYPE_UNIFORM_BUFFER,
                         descriptorCount :=
                           (settings.MAX_FRAMES_IN_FLIGHT * bundle.m_Models) % 2 ^ 32 },
                       { type := VK_DESCRIPTOR_TYPE_COMBINED_IMAGE_SAMPLER,
                         descriptorCount :=
                           (settings.MAX_FRAMES_IN_FLIGHT * bundle.m_Models) % 2 ^ 32 }],
                    maxSets := (settings.MAX_FRAMES_IN_FLIGHT * bundle.m_Models) % 2 ^ 32 } } := by
  unfold createDescriptorPool at h
  dsimp only at h
  split at h
  · cases h
  · injection h with h; exact h.symm

/-- What a successful `createDescriptorSets` does to the members. -/
theorem createDescriptorSets_members (settings : Settings) (driver : BundleDriver)
    (bundle after : SwapChainBundle)
    (h : createDescriptorSets settings driver bundle = .ok after) :
    after = { bundle with
                m_DescriptorSets :=
                  (List.range settings.MAX_FRAMES_IN_FLIGHT).foldl (fun sets i =>
                    (List.range bundle.m_Models).foldl
                      (updateDescriptorSets bundle.m_Models i) sets)
                    (List.replicate (settings.MAX_FRAMES_IN_FLIGHT * bundle.m_Models)
                      { uniformBuffer := none, imageSampler := false }) } := by
  unfold createDescriptorSets at h
  dsimp only at h
  split at h
  · cases h
  · injection h with h; exact h.symm

/-- What a successful `createCommandBuffers` does to the members. -/
theorem createCommandBuffers_members (settings : Settings) (driver : BundleDriver)
    (bundle after : SwapChainBundle)
    (h : createCommandBuffers settings driver bundle = .ok after) :
    after = { bundle with m_CommandBuffers := settings.MAX_FRAMES_IN_FLIGHT } := by
  unfold createCommandBuffers at h
  split at h
  · cases h
  · injection h with h; exact h.symm

/-- The members after a successful `recreateSwapChain`, in terms of the
swapchain `createSwapChain` created and the members before. -/
theorem recreateSwapChain_members (settings : Settings) (device : PhysicalDevice)
    (driver : BundleDriver) (bundle after : SwapChainBundle)
    (h : SwapChainBundle.recreateSwapChain settings device driver bundle = .ok after) :
    ∃ created, Engine.createSwapChain settings.MAX_FRAMES_IN_FLIGHT
        settings.PREFERRED_SURFACE_FORMAT device driver.swapChain = .ok created ∧
      after =
        { m_Models := bundle.m_Models, m_MSAASamples := bundle.m_MSAASamples,
          m_SwapChainImages := created.m_SwapChainImages,
          m_SwapChainImageFormat := created.m_SwapChainImageFormat,
          m_SwapChainExtent := created.m_SwapChainExtent,
          m_SwapChainImageViews := created.m_SwapChainImages,
          m_ColorImage := some created.m_SwapChainExtent,
          m_DepthImage := some created.m_SwapChainExtent,
          m_SwapChainFramebuffers :=
            (List.range created.m_SwapChainImages).map (fun i =>
              { attachmentCount := 3, swapChainImageView := i,
                width := created.m_SwapChainExtent.width,
                height := created.m_SwapChainExtent.height, layers := 1 }),
          m_CommandBuffers := 0,
          m_UniformBuffers := settings.MAX_FRAMES_IN_FLIGHT * bundle.m_Models,
          m_UniformBuffersMemory := settings.MAX_FRAMES_IN_FLIGHT * bundle.m_Models,
          m_UniformBuffersMapped := settings.MAX_FRAMES_IN_FLIGHT * bundle.m_Models,
          m_DescriptorPool := some
            { poolSizes :=
                [{ type := VK_DESCRIPTOR_TYPE_UNIFORM_BUFFER,
                   descriptorCount :=
                     (settings.MAX_FRAMES_IN_FLIGHT * bundle.m_Models) % 2 ^ 32 },
                 { type := VK_DESCRIPTOR_TYPE_COMBINED_IMAGE_SAMPLER,
                   descriptorCount :=
                     (settings.MAX_FRAMES_IN_FLIGHT * bundle.m_Models) % 2 ^ 32 }],
              maxSets := (settings.MAX_FRAMES_IN_FLIGHT * bundle.m_Models) % 2 ^ 32 },
          m_DescriptorSets :=
            (List.range settings.MAX_FRAMES_IN_FLIGHT).foldl (fun sets i =>
              (List.range bundle.m_Models).foldl
                (updateDescriptorSets bundle.m_Models i) sets)
              (List.replicate (settings.MAX_FRAMES_IN_FLIGHT * bundle.m_Models)
                { uniformBuffer := none, imageSampler := false }) } := by
  unfold SwapChainBundle.recreateSwapChain at h
  simp only [bind_eq_ok_iff] at h
  obtain ⟨b9, ⟨b8, ⟨b7, ⟨b6, ⟨b5, ⟨b4, ⟨b3, ⟨b2, ⟨b1, h1, h2⟩, h3⟩, h4⟩, h5⟩, h6⟩, h7⟩, h8⟩,
    h9⟩, h10⟩ := h
  obtain ⟨created, hcreated, e1⟩ := createSwapChain_members _ _ _ _ _ h1
  have e2 := createImageViews_members _ _ _ h2
  have e3 := createRenderPass_members _ _ _ h3
  have e4 := createGraphicsPipeline_members _ _ _ h4
  have e5 := createColorResources_members _ _ _ h5
  have e6 := createDepthResources_members _ _ _ h6
  have e7 := createFramebuffers_members _ _ _ h7
  have e8 := createUniformBuffers_members _ _ _ _ h8
  have e9 := createDescriptorPool_members _ _ _ _ h9
  have e10 := createDescriptorSets_members _ _ _ _ h10
  refine ⟨created, hcreated, ?_⟩
  subst e1 e2 e3 e4 e5 e6 e7 e8 e9
  rw [e10]
  rfl

/-- The inner loop of `createDescriptorSets` keeps the number of sets. -/
theorem updateDescriptorSets_models_length (numModels i : Nat) :
    ∀ (n : Nat) (sets : List DescriptorSet),
      ((List.range n).foldl (updateDescriptorSets numModels i) sets).length = sets.length := by
  intro n
  induction n with
  | zero => intro sets; rfl
  | succ n ih =>
    intro sets
    rw [List.range_succ, List.foldl_append]
    simp only [List.foldl_cons, List.foldl_nil, updateDescriptorSets, List.length_set]
    exact ih sets

/-- After `n` iterations of the inner loop of `createDescriptorSets` for frame
`i`, the sets at `i * numModels` up to `i * numModels + n` refer to the uniform
buffer at their own position, and the other sets are untouched. -/
theorem updateDescriptorSets_models (numModels i : Nat) :
    ∀ (n : Nat) (sets : List DescriptorSet) (k : Nat),
      ((List.range n).foldl (updateDescriptorSets numModels i) sets)[k]? =
        if i * numModels ≤ k ∧ k < i * numModels + n ∧ k < sets.length then
          some { uniformBuffer := some k, imageSampler := true }
        else sets[k]? := by
  intro n
  induction n with
  | zero =>
    intro sets k
    have : ¬ (i * numModels ≤ k ∧ k < i * numModels + 0 ∧ k < sets.length) := by omega
    rw [if_neg this]
    rfl
  | succ n ih =>
    intro sets k
    rw [List.range_succ, List.foldl_append]
    simp only [List.foldl_cons, List.foldl_nil, updateDescriptorSets, List.getElem?_set,
      updateDescriptorSets_models_length, ih]
    by_cases hk : i * numModels + n = k
    · subst hk
      by_cases hlen : i * numModels + n < sets.length
      · simp [hlen]
      · have hnone : sets[i * numModels + n]? = none := by
          rw [List.getElem?_eq_none_iff]; omega
        simp [hlen, hnone]
    · rw [if_neg hk]
      by_cases hc : i * numModels ≤ k ∧ k < i * numModels + n ∧ k < sets.length
      · rw [if_pos hc, if_pos ⟨hc.1, by omega, hc.2.2⟩]
      · rw [if_neg hc, if_neg (by omega)]

/-- The nested loops of `createDescriptorSets` keep the number of sets. -/
theorem updateDescriptorSets_frames_length (numModels : Nat) :
    ∀ (f : Nat) (sets : List DescriptorSet),
      ((List.range f).foldl (fun sets i =>
        (List.range numModels).foldl (updateDescriptorSets numModels i) sets) sets).length =
        sets.length := by
  intro f
  induction f with
  | zero => intro sets; rfl
  | succ f ih =>
    intro sets
    rw [List.range_succ, List.foldl_append]
    simp only [List.foldl_cons, List.foldl_nil, updateDescriptorSets_models_length]
    exact ih sets

/-- After the nested loops of `createDescriptorSets` over `f` frames, every set
below `f * numModels` refers to the uniform buffer at its own position. -/
theorem updateDescriptorSets_frames (numModels : Nat) :
    ∀ (f : Nat) (sets : List DescriptorSet) (k : Nat),
      ((List.range f).foldl (fun sets i =>
        (List.range numModels).foldl (updateDescriptorSets numModels i) sets) sets)[k]? =
        if k < f * numModels ∧ k < sets.length then
          some { uniformBuffer := some k, imageSampler := true }
        else sets[k]? := by
  intro f
  induction f with
  | zero =>
    intro sets k
    have : ¬ (k < 0 * numModels ∧ k < sets.length) := by omega
    rw [if_neg this]
    rfl
  | succ f ih =>
    intro sets k
    rw [List.range_succ, List.foldl_append]
    simp only [List.foldl_cons, List.foldl_nil, updateDescriptorSets_models,
      updateDescriptorSets_frames_length, ih]
    have hmul : (f + 1) * numModels = f * numModels + numModels := Nat.succ_mul f numModels
    by_cases h1 : f * numModels ≤ k ∧ k < f * numModels + numModels ∧ k < sets.length
    · rw [if_pos h1, if_pos ⟨by omega, h1.2.2⟩]
    · rw [if_neg h1]
      by_cases h2 : k < f * numModels ∧ k < sets.length
      · rw [if_pos h2, if_pos ⟨by omega, h2.2⟩]
      · rw [if_neg h2, if_neg (by omega)]

/-- The descriptor sets that `createDescriptorSets` leaves: as many as frames
times models, each referring to the uniform buffer at its own position. -/
theorem createDescriptorSets_written (F numModels : Nat) :
    ((List.range F).foldl (fun sets i =>
        (List.range numModels).foldl (updateDescriptorSets numModels i) sets)
        (List.replicate (F * numModels)
          { uniformBuffer := none, imageSampler := false })).length = F * numModels ∧
      ∀ k, k < F * numModels →
        ((List.range F).foldl (fun sets i =>
          (List.range numModels).foldl (updateDescriptorSets numModels i) sets)
          (List.replicate (F * numModels)
            { uniformBuffer := none, imageSampler := false }))[k]? =
          some { uniformBuffer := some k, imageSampler := true } := by
  refine ⟨by rw [updateDescriptorSets_frames_length, List.length_replicate], fun k hk => ?_⟩
  rw [updateDescriptorSets_frames, List.length_replicate, if_pos ⟨hk, hk⟩]

/-- The model loop of the recording, when it does not throw, binds for each
model it visits the descriptor set at `slot * M + model`. -/
theorem boundDescriptorSets_recordModels (engine : EngineState) :
    ∀ (remaining j : Nat), (recordModels engine remaining j).2 = none →
      boundDescriptorSets (recordModels engine remaining j).1 =
        (List.range' j remaining).map
          (fun m => (m, engine.m_CurrentFrameIdx * engine.m_Models + m)) := by
  intro remaining
  induction remaining with
  | zero => intro j _; rfl
  | succ n ih =>
    intro j h
    unfold recordModels at h ⊢
    dsimp only at h ⊢
    split
    · rename_i hget; rw [hget] at h; cases h
    · rename_i descriptorSet hget
      rw [hget] at h
      dsimp only at h
      split
      · rename_i hzero; rw [if_pos hzero] at h; cases h
      · rename_i hzero
        rw [if_neg hzero] at h
        simp only [boundDescriptorSets, List.range'_succ, List.map_cons, ih _ h]

/-- Projection of the bound descriptor sets over a concatenation. -/
theorem boundDescriptorSets_append (front back : List FrameCall) :
    boundDescriptorSets (front ++ back) =
      boundDescriptorSets front ++ boundDescriptorSets back := by
  induction front with
  | nil => rfl
  | cons call rest ih => cases call <;> simp [boundDescriptorSets, ih]

/-- A recording that does not throw binds, for each model in order, the
descriptor set at `slot * M + model`. -/
theorem boundDescriptorSets_recordCommandBuffers (driver : FrameDriver) (engine : EngineState)
    (commandBuffer imageIndex : Nat)
    (h : (recordCommandBuffers driver engine commandBuffer imageIndex).2 = none) :
    boundDescriptorSets (recordCommandBuffers driver engine commandBuffer imageIndex).1 =
      (List.range engine.m_Models).map
        (fun m => (m, engine.m_CurrentFrameIdx * engine.m_Models + m)) := by
  unfold recordCommandBuffers at h ⊢
  dsimp only at h ⊢
  split
  · rename_i hbegin; rw [if_pos hbegin] at h; cases h
  · rename_i hbegin
    rw [if_neg hbegin] at h
    cases hmodels : (recordModels engine engine.m_Models 0).2 with
    | some error => simp only [hmodels] at h; cases h
    | none =>
      simp only [hmodels] at h ⊢
      split <;>
        simp [boundDescriptorSets_append, boundDescriptorSets,
          boundDescriptorSets_recordModels engine _ _ hmodels, List.range_eq_range']

/-- The copy loop of `drawFrame` copies, for each model it visits, the model's
UBO into the uniform buffer at `slot * M + model`. -/
theorem uniformCopies_writeUniformBuffers (engine : EngineState) :
    ∀ (remaining i : Nat),
      uniformCopies (writeUniformBuffers engine remaining i) =
        (List.range' i remaining).map
          (fun m => (m, engine.m_CurrentFrameIdx * engine.m_Models + m)) := by
  intro remaining
  induction remaining with
  | zero => intro i; rfl
  | succ n ih =>
    intro i
    simp [writeUniformBuffers, getCurrentFrameIdx, uniformCopies, ih, List.range'_succ]

/-- Distinct pairs of slot and model give distinct ring indices. -/
theorem slot_index_injective (M s t s' t' : Nat) (ht : t < M) (ht' : t' < M)
    (h : s * M + t = s' * M + t') : s = s' ∧ t = t' := by
  have h1 : (s * M + t) / M = s := by
    rw [Nat.mul_comm, Nat.mul_add_div (by omega), Nat.div_eq_of_lt ht, Nat.add_zero]
  have h2 : (s' * M + t') / M = s' := by
    rw [Nat.mul_comm, Nat.mul_add_div (by omega), Nat.div_eq_of_lt ht', Nat.add_zero]
  have hs : s = s' := by rw [← h1, ← h2, h]
  subst hs
  exact ⟨rfl, by omega⟩

/-- The members after a successful `initVulkan`, in terms of the swapchain
`createSwapChain` created. -/
theorem initVulkan_members (settings : Settings) (device : PhysicalDevice)
    (driver : BundleDriver) (numModels : Nat) (bundle after : SwapChainBundle)
    (h : SwapChainBundle.initVulkan settings device driver numModels bundle = .ok after) :
    ∃ created, Engine.createSwapChain settings.MAX_FRAMES_IN_FLIGHT
        settings.PREFERRED_SURFACE_FORMAT device driver.swapChain = .ok created ∧
      after =
        { m_Models := numModels, m_MSAASamples := bundle.m_MSAASamples,
          m_SwapChainImages := created.m_SwapChainImages,
          m_SwapChainImageFormat := created.m_SwapChainImageFormat,
          m_SwapChainExtent := created.m_SwapChainExtent,
          m_SwapChainImageViews := created.m_SwapChainImages,
          m_ColorImage := some created.m_SwapChainExtent,
          m_DepthImage := some created.m_SwapChainExtent,
          m_SwapChainFramebuffers :=
            (List.range created.m_SwapChainImages).map (fun i =>
              { attachmentCount := 3, swapChainImageView := i,
                width := created.m_SwapChainExtent.width,
                height := created.m_SwapChainExtent.height, layers := 1 }),
          m_CommandBuffers := settings.MAX_FRAMES_IN_FLIGHT,
          m_UniformBuffers := settings.MAX_FRAMES_IN_FLIGHT * numModels,
          m_UniformBuffersMemory := settings.MAX_FRAMES_IN_FLIGHT * numModels,
          m_UniformBuffersMapped := settings.MAX_FRAMES_IN_FLIGHT * numModels,
          m_DescriptorPool := some
            { poolSizes :=
                [{ type := VK_DESCRIPTOR_TYPE_UNIFORM_BUFFER,
                   descriptorCount := (settings.MAX_FRAMES_IN_FLIGHT * numModels) % 2 ^ 32 },
                 { type := VK_DESCRIPTOR_TYPE_COMBINED_IMAGE_SAMPLER,
                   descriptorCount := (settings.MAX_FRAMES_IN_FLIGHT * numModels) % 2 ^ 32 }],
              maxSets := (settings.MAX_FRAMES_IN_FLIGHT * numModels) % 2 ^ 32 },
          m_DescriptorSets :=
            (List.range settings.MAX_FRAMES_IN_FLIGHT).foldl (fun sets i =>
              (List.range numModels).foldl (updateDescriptorSets numModels i) sets)
              (List.replicate (settings.MAX_FRAMES_IN_FLIGHT * numModels)
                { uniformBuffer := none, imageSampler := false }) } := by
  unfold SwapChainBundle.initVulkan at h
  simp only [bind_eq_ok_iff] at h
  obtain ⟨b10, ⟨b9, ⟨b8, ⟨b7, ⟨b6, ⟨b5, ⟨b4, ⟨b3, ⟨b2, ⟨b1, h1, h2⟩, h3⟩, h4⟩, h5⟩, h6⟩, h7⟩,
    h8⟩, h9⟩, h10⟩, h11⟩ := h
  obtain ⟨created, hcreated, e1⟩ := createSwapChain_members _ _ _ _ _ h1
  have e2 := createImageViews_members _ _ _ h2
  have e3 := createRenderPass_members _ _ _ h3
  have e4 := createGraphicsPipeline_members _ _ _ h4
  have e5 := createColorResources_members _ _ _ h5
  have e6 := createDepthResources_members _ _ _ h6
  have e7 := createFramebuffers_members _ _ _ h7
  have e8 := createUniformBuffers_members _ _ _ _ h8
  have e9 := createDescriptorPool_members _ _ _ _ h9
  have e10 := createDescriptorSets_members _ _ _ _ h10
  have e11 := createCommandBuffers_members _ _ _ _ h11
  refine ⟨created, hcreated, ?_⟩
  subst e1 e2 e3 e4 e5 e6 e7 e8 e9 e10 e11
  rfl

/-- The calls of a `drawFrame` that runs to its last statement: wait, acquire,
fence reset, command-buffer reset, the recording, the uniform-buffer copies, a
successful submission, the presentation, and possibly one swapchain recreation. -/
theorem drawFrame_completed_calls (MAX_FRAMES_IN_FLIGHT : Nat) (driver : FrameDriver)
    (engine : EngineState)
    (hcompleted : (drawFrame MAX_FRAMES_IN_FLIGHT driver engine).outcome = .completed) :
    driver.submitResult = VK_SUCCESS ∧
      (recordCommandBuffers driver engine engine.m_CurrentFrameIdx driver.imageIndex).2 = none ∧
      ∃ tail, (tail = [] ∨ tail = [.recreateSwapChain]) ∧
        (drawFrame MAX_FRAMES_IN_FLIGHT driver engine).calls =
          [.vkWaitForFences engine.m_CurrentFrameIdx,
            .vkAcquireNextImageKHR engine.m_CurrentFrameIdx] ++
          [.vkResetFences engine.m_CurrentFrameIdx,
            .vkResetCommandBuffer engine.m_CurrentFrameIdx] ++
          (recordCommandBuffers driver engine engine.m_CurrentFrameIdx driver.imageIndex).1 ++
          writeUniformBuffers engine engine.m_Models 0 ++
          [.vkQueueSubmit engine.m_CurrentFrameIdx engine.m_CurrentFrameIdx
            engine.m_CurrentFrameIdx engine.m_CurrentFrameIdx] ++
          [.vkQueuePresentKHR engine.m_CurrentFrameIdx driver.imageIndex] ++ tail := by
  obtain ⟨hacquire, hring, hrecord, hsubmit⟩ :=
    drawFrame_completed_conditions MAX_FRAMES_IN_FLIGHT driver engine hcompleted
  refine ⟨hsubmit, hrecord, ?_⟩
  rw [drawFrame_after_submit _ _ _ hacquire hring hrecord hsubmit] at hcompleted ⊢
  unfold presentFrame at hcompleted ⊢
  dsimp only at hcompleted ⊢
  split
  · rename_i hcond
    rw [if_pos hcond] at hcompleted
    split
    · rename_i herr; simp only [herr] at hcompleted; cases hcompleted
    · exact ⟨[.recreateSwapChain], Or.inr rfl, rfl⟩
  · rename_i hcond
    rw [if_neg hcond] at hcompleted
    split
    · rename_i hfail; rw [if_pos hfail] at hcompleted; cases hcompleted
    · exact ⟨[], Or.inl rfl, by simp⟩

/-- The calls of a `drawFrame` that returns early: wait, acquire, and the
swapchain recreation. -/
theorem drawFrame_returnedEarly_calls (MAX_FRAMES_IN_FLIGHT : Nat) (driver : FrameDriver)
    (engine : EngineState)
    (hearly : (drawFrame MAX_FRAMES_IN_FLIGHT driver engine).outcome = .returnedEarly) :
    (drawFrame MAX_FRAMES_IN_FLIGHT driver engine).calls =
      [.vkWaitForFences engine.m_CurrentFrameIdx,
       .vkAcquireNextImageKHR engine.m_CurrentFrameIdx, .recreateSwapChain] := by
  rcases drawFrame_slot_counter MAX_FRAMES_IN_FLIGHT driver engine with
    ⟨h0, -⟩ | ⟨-, -⟩ | ⟨⟨error, h0⟩, -⟩
  · rw [h0] at hearly; cases hearly
  · by_cases h1 : driver.acquireResult = VK_ERROR_OUT_OF_DATE_KHR
    · unfold drawFrame
      dsimp only
      rw [if_pos h1]
      split <;> rfl
    · exfalso
      unfold drawFrame at hearly
      dsimp only at hearly
      rw [if_neg h1] at hearly
      split at hearly
      · cases hearly
      · split at hearly
        · cases hearly
        · split at hearly
          · cases hearly
          · split at hearly
            · cases hearly
            · unfold presentFrame at hearly
              dsimp only at hearly
              split at hearly
              · split at hearly <;> cases hearly
              · split at hearly <;> cases hearly
  · rw [h0] at hearly; cases hearly

/-- Recording calls copy no uniform buffer. -/
theorem uniformCopies_of_isRecording (calls : List FrameCall)
    (h : ∀ call ∈ calls, call.isRecording = true) : uniformCopies calls = [] := by
  induction calls with
  | nil => rfl
  | cons call rest ih =>
    have hcall := h call (List.mem_cons_self _ _)
    have hrest := ih (fun c hc => h c (List.mem_cons_of_mem _ hc))
    cases call <;> simp_all [uniformCopies, FrameCall.isRecording]

/-- Uniform-buffer copies bind no descriptor set. -/
theorem boundDescriptorSets_of_isUniformWrite (calls : List FrameCall)
    (h : ∀ call ∈ calls, call.isUniformWrite = true) : boundDescriptorSets calls = [] := by
  induction calls with
  | nil => rfl
  | cons call rest ih =>
    have hcall := h call (List.mem_cons_self _ _)
    have hrest := ih (fun c hc => h c (List.mem_cons_of_mem _ hc))
    cases call <;> simp_all [boundDescriptorSets, FrameCall.isUniformWrite]

/-- Projection of the uniform-buffer copies over a concatenation. -/
theorem uniformCopies_append (front back : List FrameCall) :
    uniformCopies (front ++ back) = uniformCopies front ++ uniformCopies back := by
  induction front with
  | nil => rfl
  | cons call rest ih => cases call <;> simp [uniformCopies, ih]

/-- A `drawFrame` that runs to its last statement binds, for each model in
order, the descriptor set at `slot * M + model`, and copies each model's UBO
into the uniform buffer at the same index. -/
theorem drawFrame_completed_ring (MAX_FRAMES_IN_FLIGHT : Nat) (driver : FrameDriver)
    (engine : EngineState)
    (hcompleted : (drawFrame MAX_FRAMES_IN_FLIGHT driver engine).outcome = .completed) :
    boundDescriptorSets (drawFrame MAX_FRAMES_IN_FLIGHT driver engine).calls =
        (List.range engine.m_Models).map
          (fun m => (m, engine.m_CurrentFrameIdx * engine.m_Models + m)) ∧
      uniformCopies (drawFrame MAX_FRAMES_IN_FLIGHT driver engine).calls =
        (List.range engine.m_Models).map
          (fun m => (m, engine.m_CurrentFrameIdx * engine.m_Models + m)) := by
  obtain ⟨-, hrecord, tail, htail, hcalls⟩ :=
    drawFrame_completed_calls MAX_FRAMES_IN_FLIGHT driver engine hcompleted
  rw [hcalls]
  have hb := boundDescriptorSets_recordCommandBuffers driver engine engine.m_CurrentFrameIdx
    driver.imageIndex hrecord
  have hw := boundDescriptorSets_of_isUniformWrite _
    (writeUniformBuffers_isUniformWrite engine engine.m_Models 0)
  have hu := uniformCopies_of_isRecording _
    (recordCommandBuffers_isRecording driver engine engine.m_CurrentFrameIdx driver.imageIndex)
  have hc := uniformCopies_writeUniformBuffers engine engine.m_Models 0
  rcases htail with rfl | rfl <;>
    simp [boundDescriptorSets_append, uniformCopies_append, boundDescriptorSets, uniformCopies,
      hb, hw, hu, hc, List.range_eq_range']

/-- Claim C13: given the descriptor sets as `createDescriptorSets` writes them
for `F` frames in flight and `M` models, and a `drawFrame` in slot `s` that
runs to its last statement, for every model `m < M` the recording binds for
model `m` the descriptor set at index `s * M + m`, that set was written to
refer to the uniform buffer at index `s * M + m`, and that buffer is the one the
frame fills with model `m`'s UBO; the index is below `F * M`, and no other pair
of slot and model gives the same index. -/
theorem descriptor_set_and_uniform_buffer_index_agree (settings : Settings)
    (driver : BundleDriver) (bundle after : SwapChainBundle) (frameDriver : FrameDriver)
    (engine : EngineState)
    (hsets : createDescriptorSets settings driver bundle = .ok after)
    (hmodels : engine.m_Models = bundle.m_Models)
    (hslot : engine.m_CurrentFrameIdx < settings.MAX_FRAMES_IN_FLIGHT)
    (hframe : (drawFrame settings.MAX_FRAMES_IN_FLIGHT frameDriver engine).outcome =
      .completed) :
    ∀ m, m < bundle.m_Models →
      (boundDescriptorSets (drawFrame settings.MAX_FRAMES_IN_FLIGHT frameDriver engine).calls)[m]? =
          some (m, engine.m_CurrentFrameIdx * bundle.m_Models + m) ∧
        after.m_DescriptorSets[engine.m_CurrentFrameIdx * bundle.m_Models + m]? =
          some { uniformBuffer := some (engine.m_CurrentFrameIdx * bundle.m_Models + m),
                 imageSampler := true } ∧
        (uniformCopies (drawFrame settings.MAX_FRAMES_IN_FLIGHT frameDriver engine).calls)[m]? =
          some (m, engine.m_CurrentFrameIdx * bundle.m_Models + m) ∧
        engine.m_CurrentFrameIdx * bundle.m_Models + m <
          settings.MAX_FRAMES_IN_FLIGHT * bundle.m_Models ∧
        after.m_DescriptorSets.length = settings.MAX_FRAMES_IN_FLIGHT * bundle.m_Models ∧
        ∀ s' m', m' < bundle.m_Models →
          s' * bundle.m_Models + m' = engine.m_CurrentFrameIdx * bundle.m_Models + m →
          s' = engine.m_CurrentFrameIdx ∧ m' = m := by
  intro m hm
  obtain ⟨hbound, hcopies⟩ :=
    drawFrame_completed_ring settings.MAX_FRAMES_IN_FLIGHT frameDriver engine hframe
  have hafter := createDescriptorSets_members settings driver bundle after hsets
  obtain ⟨hlen, hwritten⟩ :=
    createDescriptorSets_written settings.MAX_FRAMES_IN_FLIGHT bundle.m_Models
  have hindex := slot_index_lt settings.MAX_FRAMES_IN_FLIGHT bundle.m_Models
    engine.m_CurrentFrameIdx m hslot hm
  rw [hbound, hcopies, hmodels, hafter]
  refine ⟨?_, hwritten _ hindex, ?_, hindex, hlen, fun s' m' hm' h => ?_⟩
  · simp [hm]
  · simp [hm]
  · exact slot_index_injective bundle.m_Models s' m' engine.m_CurrentFrameIdx m hm' hm h

/-- Witness for C13: with two frames in flight and two models, a completed
frame in slot 0 binds sets 0 and 1 and fills buffers 0 and 1, and the sets
written by `createDescriptorSets` refer to the buffers at their own index. -/
theorem descriptor_set_and_uniform_buffer_index_agree_witness :
    createDescriptorSets sampleSettings sampleBundleDriver sampleInitialBundle =
        .ok sampleInitialBundle ∧
      (drawFrame 2 (sampleFrameDriver VK_SUCCESS VK_SUCCESS) sampleEngine).outcome =
        .completed ∧
      boundDescriptorSets
          (drawFrame 2 (sampleFrameDriver VK_SUCCESS VK_SUCCESS) sampleEngine).calls =
        [(0, 0), (1, 1)] ∧
      uniformCopies (drawFrame 2 (sampleFrameDriver VK_SUCCESS VK_SUCCESS) sampleEngine).calls =
        [(0, 0), (1, 1)] ∧
      sampleInitialBundle.m_DescriptorSets[sampleEngine.m_CurrentFrameIdx * 2 + 1]? =
        some { uniformBuffer := some (sampleEngine.m_CurrentFrameIdx * 2 + 1),
               imageSampler := true } :=
  ⟨rfl, rfl, by decide, by decide,
   (descriptor_set_and_uniform_buffer_index_agree sampleSettings sampleBundleDriver
     sampleInitialBundle sampleInitialBundle (sampleFrameDriver VK_SUCCESS VK_SUCCESS)
     sampleEngine rfl rfl (by decide) rfl 1 (by decide)).2.1⟩

/-- Claim C14: after `initVulkan` and after every `recreateSwapChain` that
succeed, with `F` frames in flight and `M` models, the vectors of uniform
buffers, of their memories, of their mapped pointers and of descriptor sets
each hold `F * M` entries, and, `F * M` fitting the `uint32_t` fields of the
create-info, the descriptor pool was created with `maxSets = F * M` and two
pool sizes, one per descriptor type, each with a descriptor count of `F * M`; a
recreation starts from any earlier state and leaves the number of models
unchanged, so the counts do not grow from one recreation to the next. -/
theorem rings_hold_frames_times_models (settings : Settings) (device : PhysicalDevice)
    (driver : BundleDriver) :
    (∀ (numModels m_MSAASamples : Nat) (after : SwapChainBundle),
        SwapChainBundle.initVulkan settings device driver numModels
          (SwapChainBundle.constructed m_MSAASamples) = .ok after →
        after.m_Models = numModels ∧
          after.m_UniformBuffers = settings.MAX_FRAMES_IN_FLIGHT * numModels ∧
          after.m_UniformBuffersMemory = settings.MAX_FRAMES_IN_FLIGHT * numModels ∧
          after.m_UniformBuffersMapped = settings.MAX_FRAMES_IN_FLIGHT * numModels ∧
          after.m_DescriptorSets.length = settings.MAX_FRAMES_IN_FLIGHT * numModels ∧
          (settings.MAX_FRAMES_IN_FLIGHT * numModels < 2 ^ 32 →
            after.m_DescriptorPool = some
              { poolSizes :=
                  [{ type := VK_DESCRIPTOR_TYPE_UNIFORM_BUFFER,
                     descriptorCount := settings.MAX_FRAMES_IN_FLIGHT * numModels },
                   { type := VK_DESCRIPTOR_TYPE_COMBINED_IMAGE_SAMPLER,
                     descriptorCount := settings.MAX_FRAMES_IN_FLIGHT * numModels }],
                maxSets := settings.MAX_FRAMES_IN_FLIGHT * numModels })) ∧
      (∀ (bundle after : SwapChainBundle),
        SwapChainBundle.recreateSwapChain settings device driver bundle = .ok after →
        after.m_Models = bundle.m_Models ∧
          after.m_UniformBuffers = settings.MAX_FRAMES_IN_FLIGHT * bundle.m_Models ∧
          after.m_UniformBuffersMemory = settings.MAX_FRAMES_IN_FLIGHT * bundle.m_Models ∧
          after.m_UniformBuffersMapped = settings.MAX_FRAMES_IN_FLIGHT * bundle.m_Models ∧
          after.m_DescriptorSets.length = settings.MAX_FRAMES_IN_FLIGHT * bundle.m_Models ∧
          (settings.MAX_FRAMES_IN_FLIGHT * bundle.m_Models < 2 ^ 32 →
            after.m_DescriptorPool = some
              { poolSizes :=
                  [{ type := VK_DESCRIPTOR_TYPE_UNIFORM_BUFFER,
                     descriptorCount := settings.MAX_FRAMES_IN_FLIGHT * bundle.m_Models },
                   { type := VK_DESCRIPTOR_TYPE_COMBINED_IMAGE_SAMPLER,
                     descriptorCount := settings.MAX_FRAMES_IN_FLIGHT * bundle.m_Models }],
                maxSets := settings.MAX_FRAMES_IN_FLIGHT * bundle.m_Models })) := by
  refine ⟨fun numModels m_MSAASamples after h => ?_, fun bundle after h => ?_⟩
  · obtain ⟨created, -, rfl⟩ := initVulkan_members _ _ _ _ _ _ h
    refine ⟨rfl, rfl, rfl, rfl,
      (createDescriptorSets_written settings.MAX_FRAMES_IN_FLIGHT numModels).1, fun hsmall => ?_⟩
    simp only [Nat.mod_eq_of_lt hsmall]
  · obtain ⟨created, -, rfl⟩ := recreateSwapChain_members _ _ _ _ _ h
    refine ⟨rfl, rfl, rfl, rfl,
      (createDescriptorSets_written settings.MAX_FRAMES_IN_FLIGHT bundle.m_Models).1,
      fun hsmall => ?_⟩
    simp only [Nat.mod_eq_of_lt hsmall]

/-- Witness for C14: with two frames in flight and two models, `initVulkan`
leaves four of each, and a recreation from there leaves four of each again,
with a pool for four sets. -/
theorem rings_hold_frames_times_models_witness :
    SwapChainBundle.initVulkan sampleSettings sampleSuitableDevice sampleBundleDriver 2
        (SwapChainBundle.constructed 4) = .ok sampleInitialBundle ∧
      SwapChainBundle.recreateSwapChain sampleSettings sampleSuitableDevice sampleBundleDriver
        sampleInitialBundle = .ok sampleRecreatedBundle ∧
      sampleInitialBundle.m_UniformBuffers = 2 * 2 ∧
      sampleRecreatedBundle.m_DescriptorSets.length = 2 * sampleInitialBundle.m_Models ∧
      sampleRecreatedBundle.m_DescriptorPool = some
        { poolSizes :=
            [{ type := VK_DESCRIPTOR_TYPE_UNIFORM_BUFFER,
               descriptorCount := 2 * sampleInitialBundle.m_Models },
             { type := VK_DESCRIPTOR_TYPE_COMBINED_IMAGE_SAMPLER,
               descriptorCount := 2 * sampleInitialBundle.m_Models }],
          maxSets := 2 * sampleInitialBundle.m_Models } :=
  ⟨rfl, rfl,
   ((rings_hold_frames_times_models sampleSettings sampleSuitableDevice sampleBundleDriver).1
     2 4 sampleInitialBundle rfl).2.1,
   ((rings_hold_frames_times_models sampleSettings sampleSuitableDevice sampleBundleDriver).2
     sampleInitialBundle sampleRecreatedBundle rfl).2.2.2.2.1,
   ((rings_hold_frames_times_models sampleSettings sampleSuitableDevice sampleBundleDriver).2
     sampleInitialBundle sampleRecreatedBundle rfl).2.2.2.2.2 (by decide)⟩

/-- The fences after a concatenation of calls are those after the second part,
started from the fences after the first. -/
theorem fencesAfterCalls_append (driver : FrameDriver) (front back : List FrameCall) :
    ∀ fences : List FenceState,
      fencesAfterCalls driver (front ++ back) fences =
        (fencesAfterCalls driver front fences).bind (fencesAfterCalls driver back) := by
  induction front with
  | nil => intro fences; rfl
  | cons call rest ih =>
    intro fences
    simp only [List.cons_append, fencesAfterCalls]
    cases fenceStep driver fences call with
    | none => rfl
    | some next => exact ih next

/-- Recording calls and uniform-buffer copies leave the fences as they are. -/
theorem fencesAfterCalls_neutral (driver : FrameDriver) (calls : List FrameCall)
    (h : ∀ call ∈ calls, call.isRecording = true ∨ call.isUniformWrite = true) :
    ∀ fences : List FenceState, fencesAfterCalls driver calls fences = some fences := by
  induction calls with
  | nil => intro fences; rfl
  | cons call rest ih =>
    intro fences
    have hcall := h call (List.mem_cons_self _ _)
    have hrest := ih (fun c hc => h c (List.mem_cons_of_mem _ hc))
    have hstep : fenceStep driver fences call = some fences := by
      cases call <;> simp_all [fenceStep, FrameCall.isRecording, FrameCall.isUniformWrite]
    simp only [fencesAfterCalls, hstep]
    exact hrest fences

/-- Storing at a position the value already there changes nothing. -/
theorem set_getElem_same (fences : List FenceState) (slot : Nat) (hslot : slot < fences.length) :
    fences.set slot fences[slot] = fences := by
  apply List.ext_getElem?
  intro k
  rw [List.getElem?_set]
  by_cases hk : slot = k
  · subst hk
    simp [hslot]
  · rw [if_neg hk]

/-- A wait on a fence that is signaled or has a pending submission returns, and
the fence is signaled afterwards. -/
theorem fenceStep_wait (driver : FrameDriver) (fences : List FenceState) (slot : Nat)
    (hslot : slot < fences.length) (hready : ∀ fence ∈ fences, fence ≠ .unsignaled) :
    fenceStep driver fences (.vkWaitForFences slot) = some (fences.set slot .signaled) := by
  have hget : fences[slot]? = some fences[slot] := List.getElem?_eq_getElem hslot
  have hne : fences[slot] ≠ .unsignaled := hready _ (List.getElem_mem hslot)
  cases hstate : fences[slot] with
  | signaled =>
    rw [hstate] at hget
    simp only [fenceStep, hget]
    congr 1
    rw [← hstate, set_getElem_same fences slot hslot]
  | pending =>
    rw [hstate] at hget
    simp only [fenceStep, hget]
  | unsignaled => exact absurd hstate hne

/-- The fences after the calls of a frame up to the reset of its command
buffer: the fence of the slot is unsignaled. -/
theorem fencesAfterCalls_reset (driver : FrameDriver) (fences : List FenceState)
    (slot : Nat) (hslot : slot < fences.length)
    (hready : ∀ fence ∈ fences, fence ≠ .unsignaled) :
    fencesAfterCalls driver
        ([.vkWaitForFences slot, .vkAcquireNextImageKHR slot] ++
          [.vkResetFences slot, .vkResetCommandBuffer slot]) fences =
      some (fences.set slot .unsignaled) := by
  simp only [List.cons_append, List.nil_append, fencesAfterCalls,
    fenceStep_wait driver fences slot hslot hready]
  simp [fenceStep, hslot, List.getElem?_set, List.set_set]

/-- The fences after a successful submission, the presentation and possibly a
swapchain recreation, started with the fence of the slot unsignaled. -/
theorem fencesAfterCalls_submit (driver : FrameDriver) (fences : List FenceState)
    (slot imageIndex : Nat) (hslot : slot < fences.length)
    (hsubmit : driver.submitResult = VK_SUCCESS) (tail : List FrameCall)
    (htail : tail = [] ∨ tail = [.recreateSwapChain]) :
    ∃ next, fencesAfterCalls driver
        ([.vkQueueSubmit slot slot slot slot] ++ [.vkQueuePresentKHR slot imageIndex] ++ tail)
        (fences.set slot .unsignaled) = some next ∧
      ((tail = [] ∧ next = fences.set slot .pending) ∨
        (tail = [.recreateSwapChain] ∧
          next = (fences.set slot .pending).map
            (fun fence => if fence = .pending then .signaled else fence))) := by
  rcases htail with rfl | rfl
  · refine ⟨fences.set slot .pending, ?_, Or.inl ⟨rfl, rfl⟩⟩
    simp [fencesAfterCalls, fenceStep, hsubmit, hslot, List.getElem?_set, List.set_set]
  · refine ⟨_, ?_, Or.inr ⟨rfl, rfl⟩⟩
    simp [fencesAfterCalls, fenceStep, hsubmit, hslot, List.getElem?_set, List.set_set]

/-- Setting one fence to a state other than unsignaled keeps every fence
signaled or pending. -/
theorem ready_set (fences : List FenceState) (slot : Nat) (state : FenceState)
    (hstate : state ≠ .unsignaled) (hready : ∀ fence ∈ fences, fence ≠ .unsignaled) :
    ∀ fence ∈ fences.set slot state, fence ≠ .unsignaled := by
  intro fence hmem
  rcases List.mem_or_eq_of_mem_set hmem with h | h
  · exact hready fence h
  · rw [h]; exact hstate

/-- Letting the pending submissions complete keeps every fence signaled or
pending. -/
theorem ready_idle (fences : List FenceState)
    (hready : ∀ fence ∈ fences, fence ≠ .unsignaled) :
    ∀ fence ∈ fences.map (fun fence => if fence = .pending then .signaled else fence),
      fence ≠ .unsignaled := by
  intro fence hmem
  rw [List.mem_map] at hmem
  obtain ⟨before, hbefore, rfl⟩ := hmem
  have := hready before hbefore
  cases before <;> simp_all

/-- The fences after a whole frame that submits: the fence of the slot is
pending, or signaled again when the frame ends with a swapchain recreation, and
every fence is signaled or pending. -/
theorem fencesAfterCalls_frame (driver : FrameDriver) (fences : List FenceState)
    (slot imageIndex : Nat) (recorded copied tail : List FrameCall)
    (hslot : slot < fences.length) (hready : ∀ fence ∈ fences, fence ≠ .unsignaled)
    (hrecorded : ∀ call ∈ recorded, call.isRecording = true)
    (hcopied : ∀ call ∈ copied, call.isUniformWrite = true)
    (hsubmit : driver.submitResult = VK_SUCCESS)
    (htail : tail = [] ∨ tail = [.recreateSwapChain]) :
    ∃ next, fencesAfterCalls driver
        ([.vkWaitForFences slot, .vkAcquireNextImageKHR slot] ++
          [.vkResetFences slot, .vkResetCommandBuffer slot] ++ recorded ++ copied ++
          [.vkQueueSubmit slot slot slot slot] ++ [.vkQueuePresentKHR slot imageIndex] ++ tail)
        fences = some next ∧
      next.length = fences.length ∧ ∀ fence ∈ next, fence ≠ .unsignaled := by
  have hshape : [FrameCall.vkWaitForFences slot, .vkAcquireNextImageKHR slot] ++
        [.vkResetFences slot, .vkResetCommandBuffer slot] ++ recorded ++ copied ++
        [.vkQueueSubmit slot slot slot slot] ++ [.vkQueuePresentKHR slot imageIndex] ++ tail =
      ([.vkWaitForFences slot, .vkAcquireNextImageKHR slot] ++
        [.vkResetFences slot, .vkResetCommandBuffer slot]) ++
        ((recorded ++ copied) ++
          ([.vkQueueSubmit slot slot slot slot] ++ [.vkQueuePresentKHR slot imageIndex] ++
            tail)) := by
    simp only [List.append_assoc]
  have hneutral : ∀ call ∈ recorded ++ copied,
      call.isRecording = true ∨ call.isUniformWrite = true := by
    intro call hcall
    rw [List.mem_append] at hcall
    rcases hcall with h | h
    · exact Or.inl (hrecorded call h)
    · exact Or.inr (hcopied call h)
  obtain ⟨next, hnext, hcases⟩ :=
    fencesAfterCalls_submit driver fences slot imageIndex hslot hsubmit tail htail
  refine ⟨next, ?_, ?_, ?_⟩
  · rw [hshape, fencesAfterCalls_append, fencesAfterCalls_reset driver fences slot hslot hready,
      Option.some_bind, fencesAfterCalls_append, fencesAfterCalls_neutral driver _ hneutral,
      Option.some_bind, hnext]
  · rcases hcases with ⟨-, rfl⟩ | ⟨-, rfl⟩ <;> simp
  · rcases hcases with ⟨-, rfl⟩ | ⟨-, rfl⟩
    · exact ready_set fences slot .pending (by decide) hready
    · exact ready_idle _ (ready_set fences slot .pending (by decide) hready)

/-- The fences after a frame that returns early at an out-of-date acquisition:
the fence of the slot is signaled and every fence is signaled or pending. -/
theorem fencesAfterCalls_returnedEarly (driver : FrameDriver) (fences : List FenceState)
    (slot : Nat) (hslot : slot < fences.length)
    (hready : ∀ fence ∈ fences, fence ≠ .unsignaled) :
    ∃ next, fencesAfterCalls driver
        [.vkWaitForFences slot, .vkAcquireNextImageKHR slot, .recreateSwapChain] fences =
        some next ∧
      next.length = fences.length ∧ (∀ fence ∈ next, fence ≠ .unsignaled) ∧
      next[slot]? = some .signaled := by
  refine ⟨(fences.set slot .signaled).map
    (fun fence => if fence = .pending then .signaled else fence), ?_, by simp,
    ready_idle _ (ready_set fences slot .signaled (by decide) hready), ?_⟩
  · simp only [fencesAfterCalls, fenceStep_wait driver fences slot hslot hready]
    rfl
  · simp [List.getElem?_map, List.getElem?_set, hslot]

/-- The fences after one `drawFrame` that returns: tracking succeeds, every
fence is signaled or pending, and after an early return the fence of the slot
is signaled. -/
theorem drawFrame_fences (MAX_FRAMES_IN_FLIGHT : Nat) (driver : FrameDriver)
    (engine : EngineState) (fences : List FenceState)
    (hslot : engine.m_CurrentFrameIdx < fences.length)
    (hready : ∀ fence ∈ fences, fence ≠ .unsignaled)
    (hreturns : ∀ error, (drawFrame MAX_FRAMES_IN_FLIGHT driver engine).outcome ≠
      .fatal error) :
    ∃ next, fencesAfterCalls driver (drawFrame MAX_FRAMES_IN_FLIGHT driver engine).calls
        fences = some next ∧
      next.length = fences.length ∧ (∀ fence ∈ next, fence ≠ .unsignaled) ∧
      ((drawFrame MAX_FRAMES_IN_FLIGHT driver engine).outcome = .returnedEarly →
        next[engine.m_CurrentFrameIdx]? = some .signaled) := by
  rcases drawFrame_slot_counter MAX_FRAMES_IN_FLIGHT driver engine with
    ⟨h0, -⟩ | ⟨h0, -⟩ | ⟨⟨error, h0⟩, -⟩
  · obtain ⟨hsubmit, -, tail, htail, hcalls⟩ :=
      drawFrame_completed_calls MAX_FRAMES_IN_FLIGHT driver engine h0
    obtain ⟨next, hnext, hlen, hnextReady⟩ :=
      fencesAfterCalls_frame driver fences engine.m_CurrentFrameIdx driver.imageIndex
        (recordCommandBuffers driver engine engine.m_CurrentFrameIdx driver.imageIndex).1
        (writeUniformBuffers engine engine.m_Models 0) tail hslot hready
        (recordCommandBuffers_isRecording driver engine _ _)
        (writeUniformBuffers_isUniformWrite engine _ _) hsubmit htail
    refine ⟨next, ?_, hlen, hnextReady, fun h => ?_⟩
    · rw [hcalls]; exact hnext
    · rw [h0] at h; cases h
  · obtain ⟨next, hnext, hlen, hnextReady, hsignaled⟩ :=
      fencesAfterCalls_returnedEarly driver fences engine.m_CurrentFrameIdx hslot hready
    refine ⟨next, ?_, hlen, hnextReady, fun _ => hsignaled⟩
    rw [drawFrame_returnedEarly_calls MAX_FRAMES_IN_FLIGHT driver engine h0]; exact hnext
  · exact absurd h0 (hreturns error)

/-- A `drawFrame` that returns resets no fence but the one of its slot, and
then only when it goes on to submit successfully with that fence. -/
theorem drawFrame_reset_then_submit (MAX_FRAMES_IN_FLIGHT : Nat) (driver : FrameDriver)
    (engine : EngineState)
    (hreturns : ∀ error, (drawFrame MAX_FRAMES_IN_FLIGHT driver engine).outcome ≠
      .fatal error)
    (fence : Nat)
    (hreset : .vkResetFences fence ∈ (drawFrame MAX_FRAMES_IN_FLIGHT driver engine).calls) :
    fence = engine.m_CurrentFrameIdx ∧
      .vkQueueSubmit engine.m_CurrentFrameIdx engine.m_CurrentFrameIdx
          engine.m_CurrentFrameIdx engine.m_CurrentFrameIdx ∈
        (drawFrame MAX_FRAMES_IN_FLIGHT driver engine).calls ∧
      driver.submitResult = VK_SUCCESS := by
  rcases drawFrame_slot_counter MAX_FRAMES_IN_FLIGHT driver engine with
    ⟨h0, -⟩ | ⟨h0, -⟩ | ⟨⟨error, h0⟩, -⟩
  · obtain ⟨hsubmit, -, tail, htail, hcalls⟩ :=
      drawFrame_completed_calls MAX_FRAMES_IN_FLIGHT driver engine h0
    rw [hcalls] at hreset ⊢
    refine ⟨?_, by simp, hsubmit⟩
    simp only [List.mem_append, List.mem_cons, List.mem_singleton, List.not_mem_nil,
      or_false] at hreset
    rcases hreset with (((((h | h) | h) | h) | h) | h) | h
    · rcases h with h | h <;> cases h
    · rcases h with h | h
      · injection h
      · cases h
    · have := recordCommandBuffers_isRecording _ _ _ _ _ h
      cases this
    · have := writeUniformBuffers_isUniformWrite _ _ _ _ h
      cases this
    · cases h
    · cases h
    · rcases htail with rfl | rfl
      · cases h
      · simp only [List.mem_singleton] at h; cases h
  · rw [drawFrame_returnedEarly_calls MAX_FRAMES_IN_FLIGHT driver engine h0] at hreset
    simp at hreset
  · exact absurd h0 (hreturns error)

/-- Along a run of the main loop in which every frame returns, the fences can
be tracked to the end and every fence is signaled or pending there. -/
theorem fencesAfterRun_ready (MAX_FRAMES_IN_FLIGHT : Nat) (hF : 0 < MAX_FRAMES_IN_FLIGHT) :
    ∀ (drivers : List FrameDriver) (engine : EngineState) (fences : List FenceState),
      engine.m_CurrentFrameIdx < MAX_FRAMES_IN_FLIGHT →
      fences.length = MAX_FRAMES_IN_FLIGHT →
      (∀ fence ∈ fences, fence ≠ .unsignaled) →
      (∀ result ∈ mainLoop MAX_FRAMES_IN_FLIGHT drivers engine,
        ∀ error, result.outcome ≠ .fatal error) →
      ∃ final, fencesAfterRun MAX_FRAMES_IN_FLIGHT drivers engine fences = some final ∧
        final.length = MAX_FRAMES_IN_FLIGHT ∧ ∀ fence ∈ final, fence ≠ .unsignaled := by
  intro drivers
  induction drivers with
  | nil =>
    intro engine fences _ hlen hready _
    exact ⟨fences, rfl, hlen, hready⟩
  | cons driver rest ih =>
    intro engine fences hslot hlen hready hreturns
    have hfirst : ∀ error, (mainLoopIteration MAX_FRAMES_IN_FLIGHT driver engine).outcome ≠
        .fatal error := by
      apply hreturns
      unfold mainLoop
      dsimp only
      split <;> simp
    have hslot' : (if driver.resizeEvent then framebufferResizeCallback engine
        else engine).m_CurrentFrameIdx < fences.length := by
      rw [hlen]; split <;> exact hslot
    obtain ⟨next, hnext, hnextLen, hnextReady, -⟩ :=
      drawFrame_fences MAX_FRAMES_IN_FLIGHT driver _ fences hslot' hready hfirst
    have hnextSlot : (mainLoopIteration MAX_FRAMES_IN_FLIGHT driver
        engine).engine.m_CurrentFrameIdx < MAX_FRAMES_IN_FLIGHT := by
      rcases mainLoopIteration_slot_counter MAX_FRAMES_IN_FLIGHT driver engine with
        ⟨-, -, h1, -⟩ | ⟨-, -, h1, -⟩ | ⟨-, h1, -⟩
      · exact h1 ▸ Nat.mod_lt _ hF
      · exact h1 ▸ hslot
      · exact h1 ▸ hslot
    have hrest : ∀ result ∈ mainLoop MAX_FRAMES_IN_FLIGHT rest
        (mainLoopIteration MAX_FRAMES_IN_FLIGHT driver engine).engine,
        ∀ error, result.outcome ≠ .fatal error := by
      intro result hmem
      apply hreturns
      unfold mainLoop
      dsimp only
      split
      · rename_i error herror; exact absurd herror (hfirst error)
      · exact List.mem_cons_of_mem _ hmem
    obtain ⟨final, hfinal, hfinalLen, hfinalReady⟩ :=
      ih _ next hnextSlot (hnextLen.trans hlen) hnextReady hrest
    refine ⟨final, ?_, hfinalLen, hfinalReady⟩
    unfold fencesAfterRun
    dsimp only
    have hnext' : fencesAfterCalls driver
        (mainLoopIteration MAX_FRAMES_IN_FLIGHT driver engine).calls fences = some next := hnext
    rw [hnext']
    dsimp only
    split
    · rename_i error herror; exact absurd herror (hfirst error)
    · exact hfinal

/-- Counterexample for C12: a `drawFrame` whose recording fails at
`vkBeginCommandBuffer` has reset the fence of slot 0 and throws without
submitting, so the fence is left unsignaled with no pending submission. -/
theorem drawFrame_recording_failure_leaves_fence_reset :
    (drawFrame 2 sampleRecordingFailureDriver sampleEngine).outcome =
        .fatal .BeginRecordingFailed ∧
      (drawFrame 2 sampleRecordingFailureDriver sampleEngine).calls =
        [.vkWaitForFences 0, .vkAcquireNextImageKHR 0, .vkResetFences 0,
         .vkResetCommandBuffer 0, .vkBeginCommandBuffer 0] ∧
      countCalls FrameCall.isSubmit
        (drawFrame 2 sampleRecordingFailureDriver sampleEngine).calls = 0 ∧
      fencesAfterCalls sampleRecordingFailureDriver
        (drawFrame 2 sampleRecordingFailureDriver sampleEngine).calls (createSyncObjects 2) =
        some [.unsignaled, .signaled] := by
  refine ⟨rfl, rfl, rfl, rfl⟩

/-- Claim C12 (amended): with the fences created signaled, along every run of
the frame loop in which every `drawFrame` returns, the fences can be tracked
through all calls (no wait blocks for ever, every successful submission finds
its fence reset) and at the end every fence is signaled or has a pending
submission.  In any such state the wait of `drawFrame` returns with the fence
of the current slot signaled; a `drawFrame` that returns resets only the fence
of its slot and only when it then submits successfully with that fence, it
leaves every fence signaled or pending, and after an early return at an
out-of-date acquisition the fence of the slot is signaled. -/
theorem frame_loop_fences_signaled_or_pending (MAX_FRAMES_IN_FLIGHT numModels : Nat)
    (allocatedDescriptorSet : Nat → Nat) (drivers : List FrameDriver)
    (hF : 0 < MAX_FRAMES_IN_FLIGHT)
    (hreturns : ∀ result ∈ mainLoop MAX_FRAMES_IN_FLIGHT drivers
        (initialEngine MAX_FRAMES_IN_FLIGHT numModels allocatedDescriptorSet),
      ∀ error, result.outcome ≠ .fatal error) :
    (∃ fences, fencesAfterRun MAX_FRAMES_IN_FLIGHT drivers
          (initialEngine MAX_FRAMES_IN_FLIGHT numModels allocatedDescriptorSet)
          (createSyncObjects MAX_FRAMES_IN_FLIGHT) = some fences ∧
        fences.length = MAX_FRAMES_IN_FLIGHT ∧ ∀ fence ∈ fences, fence ≠ .unsignaled) ∧
      ∀ (driver : FrameDriver) (engine : EngineState) (fences : List FenceState),
        engine.m_CurrentFrameIdx < fences.length →
        (∀ fence ∈ fences, fence ≠ .unsignaled) →
        (∃ waited, fenceStep driver fences (.vkWaitForFences engine.m_CurrentFrameIdx) =
            some waited ∧ waited[engine.m_CurrentFrameIdx]? = some .signaled) ∧
          ((∀ error, (drawFrame MAX_FRAMES_IN_FLIGHT driver engine).outcome ≠ .fatal error) →
            (∀ fence, .vkResetFences fence ∈
                (drawFrame MAX_FRAMES_IN_FLIGHT driver engine).calls →
              fence = engine.m_CurrentFrameIdx ∧
                .vkQueueSubmit engine.m_CurrentFrameIdx engine.m_CurrentFrameIdx
                    engine.m_CurrentFrameIdx engine.m_CurrentFrameIdx ∈
                  (drawFrame MAX_FRAMES_IN_FLIGHT driver engine).calls ∧
                driver.submitResult = VK_SUCCESS) ∧
            ∃ next, fencesAfterCalls driver
                (drawFrame MAX_FRAMES_IN_FLIGHT driver engine).calls fences = some next ∧
              (∀ fence ∈ next, fence ≠ .unsignaled) ∧
              ((drawFrame MAX_FRAMES_IN_FLIGHT driver engine).outcome = .returnedEarly →
                countCalls FrameCall.isFenceReset
                    (drawFrame MAX_FRAMES_IN_FLIGHT driver engine).calls = 0 ∧
                  next[engine.m_CurrentFrameIdx]? = some .signaled)) := by
  refine ⟨?_, fun driver engine fences hslot hready => ⟨?_, fun hframe => ⟨?_, ?_⟩⟩⟩
  · exact fencesAfterRun_ready MAX_FRAMES_IN_FLIGHT hF drivers _ _ hF
      (List.length_replicate _ _)
      (fun fence hmem => by
        rw [createSyncObjects, List.mem_replicate] at hmem
        rw [hmem.2]; decide)
      hreturns
  · refine ⟨_, fenceStep_wait driver fences _ hslot hready, ?_⟩
    simp [List.getElem?_set, hslot]
  · exact fun fence hreset =>
      drawFrame_reset_then_submit MAX_FRAMES_IN_FLIGHT driver engine hframe fence hreset
  · obtain ⟨next, hnext, -, hnextReady, hsignaled⟩ :=
      drawFrame_fences MAX_FRAMES_IN_FLIGHT driver engine fences hslot hready hframe
    refine ⟨next, hnext, hnextReady, fun hearly => ⟨?_, hsignaled hearly⟩⟩
    rw [drawFrame_returnedEarly_calls MAX_FRAMES_IN_FLIGHT driver engine hearly]
    rfl

/-- Witness for C12: two frames in flight, a frame that presents followed by a
frame whose acquisition is out of date; both return, and the fences end
signaled. -/
theorem frame_loop_fences_signaled_or_pending_witness :
    0 < 2 ∧
      (mainLoop 2 [sampleFrameDriver VK_SUCCESS VK_SUCCESS,
          sampleFrameDriver VK_ERROR_OUT_OF_DATE_KHR VK_SUCCESS]
          (initialEngine 2 2 (fun k => k + 1))).map (fun result => result.outcome) =
        [.completed, .returnedEarly] ∧
      fencesAfterRun 2 [sampleFrameDriver VK_SUCCESS VK_SUCCESS,
          sampleFrameDriver VK_ERROR_OUT_OF_DATE_KHR VK_SUCCESS]
          (initialEngine 2 2 (fun k => k + 1)) (createSyncObjects 2) =
        some [.signaled, .signaled] ∧
      fencesAfterRun 2 [sampleFrameDriver VK_SUCCESS VK_SUCCESS]
          (initialEngine 2 2 (fun k => k + 1)) (createSyncObjects 2) =
        some [.pending, .signaled] ∧
      ∃ fences, fencesAfterRun 2 [sampleFrameDriver VK_SUCCESS VK_SUCCESS,
            sampleFrameDriver VK_ERROR_OUT_OF_DATE_KHR VK_SUCCESS]
            (initialEngine 2 2 (fun k => k + 1)) (createSyncObjects 2) = some fences ∧
          fences.length = 2 ∧ ∀ fence ∈ fences, fence ≠ .unsignaled :=
  ⟨by decide, by decide, by decide, by decide,
   (frame_loop_fences_signaled_or_pending 2 2 (fun k => k + 1)
     [sampleFrameDriver VK_SUCCESS VK_SUCCESS,
      sampleFrameDriver VK_ERROR_OUT_OF_DATE_KHR VK_SUCCESS] (by decide)
     (by
       intro result hmem error
       have hlist : mainLoop 2 [sampleFrameDriver VK_SUCCESS VK_SUCCESS,
           sampleFrameDriver VK_ERROR_OUT_OF_DATE_KHR VK_SUCCESS]
           (initialEngine 2 2 (fun k => k + 1)) =
           [mainLoopIteration 2 (sampleFrameDriver VK_SUCCESS VK_SUCCESS)
              (initialEngine 2 2 (fun k => k + 1)),
            mainLoopIteration 2 (sampleFrameDriver VK_ERROR_OUT_OF_DATE_KHR VK_SUCCESS)
              (mainLoopIteration 2 (sampleFrameDriver VK_SUCCESS VK_SUCCESS)
                (initialEngine 2 2 (fun k => k + 1))).engine] := rfl
       rw [hlist] at hmem
       simp only [List.mem_cons, List.mem_singleton, List.not_mem_nil, or_false] at hmem
       rcases hmem with rfl | rfl
       · rw [show (mainLoopIteration 2 (sampleFrameDriver VK_SUCCESS VK_SUCCESS)
           (initialEngine 2 2 (fun k => k + 1))).outcome = FrameOutcome.completed by rfl]
         exact fun h => by cases h
       · rw [show (mainLoopIteration 2 (sampleFrameDriver VK_ERROR_OUT_OF_DATE_KHR VK_SUCCESS)
           (mainLoopIteration 2 (sampleFrameDriver VK_SUCCESS VK_SUCCESS)
             (initialEngine 2 2 (fun k => k + 1))).engine).outcome =
             FrameOutcome.returnedEarly by rfl]
         exact fun h => by cases h)).1⟩

/-- Claim C21 (evaluation at the failing input): with
`ALLOW_DEVICE_WITHOUT_INTEGRATED_GPU` false, `isDeviceSuitable` accepts an
integrated GPU that passes the other checks; the flag has no effect on the
result for any device.  The geometry-shader flag does gate: when it is false a
device without geometry shaders is rejected, and when it is true the
geometry-shader support has no influence. -/
theorem isDeviceSuitable_accepts_non_discrete_gpu :
    sampleIntegratedDevice.deviceType ≠ VK_PHYSICAL_DEVICE_TYPE_DISCRETE_GPU ∧
      isDeviceSuitable false false sampleIntegratedDevice = .ok true ∧
      (∀ (ALLOW_DEVICE_WITHOUT_GEOMETRY_SHADER : Bool) (device : PhysicalDevice),
        isDeviceSuitable false ALLOW_DEVICE_WITHOUT_GEOMETRY_SHADER device =
          isDeviceSuitable true ALLOW_DEVICE_WITHOUT_GEOMETRY_SHADER device) ∧
      (∀ (ALLOW_DEVICE_WITHOUT_INTEGRATED_GPU : Bool) (device : PhysicalDevice),
        isDeviceSuitable ALLOW_DEVICE_WITHOUT_INTEGRATED_GPU false
          { device with geometryShader := false } = .ok false) ∧
      (∀ (ALLOW_DEVICE_WITHOUT_INTEGRATED_GPU geometryShader : Bool)
          (device : PhysicalDevice),
        isDeviceSuitable ALLOW_DEVICE_WITHOUT_INTEGRATED_GPU true
            { device with geometryShader := geometryShader } =
          isDeviceSuitable ALLOW_DEVICE_WITHOUT_INTEGRATED_GPU true device) :=
  ⟨by decide, rfl, fun _ _ => rfl, fun _ _ => rfl, fun _ _ _ => rfl⟩

/-- Erasing the offered names one by one from a duplicate-free list of required
names leaves nothing exactly when every required name is offered. -/
theorem foldl_erase_isEmpty (availableExtensions : List String) :
    ∀ requiredExtensions : List String, requiredExtensions.Nodup →
      ((availableExtensions.foldl (fun requiredExtensions extensionName =>
          requiredExtensions.erase extensionName) requiredExtensions).isEmpty = true ↔
        ∀ name ∈ requiredExtensions, name ∈ availableExtensions) := by
  induction availableExtensions with
  | nil =>
    intro requiredExtensions _
    cases requiredExtensions with
    | nil => simp
    | cons first rest =>
      constructor
      · intro h; simp at h
      · intro h; exact absurd (h first (List.mem_cons_self _ _)) (List.not_mem_nil _)
  | cons offered others ih =>
    intro requiredExtensions hnodup
    rw [List.foldl_cons, ih _ (hnodup.erase offered)]
    constructor
    · intro h name hname
      by_cases hoffered : name = offered
      · rw [hoffered]; exact List.mem_cons_self _ _
      · exact List.mem_cons_of_mem _ (h name (hnodup.mem_erase_iff.mpr ⟨hoffered, hname⟩))
    · intro h name hname
      obtain ⟨hne, hmem⟩ := hnodup.mem_erase_iff.mp hname
      rcases List.mem_cons.mp (h name hmem) with heq | hrest
      · exact absurd heq hne
      · exact hrest

/-- The test of `validateExtensions` holds exactly when every required name
is the name of a supported extension. -/
theorem validateExtensions_iff (supported_extensions required_extensions : List String) :
    validateExtensions supported_extensions required_extensions = true ↔
      ∀ name ∈ required_extensions, name ∈ supported_extensions := by
  unfold validateExtensions
  simp only [List.all_eq_true, List.any_eq_true, beq_iff_eq]
  constructor
  · intro h name hname
    obtain ⟨supported, hmem, heq⟩ := h name hname
    rw [← heq]; exact hmem
  · intro h name hname
    exact ⟨name, h name hname, rfl⟩

/-- Claim C22: for every list of available extension names,
`checkDeviceExtensionSupport` returns true exactly when every required device
extension name occurs among them; `validateExtensions` returns true exactly
when every required name is the name of some supported extension, and so
returns true for an empty required list; and on the required device extensions
the set-erase and the `all_of`/`any_of` formulation give the same answer. -/
theorem extension_checks_decide_containment (availableExtensions : List String) :
    (checkDeviceExtensionSupport availableExtensions = true ↔
        ∀ name ∈ deviceExtensions, name ∈ availableExtensions) ∧
      (∀ required_extensions : List String,
        (validateExtensions availableExtensions required_extensions = true ↔
          ∀ name ∈ required_extensions,
            ∃ supported ∈ availableExtensions, supported = name)) ∧
      validateExtensions availableExtensions [] = true ∧
      checkDeviceExtensionSupport availableExtensions =
        validateExtensions availableExtensions deviceExtensions := by
  have hcheck : checkDeviceExtensionSupport availableExtensions = true ↔
      ∀ name ∈ deviceExtensions, name ∈ availableExtensions := by
    unfold checkDeviceExtensionSupport
    rw [foldl_erase_isEmpty availableExtensions _ (List.nodup_dedup _)]
    simp only [List.mem_dedup]
  refine ⟨hcheck, fun required_extensions => ?_, rfl, ?_⟩
  · rw [validateExtensions_iff]
    constructor
    · intro h name hname; exact ⟨name, h name hname, rfl⟩
    · intro h name hname
      obtain ⟨supported, hmem, heq⟩ := h name hname
      rw [← heq]; exact hmem
  · rw [Bool.eq_iff_iff, hcheck, validateExtensions_iff]

/-- Claim C23: for every non-empty list of available surface formats,
`chooseSwapSurfaceFormat` returns a member of the list: the first entry whose
format and colour space both equal the preferred tuple when there is such an
entry, every entry before it differing from the tuple, and the first entry of
the list when there is none. -/
theorem chooseSwapSurfaceFormat_preferred_or_first
    (PREFERRED_SURFACE_FORMAT : VkSurfaceFormatKHR)
    (availableFormats : List VkSurfaceFormatKHR) (hnonempty : availableFormats ≠ []) :
    ∃ chosen, chooseSwapSurfaceFormat PREFERRED_SURFACE_FORMAT availableFormats = some chosen ∧
      chosen ∈ availableFormats ∧
      ((∃ entry ∈ availableFormats, entry.format = PREFERRED_SURFACE_FORMAT.format ∧
          entry.colorSpace = PREFERRED_SURFACE_FORMAT.colorSpace) →
        chosen.format = PREFERRED_SURFACE_FORMAT.format ∧
          chosen.colorSpace = PREFERRED_SURFACE_FORMAT.colorSpace ∧
          ∃ front back, availableFormats = front ++ chosen :: back ∧
            ∀ entry ∈ front, ¬ (entry.format = PREFERRED_SURFACE_FORMAT.format ∧
              entry.colorSpace = PREFERRED_SURFACE_FORMAT.colorSpace)) ∧
      ((∀ entry ∈ availableFormats, ¬ (entry.format = PREFERRED_SURFACE_FORMAT.format ∧
          entry.colorSpace = PREFERRED_SURFACE_FORMAT.colorSpace)) →
        availableFormats.head? = some chosen) := by
  unfold chooseSwapSurfaceFormat
  cases hfind : availableFormats.find? (fun availableFormat =>
      availableFormat.format == PREFERRED_SURFACE_FORMAT.format &&
        availableFormat.colorSpace == PREFERRED_SURFACE_FORMAT.colorSpace) with
  | some found =>
    obtain ⟨hmatch, front, back, hsplit, hfront⟩ := List.find?_eq_some.mp hfind
    simp only [Bool.and_eq_true, beq_iff_eq] at hmatch
    refine ⟨found, rfl, List.mem_of_find?_eq_some hfind,
      fun _ => ⟨hmatch.1, hmatch.2, front, back, hsplit, fun entry hentry => ?_⟩,
      fun hnone => ?_⟩
    · intro hboth
      have := hfront entry hentry
      simp [hboth.1, hboth.2] at this
    · exact absurd hmatch (hnone found (List.mem_of_find?_eq_some hfind))
  | none =>
    have hnone := List.find?_eq_none.mp hfind
    cases availableFormats with
    | nil => exact absurd rfl hnonempty
    | cons first rest =>
      refine ⟨first, by simp, List.mem_cons_self _ _, fun hsome => ?_, fun _ => rfl⟩
      obtain ⟨entry, hentry, h1, h2⟩ := hsome
      have := hnone entry hentry
      simp [h1, h2] at this

/-- Witness for C23: of two formats the second is the preferred one and is
chosen; without a preferred one the first is chosen. -/
theorem chooseSwapSurfaceFormat_preferred_or_first_witness :
    chooseSwapSurfaceFormat samplePreferredFormat
        [{ format := 44, colorSpace := 0 }, { format := 50, colorSpace := 0 }] =
        some { format := 50, colorSpace := 0 } ∧
      chooseSwapSurfaceFormat samplePreferredFormat
        [{ format := 44, colorSpace := 0 }, { format := 37, colorSpace := 0 }] =
        some { format := 44, colorSpace := 0 } ∧
      ∃ chosen, chooseSwapSurfaceFormat samplePreferredFormat
          [{ format := 44, colorSpace := 0 }, { format := 50, colorSpace := 0 }] =
          some chosen ∧
        chosen ∈ [({ format := 44, colorSpace := 0 } : VkSurfaceFormatKHR),
          { format := 50, colorSpace := 0 }] :=
  ⟨rfl, rfl,
   (chooseSwapSurfaceFormat_preferred_or_first samplePreferredFormat
     [{ format := 44, colorSpace := 0 }, { format := 50, colorSpace := 0 }]
     (by simp)).imp (fun _ h => ⟨h.1, h.2.1⟩)⟩

/-- Claim C24: for every list of available present modes,
`chooseSwapPresentMode` fails with `NoPresentModes` exactly when the list is
empty; otherwise it returns a member of the list, `VK_PRESENT_MODE_MAILBOX_KHR`
when that occurs anywhere in the list and the first entry when it does not. -/
theorem chooseSwapPresentMode_mailbox_or_first (availablePresentModes : List Nat) :
    (chooseSwapPresentMode availablePresentModes = .error .NoPresentModes ↔
        availablePresentModes = []) ∧
      (availablePresentModes ≠ [] →
        ∃ chosen, chooseSwapPresentMode availablePresentModes = .ok chosen ∧
          chosen ∈ availablePresentModes ∧
          (VK_PRESENT_MODE_MAILBOX_KHR ∈ availablePresentModes →
            chosen = VK_PRESENT_MODE_MAILBOX_KHR) ∧
          (VK_PRESENT_MODE_MAILBOX_KHR ∉ availablePresentModes →
            availablePresentModes.head? = some chosen)) := by
  cases availablePresentModes with
  | nil => exact ⟨by simp [chooseSwapPresentMode], fun h => absurd rfl h⟩
  | cons first rest =>
    unfold chooseSwapPresentMode
    dsimp only
    cases hfind : (first :: rest).find? (fun availablePresentMode =>
        availablePresentMode == VK_PRESENT_MODE_MAILBOX_KHR) with
    | some found =>
      have hfound : found = VK_PRESENT_MODE_MAILBOX_KHR := by
        have := List.find?_some hfind
        simpa using this
      refine ⟨by simp, fun _ => ⟨found, rfl, List.mem_of_find?_eq_some hfind,
        fun _ => hfound, fun habsent => ?_⟩⟩
      exact absurd (hfound ▸ List.mem_of_find?_eq_some hfind) habsent
    | none =>
      have hnone := List.find?_eq_none.mp hfind
      refine ⟨by simp, fun _ => ⟨first, rfl, List.mem_cons_self _ _, fun hmem => ?_,
        fun _ => rfl⟩⟩
      have := hnone _ hmem
      simp at this

/-- Witness for C24: mailbox listed second is chosen; without mailbox the first
entry is chosen. -/
theorem chooseSwapPresentMode_mailbox_or_first_witness :
    chooseSwapPresentMode [2, 1, 0] = .ok 1 ∧ chooseSwapPresentMode [2, 0] = .ok 2 ∧
      chooseSwapPresentMode [] = .error .NoPresentModes ∧
      ∃ chosen, chooseSwapPresentMode [2, 1, 0] = .ok chosen ∧ chosen ∈ [2, 1, 0] :=
  ⟨rfl, rfl, rfl,
   ((chooseSwapPresentMode_mailbox_or_first [2, 1, 0]).2 (by simp)).imp
     (fun _ h => ⟨h.1, h.2.1⟩)⟩

/-- Under optimal tiling `findSupportedFormat` is the search for the first
candidate whose optimal-tiling features contain the requested bits. -/
theorem findSupportedFormat_optimal (formatProperties : Nat → VkFormatProperties)
    (features : Nat) :
    ∀ candidates : List Nat,
      findSupportedFormat formatProperties candidates VK_IMAGE_TILING_OPTIMAL features =
        match candidates.find? (fun format =>
          (formatProperties format).optimalTilingFeatures &&& features == features) with
        | some format => .ok format
        | none => .error .NoSupportedFormat := by
  intro candidates
  induction candidates with
  | nil => rfl
  | cons format rest ih =>
    unfold findSupportedFormat
    dsimp only
    rw [if_neg (by decide), if_pos rfl, List.find?_cons]
    by_cases h : (formatProperties format).optimalTilingFeatures &&& features = features
    · rw [if_pos h]
      have hb : ((formatProperties format).optimalTilingFeatures &&& features == features) =
          true := by simpa using h
      rw [hb]
    · rw [if_neg h, ih]
      have hb : ((formatProperties format).optimalTilingFeatures &&& features == features) =
          false := by simpa using h
      rw [hb]

/-- Under linear tiling `findSupportedFormat` is the search for the first
candidate whose linear-tiling features contain the requested bits. -/
theorem findSupportedFormat_linear (formatProperties : Nat → VkFormatProperties)
    (features : Nat) :
    ∀ candidates : List Nat,
      findSupportedFormat formatProperties candidates VK_IMAGE_TILING_LINEAR features =
        match candidates.find? (fun format =>
          (formatProperties format).linearTilingFeatures &&& features == features) with
        | some format => .ok format
        | none => .error .NoSupportedFormat := by
  intro candidates
  induction candidates with
  | nil => rfl
  | cons format rest ih =>
    unfold findSupportedFormat
    dsimp only
    rw [if_pos rfl, List.find?_cons]
    by_cases h : (formatProperties format).linearTilingFeatures &&& features = features
    · rw [if_pos h]
      have hb : ((formatProperties format).linearTilingFeatures &&& features == features) =
          true := by simpa using h
      rw [hb]
    · rw [if_neg h, ih]
      have hb : ((formatProperties format).linearTilingFeatures &&& features == features) =
          false := by simpa using h
      rw [hb]

/-- A search reported as in `findSupportedFormat` returns a format exactly when
it is the first one passing the test, and fails exactly when none passes. -/
theorem find_first_iff (test : Nat → Bool) (candidates : List Nat) :
    (∀ format, (match candidates.find? test with
        | some found => (Except.ok found : Except SetupError Nat)
        | none => .error .NoSupportedFormat) = .ok format ↔
        test format = true ∧ ∃ front back, candidates = front ++ format :: back ∧
          ∀ earlier ∈ front, test earlier = false) ∧
      ((match candidates.find? test with
        | some found => (Except.ok found : Except SetupError Nat)
        | none => .error .NoSupportedFormat) = .error .NoSupportedFormat ↔
        ∀ format ∈ candidates, test format = false) := by
  cases hfind : candidates.find? test with
  | some found =>
    refine ⟨fun format => ?_, ?_⟩
    · constructor
      · intro h
        injection h with h
        subst h
        obtain ⟨h1, front, back, h2, h3⟩ := List.find?_eq_some.mp hfind
        exact ⟨h1, front, back, h2, fun earlier he => by simpa using h3 earlier he⟩
      · rintro ⟨h1, front, back, h2, h3⟩
        have : candidates.find? test = some format :=
          List.find?_eq_some.mpr ⟨h1, front, back, h2, fun earlier he => by simp [h3 earlier he]⟩
        rw [hfind] at this
        injection this with this
        rw [this]
    · constructor
      · intro h; cases h
      · intro h
        have := h found (List.mem_of_find?_eq_some hfind)
        rw [List.find?_some hfind] at this
        cases this
  | none =>
    have hnone := List.find?_eq_none.mp hfind
    refine ⟨fun format => ?_, ?_⟩
    · constructor
      · intro h; cases h
      · rintro ⟨h1, front, back, h2, -⟩
        have := hnone format (by rw [h2]; simp)
        exact absurd h1 this
    · constructor
      · intro _ format hmem
        simpa using hnone format hmem
      · intro _; rfl

/-- Claim C25: `findSupportedFormat` under optimal tiling (and likewise under
linear tiling) returns a format exactly when it is the first candidate whose
features for that tiling contain all requested feature bits, and fails exactly
when no candidate's do; so `findDepthFormat` returns the first of `D32_SFLOAT`,
`D32_SFLOAT_S8_UINT`, `D24_UNORM_S8_UINT` whose optimal-tiling features include
the depth-stencil-attachment bit, and fails exactly when none of the three
does. -/
theorem findSupportedFormat_first_supported (formatProperties : Nat → VkFormatProperties)
    (candidates : List Nat) (features : Nat) :
    (∀ format,
        findSupportedFormat formatProperties candidates VK_IMAGE_TILING_OPTIMAL features =
            .ok format ↔
          (formatProperties format).optimalTilingFeatures &&& features = features ∧
            ∃ front back, candidates = front ++ format :: back ∧
              ∀ earlier ∈ front,
                (formatProperties earlier).optimalTilingFeatures &&& features ≠ features) ∧
      (findSupportedFormat formatProperties candidates VK_IMAGE_TILING_OPTIMAL features =
          .error .NoSupportedFormat ↔
        ∀ format ∈ candidates,
          (formatProperties format).optimalTilingFeatures &&& features ≠ features) ∧
      (∀ format,
        findSupportedFormat formatProperties candidates VK_IMAGE_TILING_LINEAR features =
            .ok format ↔
          (formatProperties format).linearTilingFeatures &&& features = features ∧
            ∃ front back, candidates = front ++ format :: back ∧
              ∀ earlier ∈ front,
                (formatProperties earlier).linearTilingFeatures &&& features ≠ features) ∧
      (findSupportedFormat formatProperties candidates VK_IMAGE_TILING_LINEAR features =
          .error .NoSupportedFormat ↔
        ∀ format ∈ candidates,
          (formatProperties format).linearTilingFeatures &&& features ≠ features) ∧
      (findDepthFormat formatProperties =
          (if (formatProperties VK_FORMAT_D32_SFLOAT).optimalTilingFeatures &&&
              VK_FORMAT_FEATURE_DEPTH_STENCIL_ATTACHMENT_BIT =
              VK_FORMAT_FEATURE_DEPTH_STENCIL_ATTACHMENT_BIT then .ok VK_FORMAT_D32_SFLOAT
           else if (formatProperties VK_FORMAT_D32_SFLOAT_S8_UINT).optimalTilingFeatures &&&
              VK_FORMAT_FEATURE_DEPTH_STENCIL_ATTACHMENT_BIT =
              VK_FORMAT_FEATURE_DEPTH_STENCIL_ATTACHMENT_BIT then
             .ok VK_FORMAT_D32_SFLOAT_S8_UINT
           else if (formatProperties VK_FORMAT_D24_UNORM_S8_UINT).optimalTilingFeatures &&&
              VK_FORMAT_FEATURE_DEPTH_STENCIL_ATTACHMENT_BIT =
              VK_FORMAT_FEATURE_DEPTH_STENCIL_ATTACHMENT_BIT then
             .ok VK_FORMAT_D24_UNORM_S8_UINT
           else .error .NoSupportedFormat)) := by
  have hoptimal := find_first_iff (fun format =>
    (formatProperties format).optimalTilingFeatures &&& features == features) candidates
  have hlinear := find_first_iff (fun format =>
    (formatProperties format).linearTilingFeatures &&& features == features) candidates
  simp only [beq_iff_eq, beq_eq_false_iff_ne, ne_eq] at hoptimal hlinear
  rw [findSupportedFormat_optimal, findSupportedFormat_linear]
  refine ⟨hoptimal.1, hoptimal.2, hlinear.1, hlinear.2, ?_⟩
  unfold findDepthFormat
  rw [findSupportedFormat_optimal]
  simp only [List.find?_cons, List.find?_nil]
  by_cases h1 : (formatProperties VK_FORMAT_D32_SFLOAT).optimalTilingFeatures &&&
      VK_FORMAT_FEATURE_DEPTH_STENCIL_ATTACHMENT_BIT =
      VK_FORMAT_FEATURE_DEPTH_STENCIL_ATTACHMENT_BIT
  · rw [if_pos h1, beq_iff_eq.mpr h1]
  · rw [if_neg h1, beq_eq_false_iff_ne.mpr h1]
    by_cases h2 : (formatProperties VK_FORMAT_D32_SFLOAT_S8_UINT).optimalTilingFeatures &&&
        VK_FORMAT_FEATURE_DEPTH_STENCIL_ATTACHMENT_BIT =
        VK_FORMAT_FEATURE_DEPTH_STENCIL_ATTACHMENT_BIT
    · rw [if_pos h2, beq_iff_eq.mpr h2]
    · rw [if_neg h2, beq_eq_false_iff_ne.mpr h2]
      by_cases h3 : (formatProperties VK_FORMAT_D24_UNORM_S8_UINT).optimalTilingFeatures &&&
          VK_FORMAT_FEATURE_DEPTH_STENCIL_ATTACHMENT_BIT =
          VK_FORMAT_FEATURE_DEPTH_STENCIL_ATTACHMENT_BIT
      · rw [if_pos h3, beq_iff_eq.mpr h3]
      · rw [if_neg h3, beq_eq_false_iff_ne.mpr h3]

/-- Claim C29 (evaluation at the failing input): after `initVulkan` the ring
holds two command buffers for two frames in flight; a frame whose presentation
is suboptimal recreates the swapchain and leaves the ring empty, because
`cleanupSwapChain` frees and clears it and `recreateSwapChain` never allocates
it again; the next `drawFrame` then reaches for the command buffer of its slot
in an empty ring.  The ring is empty after every `recreateSwapChain`. -/
theorem recreateSwapChain_leaves_command_buffer_ring_empty :
    sampleEngine.m_CommandBuffers = 2 ∧
      (mainLoop 2 [sampleFrameDriver VK_SUCCESS VK_SUBOPTIMAL_KHR,
          sampleFrameDriver VK_SUCCESS VK_SUCCESS] sampleEngine).map
        (fun result => (result.outcome, result.engine.m_CurrentFrameIdx,
          result.engine.m_CommandBuffers)) =
        [(.completed, 1, 0), (.fatal .IndexOutOfRange, 1, 0)] ∧
      sampleInitialBundle.m_CommandBuffers = 2 ∧
      (SwapChainBundle.recreateSwapChain sampleSettings sampleSuitableDevice sampleBundleDriver
        sampleInitialBundle).toOption.map (fun after => after.m_CommandBuffers) = some 0 ∧
      (∀ (MAX_FRAMES_IN_FLIGHT : Nat) (driver : FrameDriver) (engine : EngineState),
        (recreateSwapChain MAX_FRAMES_IN_FLIGHT driver engine).1.m_CommandBuffers = 0) ∧
      (∀ bundle : SwapChainBundle, bundle.cleanupSwapChain.m_CommandBuffers = 0) :=
  ⟨rfl, by decide, rfl, rfl,
   fun MAX_FRAMES_IN_FLIGHT driver engine =>
     (recreateSwapChain_fields MAX_FRAMES_IN_FLIGHT driver engine).2.2.2.2,
   fun _ => rfl⟩

/-- The loop of `generateMipmaps` records one blit per iteration. -/
theorem blitsOf_generateMipmapsLoop_length (image : Nat) :
    ∀ (remaining i : Nat) (mipWidth mipHeight : Int),
      (blitsOf (generateMipmapsLoop image remaining i mipWidth mipHeight)).length =
        remaining := by
  intro remaining
  induction remaining with
  | zero => intro i mipWidth mipHeight; rfl
  | succ n ih =>
    intro i mipWidth mipHeight
    simp only [generateMipmapsLoop, blitsOf, List.length_cons, ih]

/-- The loop of `generateMipmaps` records two barriers per iteration. -/
theorem barriers_generateMipmapsLoop (image : Nat) :
    ∀ (remaining i : Nat) (mipWidth mipHeight : Int),
      (generateMipmapsLoop image remaining i mipWidth mipHeight).countP Command.isBarrier =
        2 * remaining := by
  intro remaining
  induction remaining with
  | zero => intro i mipWidth mipHeight; rfl
  | succ n ih =>
    intro i mipWidth mipHeight
    simp only [generateMipmapsLoop, List.countP_cons, Command.isBarrier, ih]
    simp
    omega

/-- A blit destination extent is at least 1. -/
theorem one_le_blitDstExtent (mip : Int) : 1 ≤ blitDstExtent mip := by
  unfold blitDstExtent
  split <;> omega

/-- Every blit of the loop of `generateMipmaps` has a destination of at least
1 by 1. -/
theorem blitsOf_generateMipmapsLoop_dst (image : Nat) :
    ∀ (remaining i : Nat) (mipWidth mipHeight : Int),
      ∀ blit ∈ blitsOf (generateMipmapsLoop image remaining i mipWidth mipHeight),
        1 ≤ blit.dstWidth ∧ 1 ≤ blit.dstHeight := by
  intro remaining
  induction remaining with
  | zero => intro i mipWidth mipHeight blit h; simp [generateMipmapsLoop, blitsOf] at h
  | succ n ih =>
    intro i mipWidth mipHeight blit h
    simp only [generateMipmapsLoop, blitsOf, List.mem_cons] at h
    rcases h with h | h
    · rw [h]; exact ⟨one_le_blitDstExtent _, one_le_blitDstExtent _⟩
    · exact ih _ _ _ blit h

/-- The mip count computed at load brackets the larger side between two
consecutive powers of two. -/
theorem computeMipLevels_bracket (texWidth texHeight : Int) (hwidth : 1 ≤ texWidth) :
    (2 : Int) ^ (computeMipLevels texWidth texHeight - 1) ≤ max texWidth texHeight ∧
      max texWidth texHeight < (2 : Int) ^ computeMipLevels texWidth texHeight := by
  have hmax : 1 ≤ max texWidth texHeight := le_trans hwidth (le_max_left _ _)
  obtain ⟨m, hm⟩ : ∃ m : Nat, max texWidth texHeight = (m : Int) :=
    ⟨(max texWidth texHeight).toNat, (Int.toNat_of_nonneg (by omega)).symm⟩
  have hm0 : m ≠ 0 := by intro h; rw [h] at hm; omega
  have hlow : 2 ^ m.log2 ≤ m := Nat.log2_self_le hm0
  have hhigh : m < 2 ^ (m.log2 + 1) := Nat.lt_log2_self
  unfold computeMipLevels
  rw [hm, Int.toNat_ofNat, Nat.add_sub_cancel]
  exact ⟨by exact_mod_cast hlow, by exact_mod_cast hhigh⟩

/-- A side below `2 ^ (k + 1)` divided by `2 ^ k` and clamped to 1 is 1. -/
theorem max_one_ediv_eq_one (side : Int) (k : Nat) (hside : side < 2 ^ (k + 1)) :
    max 1 (side / 2 ^ k) = 1 := by
  have hpos : (0 : Int) < 2 ^ k := by positivity
  have : side / 2 ^ k < 2 := by
    apply Int.ediv_lt_of_lt_mul hpos
    rw [pow_succ] at hside
    linarith
  omega

/-- Claim C30: for every texture of width and height at least 1 whose format
supports linear blitting, with the mip count `L` computed at load,
`generateMipmaps` records exactly `L - 1` blits and `2 * (L - 1) + 1` barriers,
every blit destination is at least 1 by 1, the last blit writes level `L - 1`
with a destination extent of exactly 1 by 1, and when `L = 1` no blit is
recorded and the texture is 1 by 1. -/
theorem generateMipmaps_blit_and_barrier_counts (optimalTilingFeatures image : Nat)
    (texWidth texHeight : Int)
    (hlinear :
      optimalTilingFeatures &&& VK_FORMAT_FEATURE_SAMPLED_IMAGE_FILTER_LINEAR_BIT ≠ 0)
    (hwidth : 1 ≤ texWidth) (hheight : 1 ≤ texHeight) :
    (blitsOf (generateMipmaps optimalTilingFeatures image texWidth texHeight
        (computeMipLevels texWidth texHeight)).1).length =
        computeMipLevels texWidth texHeight - 1 ∧
      (generateMipmaps optimalTilingFeatures image texWidth texHeight
        (computeMipLevels texWidth texHeight)).1.countP Command.isBarrier =
        2 * (computeMipLevels texWidth texHeight - 1) + 1 ∧
      (∀ blit ∈ blitsOf (generateMipmaps optimalTilingFeatures image texWidth texHeight
          (computeMipLevels texWidth texHeight)).1,
        1 ≤ blit.dstWidth ∧ 1 ≤ blit.dstHeight) ∧
      (2 ≤ computeMipLevels texWidth texHeight →
        ∃ blit, (blitsOf (generateMipmaps optimalTilingFeatures image texWidth texHeight
            (computeMipLevels texWidth texHeight)).1).getLast? = some blit ∧
          blit.dstMipLevel = computeMipLevels texWidth texHeight - 1 ∧
          blit.dstWidth = 1 ∧ blit.dstHeight = 1) ∧
      (computeMipLevels texWidth texHeight = 1 →
        blitsOf (generateMipmaps optimalTilingFeatures image texWidth texHeight
            (computeMipLevels texWidth texHeight)).1 = [] ∧
          texWidth = 1 ∧ texHeight = 1) := by
  obtain ⟨hlow, hhigh⟩ := computeMipLevels_bracket texWidth texHeight hwidth
  have hblits := blitsOf_generateMipmaps optimalTilingFeatures image texWidth texHeight
    (computeMipLevels texWidth texHeight) hlinear
  have hlen := blitsOf_generateMipmapsLoop_length image
    (computeMipLevels texWidth texHeight - 1) 1 texWidth texHeight
  refine ⟨by rw [hblits, hlen], ?_, ?_, ?_, ?_⟩
  · unfold generateMipmaps
    rw [if_neg hlinear]
    simp only [List.countP_cons, List.countP_append, List.countP_nil, Command.isBarrier,
      barriers_generateMipmapsLoop]
    simp
  · rw [hblits]
    exact blitsOf_generateMipmapsLoop_dst image _ _ _ _
  · intro hL
    obtain ⟨k, hk⟩ : ∃ k, computeMipLevels texWidth texHeight = k + 2 :=
      ⟨computeMipLevels texWidth texHeight - 2, by omega⟩
    rw [hk] at hhigh hlen hblits ⊢
    have hw : texWidth < 2 ^ (k + 1 + 1) := lt_of_le_of_lt (le_max_left _ _) hhigh
    have hh : texHeight < 2 ^ (k + 1 + 1) := lt_of_le_of_lt (le_max_right _ _) hhigh
    have hlast := blitsOf_generateMipmapsLoop image (k + 2 - 1) 1 k texWidth texHeight
      (by omega)
    have hw0 : (0 : Int) ≤ texWidth / 2 ^ k := Int.ediv_nonneg (by omega) (by positivity)
    have hh0 : (0 : Int) ≤ texHeight / 2 ^ k := Int.ediv_nonneg (by omega) (by positivity)
    rw [halveMip_iterate _ hwidth, halveMip_iterate _ hheight, blitDstExtent_max _ hw0,
      blitDstExtent_max _ hh0, ediv_two_pow_succ _ (by omega), ediv_two_pow_succ _ (by omega),
      max_one_ediv_eq_one _ _ hw, max_one_ediv_eq_one _ _ hh] at hlast
    refine ⟨{ srcMipLevel := 1 + k - 1, srcWidth := max 1 (texWidth / 2 ^ k),
              srcHeight := max 1 (texHeight / 2 ^ k), dstMipLevel := 1 + k,
              dstWidth := 1, dstHeight := 1 }, ?_, ?_, rfl, rfl⟩
    · rw [hblits, List.getLast?_eq_getElem?, hlen]
      exact hlast
    · dsimp only
      omega
  · intro hL
    rw [hL] at hhigh hlen hblits ⊢
    refine ⟨?_, ?_, ?_⟩
    · rw [hblits]
      exact List.length_eq_zero.mp hlen
    · have := le_max_left texWidth texHeight
      norm_num at hhigh
      omega
    · have := le_max_right texWidth texHeight
      norm_num at hhigh
      omega

/-- Witness for C30: a 5 by 3 texture has three levels, so two blits and five
barriers are recorded, and the last blit writes level 2 at 1 by 1. -/
theorem generateMipmaps_blit_and_barrier_counts_witness :
    computeMipLevels 5 3 = 3 ∧
      (blitsOf (generateMipmaps 0x1000 7 5 3 3).1).length = 2 ∧
      (generateMipmaps 0x1000 7 5 3 3).1.countP Command.isBarrier = 5 ∧
      (blitsOf (generateMipmaps 0x1000 7 5 3 3).1).getLast? =
        some { srcMipLevel := 1, srcWidth := 2, srcHeight := 1,
               dstMipLevel := 2, dstWidth := 1, dstHeight := 1 } ∧
      (blitsOf (generateMipmaps 0x1000 7 5 3 (computeMipLevels 5 3)).1).length =
        computeMipLevels 5 3 - 1 :=
  ⟨by simp [computeMipLevels, Nat.log2], by decide, by decide, by decide,
   (generateMipmaps_blit_and_barrier_counts 0x1000 7 5 3 (by decide) (by decide)
     (by decide)).1⟩

/-- Claim C26 (evaluation at the failing input): at the extent 32768 by 32768,
both sides 32-bit values, the size `width * height * 4` computed in `uint32_t`
is 0, so the file holds the eight header bytes and no pixel byte instead of
`8 + 32768 * 32768 * 4` bytes. -/
theorem captureFramebuffer_size_wraps :
    (32768 : Nat) < 2 ^ 32 ∧
      captureFramebuffer sampleHostVisibleDriver { width := 32768, height := 32768 } 50 7
        sampleRedPixels true = .ok (some [0, 128, 0, 0, 0, 128, 0, 0]) ∧
      ([0, 128, 0, 0, 0, 128, 0, 0] : List Nat).length ≠ 8 + 32768 * 32768 * 4 := by
  refine ⟨by decide, rfl, by decide⟩

/-- The four bytes written for a `uint32_t` are bytes and encode the value,
lowest byte first. -/
theorem uint32Bytes_decode (value : Nat) (hvalue : value < 2 ^ 32) :
    ∃ b0 b1 b2 b3, uint32Bytes value = [b0, b1, b2, b3] ∧
      b0 < 256 ∧ b1 < 256 ∧ b2 < 256 ∧ b3 < 256 ∧
      b0 + 256 * b1 + 65536 * b2 + 16777216 * b3 = value := by
  refine ⟨_, _, _, _, rfl, ?_, ?_, ?_, ?_, ?_⟩
  · omega
  · omega
  · omega
  · omega
  · norm_num at hvalue
    omega

/-- The layout of the screenshot where the size does not wrap: for every
swapchain extent of 32-bit sides with `width * height * 4` below `2^32`, when
the staging buffer is created and the file opens, the file written by
`captureFramebuffer` is the four bytes of the width, lowest first, the four
bytes of the height, lowest first, and then the `width * height * 4` bytes of
the read-back buffer in order, `8 + width * height * 4` bytes in all. -/
theorem captureFramebuffer_file_layout (driver : AllocationDriver)
    (m_SwapChainExtent : VkExtent2D) (m_SwapChainImageFormat image : Nat)
    (pixelData : Nat → Nat)
    (hwidth : m_SwapChainExtent.width < 2 ^ 32) (hheight : m_SwapChainExtent.height < 2 ^ 32)
    (hsize : m_SwapChainExtent.width * m_SwapChainExtent.height * 4 < 2 ^ 32)
    (hbuffer : (createBuffer driver
      (m_SwapChainExtent.width * m_SwapChainExtent.height * 4) VK_BUFFER_USAGE_TRANSFER_DST_BIT
      (VK_MEMORY_PROPERTY_HOST_VISIBLE_BIT ||| VK_MEMORY_PROPERTY_HOST_COHERENT_BIT)).2 =
        .ok ()) :
    ∃ w0 w1 w2 w3 h0 h1 h2 h3,
      captureFramebuffer driver m_SwapChainExtent m_SwapChainImageFormat image pixelData true =
          .ok (some ([w0, w1, w2, w3] ++ [h0, h1, h2, h3] ++
            (List.range (m_SwapChainExtent.width * m_SwapChainExtent.height * 4)).map
              pixelData)) ∧
        ([w0, w1, w2, w3] ++ [h0, h1, h2, h3] ++
            (List.range (m_SwapChainExtent.width * m_SwapChainExtent.height * 4)).map
              pixelData).length =
          8 + m_SwapChainExtent.width * m_SwapChainExtent.height * 4 ∧
        (w0 < 256 ∧ w1 < 256 ∧ w2 < 256 ∧ w3 < 256 ∧
          w0 + 256 * w1 + 65536 * w2 + 16777216 * w3 = m_SwapChainExtent.width) ∧
        (h0 < 256 ∧ h1 < 256 ∧ h2 < 256 ∧ h3 < 256 ∧
          h0 + 256 * h1 + 65536 * h2 + 16777216 * h3 = m_SwapChainExtent.height) := by
  obtain ⟨w0, w1, w2, w3, hw, hw0, hw1, hw2, hw3, hwv⟩ :=
    uint32Bytes_decode m_SwapChainExtent.width hwidth
  obtain ⟨h0, h1, h2, h3, hh, hh0, hh1, hh2, hh3, hhv⟩ :=
    uint32Bytes_decode m_SwapChainExtent.height hheight
  refine ⟨w0, w1, w2, w3, h0, h1, h2, h3, ?_, ?_, ⟨hw0, hw1, hw2, hw3, hwv⟩,
    ⟨hh0, hh1, hh2, hh3, hhv⟩⟩
  · unfold captureFramebuffer
    dsimp only
    rw [Nat.mod_eq_of_lt hsize, hbuffer]
    have h1 : (transitionImageLayout image m_SwapChainImageFormat
        VK_IMAGE_LAYOUT_PRESENT_SRC_KHR VK_IMAGE_LAYOUT_TRANSFER_SRC_OPTIMAL 1).2 = .ok () := rfl
    have h2 : (transitionImageLayout image m_SwapChainImageFormat
        VK_IMAGE_LAYOUT_TRANSFER_SRC_OPTIMAL VK_IMAGE_LAYOUT_PRESENT_SRC_KHR 1).2 = .ok () := rfl
    rw [h1, h2, hw, hh]
    rfl
  · simp
    omega

/-- The layout at the extent 4 by 2 of a solid red frame: the file has 40
bytes: 4 and 2, lowest byte first, then eight copies of `FF 00 00 FF`. -/
theorem captureFramebuffer_file_layout_witness :
    captureFramebuffer sampleHostVisibleDriver { width := 4, height := 2 } 50 7
        sampleRedPixels true =
        .ok (some ([4, 0, 0, 0, 2, 0, 0, 0] ++
          (List.replicate 8 [255, 0, 0, 255]).flatten)) ∧
      ([4, 0, 0, 0, 2, 0, 0, 0] ++ (List.replicate 8 [255, 0, 0, 255]).flatten : List Nat).length =
        40 ∧
      ∃ w0 w1 w2 w3 h0 h1 h2 h3,
        captureFramebuffer sampleHostVisibleDriver { width := 4, height := 2 } 50 7
            sampleRedPixels true =
            .ok (some ([w0, w1, w2, w3] ++ [h0, h1, h2, h3] ++
              (List.range (4 * 2 * 4)).map sampleRedPixels)) ∧
          w0 + 256 * w1 + 65536 * w2 + 16777216 * w3 = 4 ∧
          h0 + 256 * h1 + 65536 * h2 + 16777216 * h3 = 2 :=
  ⟨rfl, by decide,
   (captureFramebuffer_file_layout sampleHostVisibleDriver { width := 4, height := 2 } 50 7
     sampleRedPixels (by decide) (by decide) (by decide) rfl).imp
     (fun _ h => h.imp (fun _ h => h.imp (fun _ h => h.imp (fun _ h => h.imp (fun _ h =>
       h.imp (fun _ h => h.imp (fun _ h => h.imp (fun _ h =>
         ⟨h.1, h.2.2.1.2.2.2.2, h.2.2.2.2.2.2.2⟩))))))))⟩

/-- Counterexample for C28: `cleanup` does not destroy in the strict reverse of
the creation order.  The sync objects are created last, but the first thing
destroyed is the colour attachment; the framebuffers are created after the
colour attachment and are also destroyed after it; and the debug messenger,
created before the surface, is destroyed before it. -/
theorem cleanup_is_not_strict_reverse_of_creation :
    cleanupCalls true ≠
        .vkDeviceWaitIdle :: ((initVulkanCreations true).reverse.map .destroy) ∧
      (initVulkanCreations true).reverse.head? = some .createSyncObjects ∧
      (cleanupCalls true)[1]? = some (.destroy .createColorResources) ∧
      (initVulkanCreations true).indexOf .createColorResources <
        (initVulkanCreations true).indexOf .createFramebuffers ∧
      (cleanupCalls true).indexOf (.destroy .createColorResources) <
        (cleanupCalls true).indexOf (.destroy .createFramebuffers) ∧
      (initVulkanCreations true).indexOf .setupDebugMessenger <
        (initVulkanCreations true).indexOf .createSurface ∧
      (cleanupCalls true).indexOf (.destroy .setupDebugMessenger) <
        (cleanupCalls true).indexOf (.destroy .createSurface) := by
  decide

/-- Claim C28 (amended): `cleanup`, with `cleanupSwapChain` inlined, first
waits for the device to be idle and then destroys exactly what `initVulkan`
created, each thing once; the logical device is destroyed after every object
that belongs to it, and the surface is destroyed last before the instance. -/
theorem cleanup_destroys_everything_device_last (enableValidationLayers : Bool) :
    (cleanupCalls enableValidationLayers).head? = some .vkDeviceWaitIdle ∧
      (cleanupCalls enableValidationLayers).Nodup ∧
      (∀ step, .destroy step ∈ cleanupCalls enableValidationLayers ↔
        step ∈ initVulkanCreations enableValidationLayers) ∧
      (initVulkanCreations enableValidationLayers).Nodup ∧
      ∃ front, cleanupCalls enableValidationLayers =
          front ++ [.destroy .createLogicalDevice, .destroy .createSurface,
            .destroy .createInstance] ∧
        ∀ step, step.deviceOwned = true →
          step ∈ initVulkanCreations enableValidationLayers → .destroy step ∈ front := by
  cases enableValidationLayers
  · refine ⟨rfl, by decide, fun step => by cases step <;> decide, by decide,
      (cleanupCalls false).take 19, by decide, fun step => by cases step <;> decide⟩
  · refine ⟨rfl, by decide, fun step => by cases step <;> decide, by decide,
      (cleanupCalls true).take 20, by decide, fun step => by cases step <;> decide⟩

/-- A vector of unit length is its own `normalize`. -/
theorem normalize_of_dot_eq_one (v : Vec3) (h : dot v v = 1) : normalize v = v := by
  unfold normalize Vec3.scale
  rw [h, Real.sqrt_one]
  simp

/-- The level sample camera after a pitch offset of `pitchOffset` degrees with
a limit that the offset exceeds: the new centre is the normalized vector
`(cos, sin CAMERA_MAX_PITCH, 0)`. -/
theorem lookAround_sampleLevelCamera (CAMERA_MAX_PITCH pitchOffset : ℝ)
    (hover : CAMERA_MAX_PITCH < radians pitchOffset)
    (hquarter : radians pitchOffset ≤ Real.pi / 2) (hlimit : 0 < CAMERA_MAX_PITCH) :
    (lookAround CAMERA_MAX_PITCH sampleLevelCamera 0 pitchOffset).m_CameraCenter =
      normalize ⟨Real.cos (radians pitchOffset), Real.sin CAMERA_MAX_PITCH, 0⟩ ∧
    (lookAround CAMERA_MAX_PITCH sampleLevelCamera 0 pitchOffset).m_CameraEye = ⟨0, 0, 0⟩ := by
  have hlook : getCameraLookDirection sampleLevelCamera = ⟨1, 0, 0⟩ := by
    unfold getCameraLookDirection
    rw [normalize_of_dot_eq_one] <;> simp [sampleLevelCamera, Vec3.sub, dot]
  have hup : normalize (⟨0, 1, 0⟩ : Vec3) = ⟨0, 1, 0⟩ :=
    normalize_of_dot_eq_one _ (by simp [dot])
  have hright : normalize (cross ⟨1, 0, 0⟩ ⟨0, 1, 0⟩) = ⟨0, 0, 1⟩ := by
    rw [normalize_of_dot_eq_one] <;> simp [cross, dot]
  have hzero : radians 0 = 0 := by simp [radians]
  have hyaw : (rotate (radians 0) ⟨0, 1, 0⟩).mulVec ⟨1, 0, 0⟩ = ⟨1, 0, 0⟩ := by
    rw [hzero]
    unfold rotate
    simp [Mat3.mulVec, hup, Vec3.scale]
  have hz : normalize (⟨0, 0, 1⟩ : Vec3) = ⟨0, 0, 1⟩ :=
    normalize_of_dot_eq_one _ (by simp [dot])
  have hpitch : (rotate (radians pitchOffset) ⟨0, 0, 1⟩).mulVec ⟨1, 0, 0⟩ =
      ⟨Real.cos (radians pitchOffset), Real.sin (radians pitchOffset), 0⟩ := by
    unfold rotate
    simp [Mat3.mulVec, hz, Vec3.scale]
  have hasin : Real.arcsin (Real.sin (radians pitchOffset)) = radians pitchOffset :=
    Real.arcsin_sin (by linarith) hquarter
  constructor
  · unfold lookAround
    simp only [hlook]
    simp only [sampleLevelCamera, hright, hyaw, hpitch, hasin, gt_iff_lt, if_pos hover]
    ext <;> simp [Vec3.add]
  · rfl

/-- Claim C27: the clamp of `lookAround` does not bound the pitch.  For every
limit strictly between 0 and a quarter turn, turning the level camera at the
origin upwards by any pitch offset beyond the limit, up to a quarter turn,
leaves a look direction whose pitch `asin(lookDir.y)` is still greater than
`CAMERA_MAX_PITCH`: the code replaces `y` by `sin(CAMERA_MAX_PITCH)` and then
normalizes the shortened vector, which raises `y` again. -/
theorem lookAround_pitch_exceeds_limit (CAMERA_MAX_PITCH pitchOffset : ℝ)
    (hlimit : 0 < CAMERA_MAX_PITCH)
    (hover : CAMERA_MAX_PITCH < radians pitchOffset)
    (hquarter : radians pitchOffset ≤ Real.pi / 2) :
    CAMERA_MAX_PITCH <
      Real.arcsin (getCameraLookDirection
        (lookAround CAMERA_MAX_PITCH sampleLevelCamera 0 pitchOffset)).y := by
  obtain ⟨hcenter, heye⟩ :=
    lookAround_sampleLevelCamera CAMERA_MAX_PITCH pitchOffset hover hquarter hlimit
  have hhalf : CAMERA_MAX_PITCH < Real.pi / 2 := lt_of_lt_of_le hover hquarter
  have hsin : 0 < Real.sin CAMERA_MAX_PITCH :=
    Real.sin_pos_of_pos_of_lt_pi hlimit (by linarith [Real.pi_pos])
  have hlt : Real.sin CAMERA_MAX_PITCH < Real.sin (radians pitchOffset) :=
    Real.sin_lt_sin_of_lt_of_le_pi_div_two (by linarith) hquarter hover
  set c := Real.cos (radians pitchOffset) with hc
  set s := Real.sin CAMERA_MAX_PITCH with hs
  have hunit : c ^ 2 + Real.sin (radians pitchOffset) ^ 2 = 1 := by
    rw [hc, add_comm]
    exact Real.sin_sq_add_cos_sq _
  have hsum_pos : 0 < c * c + s * s := by nlinarith [mul_self_nonneg c]
  have hsum_lt : c * c + s * s < 1 := by nlinarith
  have hroot_pos : 0 < Real.sqrt (c * c + s * s) := Real.sqrt_pos.mpr hsum_pos
  have hroot_lt : Real.sqrt (c * c + s * s) < 1 := by
    rw [← Real.sqrt_one]
    exact Real.sqrt_lt_sqrt hsum_pos.le hsum_lt
  have hnorm : dot (normalize ⟨c, s, 0⟩) (normalize ⟨c, s, 0⟩) = 1 := by
    simp only [normalize, Vec3.scale, dot]
    have hsq : Real.sqrt (c * c + s * s) * Real.sqrt (c * c + s * s) = c * c + s * s :=
      Real.mul_self_sqrt hsum_pos.le
    have hne : Real.sqrt (c * c + s * s) ≠ 0 := hroot_pos.ne.symm
    simp only [mul_zero, add_zero]
    field_simp
  have hfinal : (getCameraLookDirection
      (lookAround CAMERA_MAX_PITCH sampleLevelCamera 0 pitchOffset)).y =
      s / Real.sqrt (c * c + s * s) := by
    unfold getCameraLookDirection
    rw [hcenter, heye]
    have hsub : (normalize ⟨c, s, 0⟩).sub ⟨0, 0, 0⟩ = normalize ⟨c, s, 0⟩ := by
      ext <;> simp [Vec3.sub]
    rw [hsub, normalize_of_dot_eq_one _ hnorm]
    simp [normalize, Vec3.scale, dot, div_eq_mul_inv]
  rw [hfinal, Real.lt_arcsin_iff_sin_lt' ⟨by linarith, hhalf⟩, ← hs,
    lt_div_iff₀ hroot_pos]
  nlinarith

/-- Witness for C27: with a limit of a twelfth of a turn the level camera
turned upwards by 90 degrees keeps a pitch above the limit. -/
theorem lookAround_pitch_exceeds_limit_witness :
    Real.pi / 6 <
      Real.arcsin (getCameraLookDirection
        (lookAround (Real.pi / 6) sampleLevelCamera 0 90)).y :=
  lookAround_pitch_exceeds_limit (Real.pi / 6) 90 (by positivity)
    (by unfold radians; linarith [Real.pi_pos]) (by unfold radians; linarith [Real.pi_pos])

end Engine
